import Mathlib

/-!
# EveRo build scripts: anchor-based source patching

A shallow embedding of the patch scripts under `roro-win/scripts/` and
`scripts/`.  Every script reads a generated artifact (`out/main/index.js`,
`out/preload/index.js`, the renderer bundle) into a JavaScript string, rewrites
it with `indexOf` / `includes` / `replace` / `substring`, and writes it back.

A JavaScript string is modelled by the list of its code units (`Text`); the
string primitives below follow ECMA-262 for the argument shapes the scripts use
(string search patterns, and the one escaped-literal regular expression of
`patch-process-detection.js`, which has no capture group).
-/

set_option autoImplicit false

namespace Evero

/-- The content of a JavaScript string, as the list of its code units. -/
abbrev Text := List Char

/-! ## JavaScript string primitives -/

/-- Search loop of `String.prototype.indexOf`: `k` is the index in the whole
string of the head of the text still to be searched; the result is the first
index at which `pat` starts, or `-1`. -/
def indexOfAux (pat : Text) : Text → Nat → Int
  | [], k => if pat.isPrefixOf [] then (k : Int) else -1
  | c :: rest, k =>
    if pat.isPrefixOf (c :: rest) then (k : Int) else indexOfAux pat rest (k + 1)

/-- The call `s.indexOf(pat)`. -/
def indexOf (s pat : Text) : Int :=
  indexOfAux pat s 0

/-- The call `s.indexOf(pat, pos)`: the start position is clamped to `[0, s.length]`. -/
def indexOfFrom (s pat : Text) (pos : Int) : Int :=
  indexOfAux pat (s.drop (min pos.toNat s.length)) (min pos.toNat s.length)

/-- The call `s.includes(pat)`. -/
def includes (s pat : Text) : Bool :=
  decide (indexOf s pat ≠ -1)

/-- Search loop of `String.prototype.lastIndexOf`, downwards from index `k`. -/
def lastIndexOfAux (s pat : Text) : Nat → Int
  | 0 => if pat.isPrefixOf s then 0 else -1
  | k + 1 =>
    if pat.isPrefixOf (s.drop (k + 1)) then ((k + 1 : Nat) : Int) else lastIndexOfAux s pat k

/-- The call `s.lastIndexOf(pat, pos)`: the search starts at
`min(max(pos, 0), s.length - pat.length)` and goes down to index 0. -/
def lastIndexOf (s pat : Text) (pos : Int) : Int :=
  if s.length < pat.length then -1
  else lastIndexOfAux s pat (min pos.toNat (s.length - pat.length))

/-- The call `s.substring(a, b)`: both bounds are clamped to `[0, s.length]` and
swapped when `a > b`. -/
def substring (s : Text) (a b : Int) : Text :=
  (s.drop (min (min a.toNat s.length) (min b.toNat s.length))).take
    (max (min a.toNat s.length) (min b.toNat s.length)
      - min (min a.toNat s.length) (min b.toNat s.length))

/-- The call `s.substring(a)`. -/
def substringFrom (s : Text) (a : Int) : Text :=
  s.drop (min a.toNat s.length)

/-- The abstract operation `GetSubstitution` of ECMA-262 for a match without
capture groups: in the replacement text `$$` stands for `$`, `$&` for the
matched text, `` $` `` for the text before the match and `$'` for the text
after it; every other `$` (also `$1`..`$99` and `$<`, which refer to captures
that do not exist) is kept as written. -/
def getSubstitution (matched str : Text) (position : Nat) : Text → Text
  | [] => []
  | [c] => [c]
  | c :: d :: rest =>
    if c = '$' ∧ d = '$' then '$' :: getSubstitution matched str position rest
    else if c = '$' ∧ d = '&' then matched ++ getSubstitution matched str position rest
    else if c = '$' ∧ d = '\x60' then
      str.take position ++ getSubstitution matched str position rest
    else if c = '$' ∧ d = '\x27' then
      str.drop (position + matched.length) ++ getSubstitution matched str position rest
    else c :: getSubstitution matched str position (d :: rest)

/-- The call `s.replace(pat, repl)` with a string pattern (or a regular
expression that is one escaped literal, without the `g` flag): only the first
occurrence is replaced, and `repl` goes through `getSubstitution`. -/
def replace (s pat repl : Text) : Text :=
  if indexOf s pat = -1 then s
  else
    s.take (indexOf s pat).toNat
      ++ getSubstitution pat s (indexOf s pat).toNat repl
      ++ s.drop ((indexOf s pat).toNat + pat.length)

/-! ## Balanced-delimiter scans -/

/-- The loop `while (pos < code.length && depth > 0) { if (code[pos] === op)
depth++; else if (code[pos] === cl) depth--; pos++; }` of
`patch-path-normalization.js` (PATCH 3, braces) and of
`patch-windows-improvements.js` (PATCH 3, parentheses).  The first argument is
the text from index `pos` on, so it is empty exactly when `pos = code.length`;
the result is the final `(pos, depth)`. -/
def scanLoop (op cl : Char) : Text → Nat → Nat → Nat × Nat
  | [], pos, depth => (pos, depth)
  | c :: rest, pos, depth =>
    if depth = 0 then (pos, depth)
    else
      scanLoop op cl rest (pos + 1)
        (if c = op then depth + 1 else if c = cl then depth - 1 else depth)

/-- The brace scan of PATCH 3 of `patch-path-normalization.js`, started at index
`start` (just after the opening brace) with `depth = 1`. -/
def braceScan (code : Text) (start : Nat) : Nat × Nat :=
  scanLoop '{' '}' (code.drop start) start 1

/-- Net change of nesting depth over a text: `+1` for every opening delimiter
and `-1` for every closing one. -/
def netDepth (op cl : Char) : Text → Int
  | [] => 0
  | c :: rest => (if c = op then 1 else if c = cl then -1 else 0) + netDepth op cl rest

/-! ## `patch-path-normalization.js` -/

namespace PathNormalization

/-- The anchor of PATCH 3: the start of the `project-file-map:load` handler. -/
def oldLoadMap : Text :=
  "\"project-file-map:load\",async(t,s,n)=>\x7btry\x7bconst r=await e.loadProject(s,n);return\x7bsuccess:!0,fileMap:\x7bprojectId:r.projectId,projectPath:r.projectPath,files:Array.from(r.files.entries()),agentActivity:Array.from(r.age".toList

/-- PATCH 3 on the main text `code`: when the anchor and the
`return{success:!0,fileMap:{` after it are found, the `fileMap` value, from its
opening brace at `fileMapStart` to the position `pos` the brace scan stops at,
is wrapped in `__normFileMap(` ... `)`.  The final depth of the scan is not
looked at. -/
def patch3 (code : Text) : Text :=
  if includes code oldLoadMap then
    let loadIdx := indexOf code oldLoadMap
    let retStart := indexOfFrom code "return\x7bsuccess:!0,fileMap:\x7b".toList loadIdx
    if retStart ≠ -1 then
      let fileMapStart := indexOfFrom code "fileMap:\x7b".toList retStart + 8
      let pos := (braceScan code (fileMapStart + 1).toNat).1
      let fileMapContent := substring code fileMapStart pos
      let newContent := "__normFileMap(".toList ++ fileMapContent ++ ")".toList
      substring code 0 fileMapStart ++ newContent ++ substringFrom code pos
    else code
  else code

end PathNormalization

/-! ## Guarded literal replacements -/

/-- One guarded replacement `if (code.includes(anchor)) code = code.replace(anchor,
replacement)`; the other branches of the scripts only log. -/
structure Step where
  anchor : Text
  replacement : Text

/-- Effect of one guarded replacement on the buffer. -/
def applyStep (st : Step) (code : Text) : Text :=
  if includes code st.anchor then replace code st.anchor st.replacement else code

/-- A script body that is a sequence of guarded replacements on one buffer. -/
def applySteps (steps : List Step) (code : Text) : Text :=
  steps.foldl (fun buf st => applyStep st buf) code

/-! ## `patch-windows-renderer.js` -/

/-- The bytes of `Buffer.from(s)`: the UTF-8 encoding of the string. -/
def bufferFrom (s : Text) : List Nat :=
  s.flatMap (fun c => (String.utf8EncodeChar c).map UInt8.toNat)

/-- The base64 digit of a six-bit value. -/
def base64Digit (n : Nat) : Char :=
  "ABCDEFGHIJKLMNOPQRSTUVWXYZabcdefghijklmnopqrstuvwxyz0123456789+/".toList.getD n 'A'

/-- The string `buf.toString('base64')` of a byte buffer (with `=` padding). -/
def toBase64 : List Nat → Text
  | [] => []
  | [a] => [base64Digit (a / 4), base64Digit (a % 4 * 16), '=', '=']
  | [a, b] =>
    [base64Digit (a / 4), base64Digit (a % 4 * 16 + b / 16), base64Digit (b % 16 * 4), '=']
  | a :: b :: c :: rest =>
    base64Digit (a / 4) :: base64Digit (a % 4 * 16 + b / 16)
      :: base64Digit (b % 16 * 4 + c / 64) :: base64Digit (c % 64) :: toBase64 rest

namespace WindowsRenderer

/-- The SVG source of the Ollama logo. -/
def ollamaSvg : Text :=
  "<svg xmlns=\"http://www.w3.org/2000/svg\" viewBox=\"0 0 24 24\" fill=\"white\"><path d=\"M12 2C8.5 2 6 4.5 6 7.5c0 1.5.5 2.8 1.3 3.8-.2.5-.3 1-.3 1.7v5.5c0 1.4 1.1 2.5 2.5 2.5h1c1.4 0 2.5-1.1 2.5-2.5V16h-2v2.5c0 .3-.2.5-.5.5h-1c-.3 0-.5-.2-.5-.5V13c0-.8.3-1.5.8-2 .5-.4.7-1.1.5-1.7C9.5 8.5 8 7.5 8 6c0-2.2 1.8-4 4-4s4 1.8 4 4c0 1.5-1.5 2.5-2.3 3.3-.2.6 0 1.3.5 1.7.5.5.8 1.2.8 2v5.5c0 .3-.2.5-.5.5h-1c-.3 0-.5-.2-.5-.5V16h-2v2.5c0 1.4 1.1 2.5 2.5 2.5h1c1.4 0 2.5-1.1 2.5-2.5V13c0-.7-.1-1.2-.3-1.7C17.5 10.3 18 9 18 7.5 18 4.5 15.5 2 12 2zm-1 5a1 1 0 100 2 1 1 0 000-2zm2 0a1 1 0 100 2 1 1 0 000-2z\"/></svg>".toList

/-- The Ollama logo as a base64 data URI. -/
def OLLAMA_LOGO : Text :=
  "data:image/svg+xml;base64,".toList ++ toBase64 (bufferFrom ollamaSvg)

/-- Anchor of step 1a. -/
def oldPH : Text :=
  "PH=\x7bclaude:zw,codex:jw\x7d".toList

/-- Replacement of step 1a. -/
def newPH : Text :=
  "PH=\x7bclaude:zw,codex:jw,ollama:\"".toList ++ OLLAMA_LOGO ++ "\"\x7d".toList

/-- Anchor of step 1b. -/
def oldzY : Text :=
  "const zY=\x7bclaude:zw,codex:jw\x7d;".toList

/-- Replacement of step 1b. -/
def newzY : Text :=
  "const zY=\x7bclaude:zw,codex:jw,ollama:\"".toList ++ OLLAMA_LOGO ++ "\"\x7d;".toList

/-- Anchor of step 2a. -/
def oldAlt1 : Text :=
  "alt:t.modelLogo===\"codex\"?\"Codex\":\"Claude\"".toList

/-- Replacement of step 2a. -/
def newAlt1 : Text :=
  "alt:t.modelLogo===\"codex\"?\"Codex\":t.modelLogo===\"ollama\"?\"Ollama\":\"Claude\"".toList

/-- Anchor of step 2b. -/
def oldAlt2 : Text :=
  "alt:s.modelLogo===\"codex\"?\"Codex\":\"Claude\"".toList

/-- Replacement of step 2b. -/
def newAlt2 : Text :=
  "alt:s.modelLogo===\"codex\"?\"Codex\":s.modelLogo===\"ollama\"?\"Ollama\":\"Claude\"".toList

/-- Anchor of step 2c. -/
def oldClass1 : Text :=
  "className:t.modelLogo===\"codex\"?\"w-4 h-4 flex-shrink-0\":\"w-5 h-4 flex-shrink-0\"".toList

/-- Replacement of step 2c. -/
def newClass1 : Text :=
  "className:t.modelLogo===\"codex\"?\"w-4 h-4 flex-shrink-0\":t.modelLogo===\"ollama\"?\"w-5 h-5 flex-shrink-0\":\"w-5 h-4 flex-shrink-0\"".toList

/-- Anchor of step 2d. -/
def oldClass2 : Text :=
  "className:s.modelLogo===\"codex\"?\"w-4 h-4 flex-shrink-0\":\"w-5 h-4 flex-shrink-0\"".toList

/-- Replacement of step 2d. -/
def newClass2 : Text :=
  "className:s.modelLogo===\"codex\"?\"w-4 h-4 flex-shrink-0\":s.modelLogo===\"ollama\"?\"w-5 h-5 flex-shrink-0\":\"w-5 h-4 flex-shrink-0\"".toList

/-- Anchor of step 3a. -/
def oldKeyL : Text :=
  "k.metaKey&&k.key===\"l\"&&(k.preventDefault()".toList

/-- Replacement of step 3a. -/
def newKeyL : Text :=
  "(k.metaKey||k.ctrlKey)&&k.key===\"l\"&&(k.preventDefault()".toList

/-- Anchor of step 3b. -/
def oldKeyBackspace : Text :=
  "U.metaKey&&U.key===\"Backspace\"?(U.preventDefault()".toList

/-- Replacement of step 3b. -/
def newKeyBackspace : Text :=
  "(U.metaKey||U.ctrlKey)&&U.key===\"Backspace\"?(U.preventDefault()".toList

/-- Anchor of step 4a. -/
def oldSplit1 : Text :=
  "file:ie.split(\"/\").pop()".toList

/-- Replacement of step 4a. -/
def newSplit1 : Text :=
  "file:ie.split(/[\\/\\\\]/).pop()".toList

/-- Anchor of step 4b. -/
def oldSplit2 : Text :=
  "const St=ie.split(\"/\").pop()||ie".toList

/-- Replacement of step 4b. -/
def newSplit2 : Text :=
  "const St=ie.split(/[\\/\\\\]/).pop()||ie".toList

/-- Anchor of step 4c. -/
def oldSplit3 : Text :=
  "const Xt=je.split(\"/\").pop()||je".toList

/-- Replacement of step 4c. -/
def newSplit3 : Text :=
  "const Xt=je.split(/[\\/\\\\]/).pop()||je".toList

/-- Anchor of step 4d. -/
def oldSplit4 : Text :=
  ":he.slice(i.length+1):he).split(\"/\")".toList

/-- Replacement of step 4d. -/
def newSplit4 : Text :=
  ":he.slice(i.length+1):he).split(/[\\/\\\\]/)".toList

/-- Anchor of step 4e. -/
def oldSplit5 : Text :=
  "const n=t.split(\"/\");if(n.length<=2)return t;const i=n[0],r=n.slice(-2).join(\"/\")".toList

/-- Replacement of step 4e. -/
def newSplit5 : Text :=
  "const n=t.split(/[\\/\\\\]/);if(n.length<=2)return t;const i=n[0],r=n.slice(-2).join(\"/\")".toList

/-- Anchor of step 4f. -/
def oldSplit6 : Text :=
  "const b=t.split(\"/\");return b[b.length-1]\x7d,[t])".toList

/-- Replacement of step 4f. -/
def newSplit6 : Text :=
  "const b=t.split(/[\\/\\\\]/);return b[b.length-1]\x7d,[t])".toList

/-- Anchor of step 4g. -/
def oldSplit7 : Text :=
  "return t.split(\"/\").filter(Boolean).slice(-3).join(\"/\")".toList

/-- Replacement of step 4g. -/
def newSplit7 : Text :=
  "return t.split(/[\\/\\\\]/).filter(Boolean).slice(-3).join(\"/\")".toList

/-- Anchor of step 4h. -/
def oldSplit8 : Text :=
  "const v=b.split(\"/\").filter(Boolean)".toList

/-- Replacement of step 4h. -/
def newSplit8 : Text :=
  "const v=b.split(/[\\/\\\\]/).filter(Boolean)".toList

/-- Anchor of step 5. -/
def oldEventPrefix : Text :=
  "content:\x60[Claude] $\x7bQ.eventType\x7d\x60".toList

/-- Replacement of step 5. -/
def newEventPrefix : Text :=
  "content:\x60[Hook] $\x7bQ.eventType\x7d\x60".toList

/-- Anchor of PATCH 6: the end of the Codex button. -/
def codexButtonEnd : Text :=
  "children:[E.jsx(\"img\",\x7bsrc:jw,alt:\"Codex\",className:\"w-4 h-4\"\x7d),E.jsx(\"span\",\x7bclassName:\"text-sm text-dark-text-primary\",children:\"Codex\"\x7d)]\x7d)".toList

/-- The Ollama button appended by PATCH 6. -/
def ollamaButton : Text :=
  ",E.jsxs(\"button\",\x7bonClick:()=>p(\"ollama\"),className:\x60flex items-center space-x-2 px-3 py-2 rounded-lg border transition-colors $\x7bd===\"ollama\"?\"bg-dark-hover border-[#a855f7]/50 ring-1 ring-[#a855f7]/30\":\"border-dark-border hover:bg-dark-hover\"\x7d\x60,children:[E.jsx(\"img\",\x7bsrc:\"".toList ++ OLLAMA_LOGO ++ "\",alt:\"Ollama\",className:\"w-5 h-5\"\x7d),E.jsx(\"span\",\x7bclassName:\"text-sm text-dark-text-primary\",children:\"Ollama\"\x7d)]\x7d)".toList

/-- PATCH 6: the Codex button end is replaced by itself followed by the Ollama
button. -/
def patch6 : Step :=
  ⟨codexButtonEnd, codexButtonEnd ++ ollamaButton⟩

/-- The guarded steps of the script, in source order (PATCH 1 to PATCH 6). -/
def steps : List Step :=
  [⟨oldPH, newPH⟩,
   ⟨oldzY, newzY⟩,
   ⟨oldAlt1, newAlt1⟩,
   ⟨oldAlt2, newAlt2⟩,
   ⟨oldClass1, newClass1⟩,
   ⟨oldClass2, newClass2⟩,
   ⟨oldKeyL, newKeyL⟩,
   ⟨oldKeyBackspace, newKeyBackspace⟩,
   ⟨oldSplit1, newSplit1⟩,
   ⟨oldSplit2, newSplit2⟩,
   ⟨oldSplit3, newSplit3⟩,
   ⟨oldSplit4, newSplit4⟩,
   ⟨oldSplit5, newSplit5⟩,
   ⟨oldSplit6, newSplit6⟩,
   ⟨oldSplit7, newSplit7⟩,
   ⟨oldSplit8, newSplit8⟩,
   ⟨oldEventPrefix, newEventPrefix⟩,
   patch6]

/-- The whole script on the renderer text: the text written back. -/
def run (code : Text) : Text :=
  applySteps steps code

end WindowsRenderer

/-! ## `patch-agent-badges.js` -/

namespace AgentBadges

/-- The injection point in the agent card. -/
def searchPattern : Text :=
  "flex-shrink-0\"\x7d)]\x7d),t.isAwaitingUserOption".toList

/-- Shared style of the badges. -/
def badgeBase : Text :=
  "display:\"inline-block\",padding:\"1px 4px\",borderRadius:\"3px\",fontSize:\"8px\",fontWeight:\"600\",letterSpacing:\"0.03em\",lineHeight:\"12px\",flexShrink:0".toList

/-- The injection point followed by the badge container. -/
def badges : Text :=
  "flex-shrink-0\"\x7d)]\x7d),E.jsx(\"div\",\x7bstyle:\x7bdisplay:\"flex\",gap:\"2px\",flexShrink:0,marginLeft:\"auto\"\x7d,children:t.modelLogo===\"claude\"||!t.modelLogo?E.jsxs(E.Fragment,\x7bchildren:[E.jsx(\"span\",\x7bstyle:\x7b".toList ++ badgeBase ++ ",background:\"#eebbc3\",color:\"#232946\"\x7d,children:\"THINK\"\x7d),E.jsx(\"span\",\x7bstyle:\x7b".toList ++ badgeBase ++ ",background:\"#b8c1ec\",color:\"#232946\"\x7d,children:\"CODE\"\x7d),E.jsx(\"span\",\x7bstyle:\x7b".toList ++ badgeBase ++ ",background:\"#8892b8\",color:\"#fffffe\"\x7d,children:\"TOOLS\"\x7d)]\x7d):t.modelLogo===\"codex\"?E.jsx(\"span\",\x7bstyle:\x7b".toList ++ badgeBase ++ ",background:\"#b8c1ec\",color:\"#232946\"\x7d,children:\"CODE\"\x7d):t.modelLogo===\"ollama\"?E.jsx(\"span\",\x7bstyle:\x7b".toList ++ badgeBase ++ ",background:\"#10b981\",color:\"#fffffe\"\x7d,children:\"LOCAL\"\x7d):null\x7d),t.isAwaitingUserOption".toList

/-- The script on the renderer text: `if (!code.includes(searchPattern))` only
logs, otherwise the first occurrence of the pattern is replaced. -/
def run (code : Text) : Text :=
  if !includes code searchPattern then code else replace code searchPattern badges

end AgentBadges

/-! ## `patch-agent-templates.js` -/

namespace AgentTemplates

/-- The `New Agent` button block. -/
def oldButton : Text :=
  "E.jsx(\"div\",\x7bclassName:\"px-3 py-2\",children:E.jsxs(\"button\",\x7bonClick:se,className:\"w-full flex items-center justify-center space-x-2 px-3 py-2 text-sm text-dark-text-tertiary opacity-60 hover:opacity-100 hover:text-dark-text-primary rounded-lg transition-all\",children:[E.jsx(\"span\",\x7bclassName:\"text-lg\",children:\"+\"\x7d),E.jsx(\"span\",\x7bchildren:\"New Agent\"\x7d)]\x7d)\x7d)".toList

/-- The agent id computation of the original click handler. -/
def agentIdLogic : Text :=
  "const ne=t.map(re=>\x7bconst Me=re.id.match(/-agent-(\\d+)$/);return Me?parseInt(Me[1],10):0\x7d).filter(re=>!isNaN(re));const F=(ne.length>0?Math.max(...ne):0)+1;const ee=\x60$\x7bs\x7d-agent-$\x7bF\x7d\x60;".toList

/-- The two template buttons. -/
def newButtons : Text :=
  "E.jsx(\"div\",\x7bclassName:\"px-3 py-2\",children:E.jsxs(\"div\",\x7bstyle:\x7bdisplay:\"flex\",flexDirection:\"column\",gap:\"3px\"\x7d,children:[E.jsxs(\"button\",\x7bonClick:se,style:\x7bdisplay:\"flex\",alignItems:\"center\",justifyContent:\"center\",gap:\"6px\",width:\"100%\",padding:\"6px 12px\",borderRadius:\"8px\",border:\"1px solid rgba(238,187,195,0.15)\",background:\"rgba(238,187,195,0.06)\",cursor:\"pointer\",transition:\"all 0.15s\",fontSize:\"12px\",color:\"#b8c1ec\"\x7d,onMouseEnter:ev=>ev.currentTarget.style.background=\"rgba(238,187,195,0.12)\",onMouseLeave:ev=>ev.currentTarget.style.background=\"rgba(238,187,195,0.06)\",children:[E.jsx(\"span\",\x7bstyle:\x7bfontSize:\"14px\"\x7d,children:\"+\"\x7d),E.jsx(\"span\",\x7bchildren:\"Claude Agent\"\x7d),E.jsx(\"span\",\x7bstyle:\x7bfontSize:\"9px\",padding:\"1px 4px\",borderRadius:\"3px\",background:\"#eebbc3\",color:\"#232946\",fontWeight:\"600\",marginLeft:\"4px\"\x7d,children:\"API\"\x7d)]\x7d),E.jsxs(\"button\",\x7bonClick:async()=>\x7btry\x7b".toList ++ agentIdLogic ++ "(await window.electronAPI.agent.createAgent(s,ee,i,\"ollama\")).success&&a?.()\x7dcatch(ex)\x7b\x7d\x7d,style:\x7bdisplay:\"flex\",alignItems:\"center\",justifyContent:\"center\",gap:\"6px\",width:\"100%\",padding:\"6px 12px\",borderRadius:\"8px\",border:\"1px solid rgba(16,185,129,0.15)\",background:\"rgba(16,185,129,0.06)\",cursor:\"pointer\",transition:\"all 0.15s\",fontSize:\"12px\",color:\"#b8c1ec\"\x7d,onMouseEnter:ev=>ev.currentTarget.style.background=\"rgba(16,185,129,0.12)\",onMouseLeave:ev=>ev.currentTarget.style.background=\"rgba(16,185,129,0.06)\",children:[E.jsx(\"span\",\x7bstyle:\x7bfontSize:\"14px\"\x7d,children:\"+\"\x7d),E.jsx(\"span\",\x7bchildren:\"Ollama Agent\"\x7d),E.jsx(\"span\",\x7bstyle:\x7bfontSize:\"9px\",padding:\"1px 4px\",borderRadius:\"3px\",background:\"#10b981\",color:\"#fffffe\",fontWeight:\"600\",marginLeft:\"4px\"\x7d,children:\"LOCAL\"\x7d)]\x7d)]\x7d)\x7d)".toList

/-- The script on the renderer text: `if (!code.includes(oldButton))` only logs,
otherwise the first occurrence of the button is replaced. -/
def run (code : Text) : Text :=
  if !includes code oldButton then code else replace code oldButton newButtons

end AgentTemplates

/-! ## Thrown values -/

/-- The property `message` of a thrown value, as far as the `catch` blocks of
the scripts look at it: a string; `undefined` (the value has no such property)
or `null`; or any other value, such as a number, which has no method
`substring`, with the text it is converted to and whether it counts as true. -/
inductive Message where
  | text (value : String) : Message
  | undefined : Message
  | null : Message
  | other (shown : String) (truthy : Bool) : Message
deriving DecidableEq

/-- The text of `e.message` in a string concatenation or a template literal. -/
def Message.shown : Message → String
  | Message.text value => value
  | Message.undefined => "undefined"
  | Message.null => "null"
  | Message.other shown _ => shown

/-- Whether `e.message` counts as true in `e.message || other`. -/
def Message.truthy : Message → Bool
  | Message.text value => value != ""
  | Message.undefined => false
  | Message.null => false
  | Message.other _ truthy => truthy

/-- A thrown value `e`.  For `null` and `undefined` the expression `e.message`
itself throws a `TypeError`, and `e instanceof SyntaxError` is `false`; every
other value has a `message`, possibly `undefined`, and is an instance of
`SyntaxError` or not.  An `Error` is such a value, with a string as message. -/
inductive Thrown where
  | nullish : Thrown
  | value (isSyntaxError : Bool) (message : Message) : Thrown
deriving DecidableEq

/-! ## Outcome of running a script -/

/-- How the body of a required script ends: it runs to its end, it throws a
value, or it calls `process.exit(code)`.  In each case `s` is the state of the
files it leaves. -/
inductive Outcome (σ : Type) where
  | returned (s : σ) : Outcome σ
  | threw (s : σ) (thrown : Thrown) : Outcome σ
  | exited (s : σ) (code : Nat) : Outcome σ
deriving DecidableEq

/-- The state of the files a script leaves behind, however it ends. -/
def Outcome.state {σ : Type} : Outcome σ → σ
  | Outcome.returned s => s
  | Outcome.threw s _ => s
  | Outcome.exited s _ => s

/-- The exit code when the script ended the process with `process.exit`. -/
def Outcome.exitCode {σ : Type} : Outcome σ → Option Nat
  | Outcome.returned _ => none
  | Outcome.threw _ _ => none
  | Outcome.exited _ code => some code

/-! ## `patch-process-detection.js` -/

namespace ProcessDetection

/-- The Unix-only process detection command. -/
def searchPattern : Text :=
  "ps -o args= -p $(pgrep -P $\x7be\x7d) 2>/dev/null".toList

/-- The text matched by the regular expression of the method replacement,
`/G\.exec\(\x60ps -o args= -p \$\(pgrep -P \$\{e\}\) 2>\/dev\/null\x60/` with `\x60` for the backtick: every special character in it is
escaped, so it matches exactly this literal, at its first occurrence. -/
def methodPattern : Text :=
  "G.exec(\x60ps -o args= -p $(pgrep -P $\x7be\x7d) 2>/dev/null\x60".toList

/-- Replacement text of the method replacement. -/
def methodReplacement : Text :=
  "G.exec(process.platform===\"win32\"?\x60wmic process where \"ParentProcessId=$\x7be\x7d\" get CommandLine 2>nul\x60:\x60ps -o args= -p $(pgrep -P $\x7be\x7d) 2>/dev/null\x60".toList

/-- Replacement text of the simpler fallback. -/
def fallbackReplacement : Text :=
  "$\x7bprocess.platform===\"win32\"?\"wmic process where ParentProcessId=\"+e+\" get CommandLine 2>nul\":\"ps -o args= -p $(pgrep -P \"+e+\") 2>/dev/null\"\x7d".toList

/-- The script on the main text `code`.  Without the search pattern it calls
`process.exit(0)` before writing anything.  Otherwise the text between the last
`isClaudeRunningInSession` before the pattern and the next
`detectMessageFallback` is rewritten by the method replacement; when that
changes nothing the pattern itself is replaced by the fallback; the result is
written back.  (`start` and `end` of the source are computed and not used.) -/
def run (code : Text) : Outcome Text :=
  let idx := indexOf code searchPattern
  if idx = -1 then Outcome.exited code 0
  else
    let oldMethod := substring code
      (lastIndexOf code "isClaudeRunningInSession".toList idx)
      (indexOfFrom code "detectMessageFallback".toList idx)
    let newMethod := replace oldMethod methodPattern methodReplacement
    if oldMethod = newMethod then
      Outcome.returned (replace code searchPattern fallbackReplacement)
    else Outcome.returned (replace code oldMethod newMethod)

end ProcessDetection

/-! ## `patch-windows-improvements.js` -/

namespace WindowsImprovements

/-- The single-instance lock with its second-instance handler. -/
def singleInstanceCode : Text :=
  "\nconst __gotLock=c.app.requestSingleInstanceLock();\nif(!__gotLock)\x7bc.app.quit()\x7delse\x7b\nc.app.on(\"second-instance\",(ev,argv,cwd)=>\x7b\nif(k)\x7bif(k.isMinimized())k.restore();k.focus()\x7d\nconst url=argv.find(a=>a.startsWith(\"evero://\"));\nif(url&&url.startsWith(\"evero://auth/callback\"))\x7bS.handleOAuthCallback(url,k).catch(()=>\x7b\x7d)\x7d\n\x7d)\x7d\n".toList

/-- PATCH 1 on the main text: the lock code is inserted right before the first
`c.app.whenReady()`; without that anchor the patch only logs. -/
def patch1 (code : Text) : Text :=
  let whenReadyIdx := indexOf code "c.app.whenReady()".toList
  if whenReadyIdx = -1 then code
  else substring code 0 whenReadyIdx ++ singleInstanceCode ++ substringFrom code whenReadyIdx

end WindowsImprovements

/-! ## `patch-ui-polish.js` -/

namespace UiPolish

/-- R1 anchor: `Tools` tab label. -/
def r1old : Text :=
  "label:\"Tools\",view:\"dms\"".toList

/-- R1 replacement. -/
def r1new : Text :=
  "label:\"Models\",view:\"dms\"".toList

/-- R2 anchor: `markdown` tab label. -/
def r2old : Text :=
  "label:\"markdown\",view:\"activity\"".toList

/-- R2 replacement. -/
def r2new : Text :=
  "label:\"CLAUDE.md\",view:\"activity\"".toList

/-- R3 anchor: DMs button. -/
def r3old : Text :=
  "title:\"DMs\",children:[E.jsx(CF,\x7bsize:20\x7d)".toList

/-- R3 replacement. -/
def r3new : Text :=
  "title:\"DMs\",style:\x7bdisplay:\"none\"\x7d,children:[E.jsx(CF,\x7bsize:20\x7d)".toList

/-- R4 anchor: profile view. -/
def r4old : Text :=
  "case\"profile\":return null".toList

/-- R4 replacement. -/
def r4new : Text :=
  "case\"profile\":return E.jsxs(\"div\",\x7bclassName:\"flex-1 flex flex-col items-center justify-center p-8\",style:\x7bbackground:\"linear-gradient(135deg,#1a1f35 0%,#232946 100%)\"\x7d,children:[E.jsx(\"div\",\x7bclassName:\"w-24 h-24 rounded-3xl flex items-center justify-center mb-6\",style:\x7bbackground:\"#232946\",border:\"2px solid #2a3157\",boxShadow:\"0 0 30px rgba(238,187,195,0.15)\"\x7d,children:E.jsx(\"span\",\x7bclassName:\"text-4xl font-bold\",style:\x7bcolor:\"#eebbc3\"\x7d,children:\"E\"\x7d)\x7d),E.jsx(\"h1\",\x7bclassName:\"text-3xl font-bold mb-1\",style:\x7bcolor:\"#fffffe\"\x7d,children:\"EveRo\"\x7d),E.jsx(\"p\",\x7bclassName:\"text-lg mb-8\",style:\x7bcolor:\"#b8c1ec\"\x7d,children:\"Multi-Model AI Agent Command Center\"\x7d),E.jsxs(\"div\",\x7bclassName:\"space-y-2 text-center text-sm\",style:\x7bcolor:\"#8892b8\"\x7d,children:[E.jsx(\"p\",\x7bchildren:\"Version 1.0.92\"\x7d),E.jsx(\"p\",\x7bchildren:\"Electron 39 \u00b7 React 19\"\x7d),E.jsx(\"p\",\x7bchildren:\"Claude Code + Ollama Integration\"\x7d)]\x7d),E.jsx(\"p\",\x7bclassName:\"mt-8 text-xs\",style:\x7bcolor:\"#5a6488\"\x7d,children:\"\u00a9 2026 EveRo\"\x7d)]\x7d)".toList

/-- Text whose presence makes R3 report `Already applied`. -/
def r3marker : Text :=
  "title:\"DMs\",style:\x7bdisplay:\"none\"\x7d".toList

/-- Text whose presence makes R4 report `Already applied`. -/
def r4marker : Text :=
  "Multi-Model AI Agent Command Center".toList

/-- The branch a renderer step takes. -/
inductive Branch where
  | applied : Branch
  | alreadyApplied : Branch
  | notFound : Branch
deriving DecidableEq

/-- A renderer step: `if (renderer.includes(anchor)) renderer =
renderer.replace(anchor, replacement); else if (renderer.includes(marker))
log Already applied; else log WARNING`. -/
structure PolishStep where
  anchor : Text
  replacement : Text
  marker : Text

/-- The text and the branch of one renderer step. -/
def polish (st : PolishStep) (renderer : Text) : Text × Branch :=
  if includes renderer st.anchor then (replace renderer st.anchor st.replacement, Branch.applied)
  else if includes renderer st.marker then (renderer, Branch.alreadyApplied)
  else (renderer, Branch.notFound)

/-- The renderer steps R1 to R4, in source order. -/
def rendererSteps : List PolishStep :=
  [⟨r1old, r1new, r1new⟩, ⟨r2old, r2new, r2new⟩, ⟨r3old, r3new, r3marker⟩,
   ⟨r4old, r4new, r4marker⟩]

/-- The renderer text written back after R1 to R4. -/
def runRenderer (renderer : Text) : Text :=
  rendererSteps.foldl (fun buf st => (polish st buf).1) renderer

end UiPolish

/-! ## `patch-model-hub.js` (PART 1) and `patch-conversation-export.js` (PART 2) -/

namespace ModelHub

/-- End of the channel bridge in the preload text. -/
def channelEnd : Text :=
  "unlinkAgent:(e,r,t)=>n.ipcRenderer.invoke(\"channel:unlinkAgent\",e,r,t)\x7d\x7d);".toList

/-- The channel bridge end followed by the ollama and launchConfig bridges. -/
def ollamaBridge : Text :=
  "unlinkAgent:(e,r,t)=>n.ipcRenderer.invoke(\"channel:unlinkAgent\",e,r,t)\x7d,ollama:\x7bcheckStatus:()=>n.ipcRenderer.invoke(\"ollama:check-status\"),listModels:()=>n.ipcRenderer.invoke(\"ollama:list-models\"),showModel:e=>n.ipcRenderer.invoke(\"ollama:show-model\",e),setModel:(e,r)=>n.ipcRenderer.invoke(\"ollama:set-model\",e,r),pullModel:e=>n.ipcRenderer.invoke(\"ollama:pull-model\",e),deleteModel:e=>n.ipcRenderer.invoke(\"ollama:delete-model\",e),runningModels:()=>n.ipcRenderer.invoke(\"ollama:running-models\")\x7d,launchConfig:\x7bset:e=>n.ipcRenderer.invoke(\"launch-config:set\",e),get:()=>n.ipcRenderer.invoke(\"launch-config:get\"),getDefaults:()=>n.ipcRenderer.invoke(\"launch-config:get-defaults\")\x7d\x7d);".toList

/-- PART 1 on the preload text. -/
def preloadStep : Step :=
  ⟨channelEnd, ollamaBridge⟩

end ModelHub

namespace ConversationExport

/-- End of the launchConfig bridge in the preload text. -/
def lcEnd : Text :=
  "getDefaults:()=>n.ipcRenderer.invoke(\"launch-config:get-defaults\")\x7d\x7d);".toList

/-- The launchConfig bridge end followed by the conversation bridge. -/
def convBridge : Text :=
  "getDefaults:()=>n.ipcRenderer.invoke(\"launch-config:get-defaults\")\x7d,conversation:\x7bexport:(content,name)=>n.ipcRenderer.invoke(\"conversation:export\",content,name)\x7d\x7d);".toList

/-- PART 2 on the preload text. -/
def preloadStep : Step :=
  ⟨lcEnd, convBridge⟩

end ConversationExport

/-! ## `build-win.js`, steps 5 to 14 -/

namespace BuildWin

/-- The three artifacts the patch scripts read and write. -/
structure Files where
  main : Text
  preload : Text
  renderer : Text

/-- State of the build process while it goes through steps 5 to 14: the files,
the scripts required so far (in order), the lines logged by the `catch` blocks,
and the exit code once the process has ended: the code of a `process.exit`
inside a required script, or 1 after an exception has left `main`, whose
`catch` callback prints `Build failed:` and calls `process.exit(1)`. -/
structure Build (σ : Type) where
  files : σ
  required : List String
  logged : List String
  exitCode : Option Nat

/-- The `catch` block `catch (e) { log(onError(e.message)); }` of a step: the
line it logs, or `none` when `e` is `null` or `undefined`, for which reading
`e.message` throws a `TypeError` inside the handler. -/
def catchLine (onError : Message → String) : Thrown → Option String
  | Thrown.nullish => none
  | Thrown.value _ message => some (onError message)

/-- One `try { require(script); } catch (e) { log(onError(e.message)); }`.  The
script runs in the build process itself, so a `process.exit` inside it ends the
build.  An exception thrown by the handler is caught nowhere in `main`: it ends
the build with exit code 1.  Once the process has ended nothing more is run. -/
def tryRequire {σ : Type} (scripts : String → σ → Outcome σ) (script : String)
    (onError : Message → String) (b : Build σ) : Build σ :=
  match b.exitCode with
  | some _ => b
  | none =>
    match scripts script b.files with
    | Outcome.returned s => ⟨s, b.required ++ [script], b.logged, none⟩
    | Outcome.threw s thrown =>
      match catchLine onError thrown with
      | some line => ⟨s, b.required ++ [script], b.logged ++ [line], none⟩
      | none => ⟨s, b.required ++ [script], b.logged, some 1⟩
    | Outcome.exited s code => ⟨s, b.required ++ [script], b.logged, some code⟩

/-- The scripts required by steps 5 to 14, in source order, each with the line
its `catch` block logs for the message of the thrown value. -/
def patchScripts : List (String × (Message → String)) :=
  [("./patch-process-detection.js", fun message =>
      "  Process detection patch: "
        ++ (if message.truthy then message.shown else "applied or skipped")),
   ("./patch-windows-improvements.js", fun message =>
      "  Windows improvements patch error: " ++ message.shown),
   ("./patch-startup-reliability.js", fun message =>
      "  Startup reliability patch error: " ++ message.shown),
   ("./patch-ollama-integration.js", fun message =>
      "  Ollama integration patch error: " ++ message.shown),
   ("./patch-windows-renderer.js", fun message =>
      "  Windows renderer patch error: " ++ message.shown),
   ("./patch-path-normalization.js", fun message =>
      "  Path normalization patch error: " ++ message.shown),
   ("./patch-model-hub.js", fun message => "  Model Hub patch error: " ++ message.shown),
   ("./patch-agent-model-picker.js", fun message =>
      "  Agent model picker patch error: " ++ message.shown),
   ("./patch-agent-badges.js", fun message => "  Agent badges patch error: " ++ message.shown),
   ("./patch-agent-templates.js", fun message =>
      "  Agent templates patch error: " ++ message.shown),
   ("./patch-conversation-export.js", fun message =>
      "  Conversation export patch error: " ++ message.shown),
   ("./patch-color-palette.js", fun message => "  Color palette patch error: " ++ message.shown),
   ("./patch-rebrand.js", fun message => "  Rebrand patch error: " ++ message.shown),
   ("./patch-ui-polish.js", fun message => "  UI polish patch error: " ++ message.shown)]

/-- Steps 5 to 14 of `main`, for given behaviours of the required scripts. -/
def applyPatches {σ : Type} (scripts : String → σ → Outcome σ) (files : σ) : Build σ :=
  patchScripts.foldl (fun b p => tryRequire scripts p.1 p.2 b) ⟨files, [], [], none⟩

/-- The script `patch-process-detection.js` on the files: it reads and writes
`out/main/index.js` only. -/
def processDetection (f : Files) : Outcome Files :=
  match ProcessDetection.run f.main with
  | Outcome.returned m => Outcome.returned ⟨m, f.preload, f.renderer⟩
  | Outcome.threw m thrown => Outcome.threw ⟨m, f.preload, f.renderer⟩ thrown
  | Outcome.exited m code => Outcome.exited ⟨m, f.preload, f.renderer⟩ code

/-- Script behaviours in which `./patch-process-detection.js` is the script
above and every other script behaves as `others` says. -/
def withProcessDetection (others : String → Files → Outcome Files) :
    String → Files → Outcome Files :=
  fun script => if script = "./patch-process-detection.js" then processDetection else others script

/-- Whether the build goes on after a required script ended this way: it does
unless the script called `process.exit` or threw `null` or `undefined`. -/
def goesOn {σ : Type} : Outcome σ → Bool
  | Outcome.returned _ => true
  | Outcome.threw _ (Thrown.value _ _) => true
  | Outcome.threw _ Thrown.nullish => false
  | Outcome.exited _ _ => false

/-- Whether each script of `steps`, run on the files the script before it left,
lets the build go on. -/
def allGoOn {σ : Type} (scripts : String → σ → Outcome σ) :
    List (String × (Message → String)) → σ → Bool
  | [], _ => true
  | (script, _) :: rest, files =>
    goesOn (scripts script files) && allGoOn scripts rest (scripts script files).state

/-- The files after the scripts of `steps` have run one after the other, each on
the files the script before it left, however each of them ended. -/
def filesAfter {σ : Type} (scripts : String → σ → Outcome σ)
    (steps : List (String × (Message → String))) (files : σ) : σ :=
  steps.foldl (fun f p => (scripts p.1 f).state) files

/-- The lines the `catch` blocks of `steps` log when the scripts run one after
the other: one line for each script that throws a value with a `message`. -/
def linesAfter {σ : Type} (scripts : String → σ → Outcome σ) :
    List (String × (Message → String)) → σ → List String
  | [], _ => []
  | (script, onError) :: rest, files =>
    (match scripts script files with
      | Outcome.threw _ (Thrown.value _ message) => [onError message]
      | _ => [])
      ++ linesAfter scripts rest (scripts script files).state

/-- Scripts for the evaluations: the files are the number of scripts run so far,
and every script throws an `Error` with the message `boom`. -/
def throwingScripts : String → Nat → Outcome Nat :=
  fun _ n => Outcome.threw (n + 1) (Thrown.value false (Message.text "boom"))

/-- Scripts for the evaluations: `patch-windows-improvements.js` executes
`throw null`, every other script returns. -/
def nullThrowingScripts : String → Nat → Outcome Nat :=
  fun script n =>
    if script = "./patch-windows-improvements.js" then Outcome.threw (n + 1) Thrown.nullish
    else Outcome.returned (n + 1)

end BuildWin

/-! ## Inputs used in the evaluations -/

/-- A main text made of one `project-file-map:load` handler that keeps braces in
a string literal inside the `fileMap` object: valid JavaScript on which the
brace scan of PATCH 3 reaches the end of the text with depth 1. -/
def unterminatedLoadMap : Text :=
  "c.ipcMain.handle(".toList ++ PathNormalization.oldLoadMap
    ++ "ntActivity.entries()),braces:\"\x7b\x7b\x7b\x7b\"\x7d\x7d\x7dcatch(r)\x7breturn\x7bsuccess:!1\x7d\x7d\x7d)".toList

/-- A main text holding the Unix-only `isClaudeRunningInSession` method followed
by `detectMessageFallback`. -/
def detectionSample : Text :=
  "isClaudeRunningInSession(e)\x7breturn new Promise(r=>\x7bG.exec(\x60ps -o args= -p $(pgrep -P $\x7be\x7d) 2>/dev/null\x60,(a,b)=>\x7br(b.includes(\"claude\"))\x7d)\x7d)\x7ddetectMessageFallback()\x7b\x7d".toList

/-- A preload text that ends with the channel bridge. -/
def preloadSample : Text :=
  "n.contextBridge.exposeInMainWorld(\"electronAPI\",\x7bchannel:\x7b".toList ++ ModelHub.channelEnd

/-! ## Auxiliary predicates for the proofs -/

/-- A replacement text in which no `$` is followed by `$`, `&`, a backtick or an
apostrophe: `getSubstitution` leaves such a text as it is. -/
def plainReplacement : Text → Bool
  | [] => true
  | [_] => true
  | c :: d :: rest =>
    !(c = '$' && (d = '$' || d = '&' || d = '\x60' || d = '\x27'))
      && plainReplacement (d :: rest)

/-- Number of positions of a text at which `pat` starts. -/
def occurrences (pat : Text) : Text → Nat
  | [] => 0
  | c :: rest => (if pat.isPrefixOf (c :: rest) then 1 else 0) + occurrences pat rest

/-- No occurrence of `pat` starts inside `m`, whatever text follows `m`. -/
def noStart (pat : Text) : Text → Bool
  | [] => true
  | c :: rest =>
    !pat.isPrefixOf (c :: rest) && !(c :: rest).isPrefixOf pat && noStart pat rest

/-- An occurrence of `pat` that starts before the replacement `new` and reaches
into it reaches into the anchor `old` just as well: every proper suffix of
`pat` that is a prefix of `new`, or has `new` as a prefix, is a prefix of
`old`. -/
def reachOK (pat old new : Text) : Bool :=
  (List.range pat.length).all fun k =>
    k == 0 || ((!(pat.drop k).isPrefixOf new && !new.isPrefixOf (pat.drop k))
      || (pat.drop k).isPrefixOf old)

/-- The steps of `l` rewrite with plain replacements and non-empty anchors, and
no replacement of `l` can take part in an occurrence of an anchor of `l`. -/
def Separated (l : List UiPolish.PolishStep) : Prop :=
  ∀ st ∈ l, plainReplacement st.replacement = true ∧ st.anchor ≠ []
    ∧ ∀ st2 ∈ l, reachOK st2.anchor st.anchor st.replacement = true
        ∧ noStart st2.anchor st.replacement = true

/-! ## `_find-broken-patch.mjs` and `_test-esm.mjs` -/

namespace FindBrokenPatch

/-- What `await import(url)` of the artifact does: the module loads and runs, or
a value is thrown: by the parser a `SyntaxError`, by the module whatever its
code throws.  The cache bust `'?t=' + Date.now()` is taken to work: the result
depends on the file as it is on disk at the time of the check. -/
inductive Load where
  | loaded : Load
  | threw (thrown : Thrown) : Load
deriving DecidableEq

/-- The status a load attempt is logged with. -/
inductive Verdict where
  | okRuntime : Verdict
  | syntaxError (message : String) : Verdict
  | okParse (message : String) : Verdict
deriving DecidableEq

/-- The `try`/`catch` of `check`: `OK (runtime)` when the import succeeds,
`SYNTAX ERROR: message` when `e instanceof SyntaxError`, and
`OK (parse fine, runtime: ...)` with `e.message?.substring(0,40)` otherwise: the
first 40 code units of a string, `undefined` when the message is `undefined` or
`null`.  The result is `none` when the `catch` block itself throws a
`TypeError`: for a thrown `null` or `undefined`, of which `e.message` cannot be
read, and for a message that is neither a string nor `undefined` nor `null`, of
which `substring` is not a function. -/
def classify : Load → Option Verdict
  | Load.loaded => some Verdict.okRuntime
  | Load.threw Thrown.nullish => none
  | Load.threw (Thrown.value true message) => some (Verdict.syntaxError message.shown)
  | Load.threw (Thrown.value false (Message.text value)) =>
    some (Verdict.okParse (String.mk (value.toList.take 40)))
  | Load.threw (Thrown.value false Message.undefined) => some (Verdict.okParse "undefined")
  | Load.threw (Thrown.value false Message.null) => some (Verdict.okParse "undefined")
  | Load.threw (Thrown.value false (Message.other _ _)) => none

/-- The value `check(label)` returns for the artifact `file`: `false` in the
`SyntaxError` branch, `true` in the two others; `none` when `check` does not
return because its `catch` block throws. -/
def check {σ : Type} (load : σ → Load) (file : σ) : Option Bool :=
  match classify (load file) with
  | some Verdict.okRuntime => some true
  | some (Verdict.syntaxError _) => some false
  | some (Verdict.okParse _) => some true
  | none => none

/-- The line `_test-esm.mjs` prints for a load attempt; its `catch` block reads
`e.message` in the `SyntaxError` branch only. -/
def testEsm : Load → String
  | Load.loaded => "OK-RUNTIME"
  | Load.threw Thrown.nullish => "OK-PARSE"
  | Load.threw (Thrown.value true message) => "SYNTAX-ERROR: " ++ message.shown
  | Load.threw (Thrown.value false _) => "OK-PARSE"

/-- The ordered list `rendererPatches` of scripts and labels. -/
def rendererPatches : List (String × String) :=
  [("patch-windows-renderer.js", "Windows renderer (Ollama UI, keyboard, paths)"),
   ("patch-model-hub.js", "Model Hub (renderer part only)"),
   ("patch-agent-model-picker.js", "Agent model picker"),
   ("patch-agent-badges.js", "Agent badges"),
   ("patch-agent-templates.js", "Agent templates"),
   ("patch-conversation-export.js", "Conversation export (renderer part only)"),
   ("patch-color-palette.js", "Color palette (renderer part only)"),
   ("patch-rebrand.js", "Rebrand (renderer part only)")]

/-- State of the bisection: the artifact on disk, the scripts required so far,
the script named by the `BROKEN BY` marker once it is printed, and the exit code
once the process has ended: the code of a `process.exit` inside a required
script, or 1 after an exception has left `check`, which is awaited at top
level. -/
structure Bisection (σ : Type) where
  file : σ
  attempted : List String
  brokenBy : Option String
  exitCode : Option Nat
deriving DecidableEq

/-- The loop `for (const [script, label] of rendererPatches)`: the script is
required inside `try`/`catch` (an exception is dropped, the artifact stays as
the script left it), then the artifact is checked; a failed check prints the
marker and leaves the loop, and a check that throws ends the process. -/
def loop {σ : Type} (scripts : String → σ → Outcome σ) (load : σ → Load) :
    List (String × String) → Bisection σ → Bisection σ
  | [], b => b
  | (script, _) :: rest, b =>
    match scripts script b.file with
    | Outcome.exited s code => ⟨s, b.attempted ++ [script], none, some code⟩
    | Outcome.returned s =>
      match check load s with
      | some true => loop scripts load rest ⟨s, b.attempted ++ [script], none, none⟩
      | some false => ⟨s, b.attempted ++ [script], some script, none⟩
      | none => ⟨s, b.attempted ++ [script], none, some 1⟩
    | Outcome.threw s _ =>
      match check load s with
      | some true => loop scripts load rest ⟨s, b.attempted ++ [script], none, none⟩
      | some false => ⟨s, b.attempted ++ [script], some script, none⟩
      | none => ⟨s, b.attempted ++ [script], none, some 1⟩

/-- The whole script on the pristine artifact: the fresh copy is checked, the
result of that check is only logged, and the loop runs over the patch list.  A
fresh check that throws ends the process before the loop. -/
def run {σ : Type} (scripts : String → σ → Outcome σ) (load : σ → Load)
    (patches : List (String × String)) (pristine : σ) : Bisection σ :=
  match check load pristine with
  | none => ⟨pristine, [], none, some 1⟩
  | some _ => loop scripts load patches ⟨pristine, [], none, none⟩

/-- The artifact after the scripts of `patches` have been applied one after the
other to `file`, each inside `try`/`catch`; `none` when one of them ends the
process. -/
def applied {σ : Type} (scripts : String → σ → Outcome σ) :
    List (String × String) → σ → Option σ
  | [], file => some file
  | (script, _) :: rest, file =>
    match scripts script file with
    | Outcome.exited _ _ => none
    | Outcome.returned s => applied scripts rest s
    | Outcome.threw s _ => applied scripts rest s

/-- Scripts for the evaluations: the artifact is the number of scripts applied
so far, and every script returns. -/
def countingScripts : String → Nat → Outcome Nat :=
  fun _ n => Outcome.returned (n + 1)

/-- A load for the evaluations: the artifact parses until three scripts have
been applied. -/
def loadUntilThree : Nat → Load :=
  fun n =>
    if n < 3 then Load.loaded
    else Load.threw (Thrown.value true (Message.text "Unexpected token"))

/-- A load for the evaluations: the artifact never parses. -/
def loadNever : Text → Load :=
  fun _ => Load.threw (Thrown.value true (Message.text "Unexpected token"))

/-- A load for the evaluations: the artifact parses and its code executes
`throw null`. -/
def loadThrowsNull : Text → Load :=
  fun _ => Load.threw Thrown.nullish

/-- Scripts for the evaluations that leave the artifact as it is. -/
def idleScripts : String → Text → Outcome Text :=
  fun _ file => Outcome.returned file

end FindBrokenPatch

/-! ## Global replacement of a literal -/

/-- The scan of `String.prototype.replace` with a global regular expression that
is a nonempty literal, and of `replaceAll` with a nonempty string: the matches
are looked for from left to right, each search starting where the last match
ended.  `skip` counts the code units of the current match that are still to be
passed over, `position` is the index in `str` of the head of the remaining
text. -/
def replaceAllAux (pat repl str : Text) : Text → Nat → Nat → Text
  | [], _, _ => []
  | _ :: rest, position, skip + 1 => replaceAllAux pat repl str rest (position + 1) skip
  | c :: rest, position, 0 =>
    if pat.isPrefixOf (c :: rest) then
      getSubstitution pat str position repl
        ++ replaceAllAux pat repl str rest (position + 1) (pat.length - 1)
    else c :: replaceAllAux pat repl str rest (position + 1) 0

/-- `s.replace(/pat/g, repl)` for a nonempty literal `pat`, and
`s.replaceAll(pat, repl)`. -/
def replaceAll (s pat repl : Text) : Text := replaceAllAux pat repl s s 0 0

/-- Number of matches the same scan finds. -/
def matchCountAux (pat : Text) : Text → Nat → Nat
  | [], _ => 0
  | _ :: rest, skip + 1 => matchCountAux pat rest skip
  | c :: rest, 0 =>
    if pat.isPrefixOf (c :: rest) then 1 + matchCountAux pat rest (pat.length - 1)
    else matchCountAux pat rest 0

/-- `(s.match(/pat/g) || []).length` for a nonempty literal `pat`, which is also
`s.split(pat).length - 1`. -/
def matchCount (s pat : Text) : Nat := matchCountAux pat s 0

/-! ## `patch-rebrand.js`, step 1a -/

namespace Rebrand

/-- The literal of the regular expression `/roro-dev/g`. -/
def userDataOld : Text := "roro-dev".toList

def userDataNew : Text := "evero-dev".toList

/-- Step 1a: the new `mainCode` and the count `udCount` that is logged. -/
def step1a (mainCode : Text) : Text × Nat :=
  (replaceAll mainCode userDataOld userDataNew, matchCount mainCode userDataOld)

end Rebrand

/-! ## `create-icon.js` -/

namespace CreateIcon

/-- `fs.readFileSync(path)` without an encoding: the octets of the file as a
`Buffer`.  Node refuses files above `kIoMaxLength = 2 ** 31 - 1` octets with
`ERR_FS_FILE_TOO_LARGE` (`none` here), so a buffer that was read is never
longer than that. -/
def readFileSync (file : List Nat) : Option (List Nat) :=
  if file.length ≤ 2 ^ 31 - 1 then some file else none

/-- `Buffer.alloc(size)`: `size` octets, all zero. -/
def alloc (size : Nat) : List Nat := List.replicate size 0

/-- `buf.readUInt32BE(offset)`; a `RangeError` (`none`) unless four octets can
be read at `offset`. -/
def readUInt32BE (buf : List Nat) (offset : Nat) : Option Nat :=
  if offset + 4 ≤ buf.length then
    some (buf.getD offset 0 * 2 ^ 24 + buf.getD (offset + 1) 0 * 2 ^ 16
      + buf.getD (offset + 2) 0 * 2 ^ 8 + buf.getD (offset + 3) 0)
  else none

/-- `buf.writeUInt8(value, offset)`; a `RangeError` (`none`) when the value does
not fit one octet or the offset is out of range. -/
def writeUInt8 (buf : List Nat) (value offset : Nat) : Option (List Nat) :=
  if value < 2 ^ 8 ∧ offset + 1 ≤ buf.length then some (buf.set offset value) else none

/-- `buf.writeUInt16LE(value, offset)`, low octet first. -/
def writeUInt16LE (buf : List Nat) (value offset : Nat) : Option (List Nat) :=
  if value < 2 ^ 16 ∧ offset + 2 ≤ buf.length then
    some ((buf.set offset (value % 2 ^ 8)).set (offset + 1) (value / 2 ^ 8 % 2 ^ 8))
  else none

/-- `buf.writeUInt32LE(value, offset)`, low octet first. -/
def writeUInt32LE (buf : List Nat) (value offset : Nat) : Option (List Nat) :=
  if value < 2 ^ 32 ∧ offset + 4 ≤ buf.length then
    some ((((buf.set offset (value % 2 ^ 8)).set (offset + 1) (value / 2 ^ 8 % 2 ^ 8)).set
      (offset + 2) (value / 2 ^ 16 % 2 ^ 8)).set (offset + 3) (value / 2 ^ 24 % 2 ^ 8))
  else none

/-- The buffer `header` of `createIcoFromPng` after its three writes. -/
def header : Option (List Nat) := do
  let header := alloc 6
  let header ← writeUInt16LE header 0 0
  let header ← writeUInt16LE header 1 2
  let header ← writeUInt16LE header 1 4
  pure header

/-- The buffer `entry` of `createIcoFromPng` after its eight writes, for the
dimensions read from the PNG and the length of the PNG buffer. -/
def entry (width height length : Nat) : Option (List Nat) := do
  let entry := alloc 16
  let entry ← writeUInt8 entry (if width ≥ 256 then 0 else width) 0
  let entry ← writeUInt8 entry (if height ≥ 256 then 0 else height) 1
  let entry ← writeUInt8 entry 0 2
  let entry ← writeUInt8 entry 0 3
  let entry ← writeUInt16LE entry 1 4
  let entry ← writeUInt16LE entry 32 6
  let entry ← writeUInt32LE entry length 8
  let entry ← writeUInt32LE entry 22 12
  pure entry

/-- The function `createIcoFromPng`, from the octets of the file at `pngPath` to
the octets written to `icoPath`, which are `Buffer.concat([header, entry,
pngData])`; `none` when a call throws. -/
def createIcoFromPng (file : List Nat) : Option (List Nat) := do
  let pngData ← readFileSync file
  let width ← readUInt32BE pngData 16
  let height ← readUInt32BE pngData 20
  let header ← header
  let entry ← entry width height pngData.length
  pure (header ++ entry ++ pngData)

/-- The first 24 octets of a PNG file with a 48 by 300 image: signature, length
and type of the `IHDR` chunk, width and height. -/
def pngHead : List Nat :=
  [137, 80, 78, 71, 13, 10, 26, 10, 0, 0, 0, 13, 73, 72, 68, 82, 0, 0, 0, 48, 0, 0, 1, 44]

end CreateIcon

/-! ## The static theme of `patch-color-palette.js` -/

namespace ColorPalette

/-- The list `cssVarReplacements`: old and new text of each custom property. -/
def cssVarReplacements : List (Text × Text) :=
  [("--primary-50: #faf5ff".toList, "--primary-50: #fff5f7".toList),
   ("--primary-100: #f3e8ff".toList, "--primary-100: #fde8ec".toList),
   ("--primary-200: #e9d5ff".toList, "--primary-200: #f8d0d7".toList),
   ("--primary-300: #d8b4fe".toList, "--primary-300: #eebbc3".toList),
   ("--primary-400: #c084fc".toList, "--primary-400: #e8a5af".toList),
   ("--primary-500: #a855f7".toList, "--primary-500: #d4899a".toList),
   ("--primary-600: #9333ea".toList, "--primary-600: #c07080".toList),
   ("--primary-700: #7c3aed".toList, "--primary-700: #a85a6a".toList),
   ("--primary-800: #6b21a8".toList, "--primary-800: #8a4555".toList),
   ("--primary-900: #581c87".toList, "--primary-900: #6d3545".toList),
   ("--dark-bg: #0f0f12".toList, "--dark-bg: #232946".toList),
   ("--dark-surface: #131316".toList, "--dark-surface: #1e2440".toList),
   ("--dark-surface-elevated: #1a1a1d".toList, "--dark-surface-elevated: #2a3157".toList),
   ("--dark-border: rgba(255, 255, 255, .08)".toList,
     "--dark-border: rgba(184, 193, 236, .12)".toList),
   ("--dark-border-subtle: rgba(255, 255, 255, .04)".toList,
     "--dark-border-subtle: rgba(184, 193, 236, .06)".toList),
   ("--dark-hover: #27272a".toList, "--dark-hover: #303767".toList),
   ("--dark-text-primary: #fafafa".toList, "--dark-text-primary: #fffffe".toList),
   ("--dark-text-secondary: #a1a1aa".toList, "--dark-text-secondary: #b8c1ec".toList),
   ("--dark-text-tertiary: #71717a".toList, "--dark-text-tertiary: #8892b8".toList),
   ("--dark-input-bg: #27272a".toList, "--dark-input-bg: #1a1f3d".toList),
   ("--dark-code-bg: #0f0f12".toList, "--dark-code-bg: #1a1f3d".toList),
   ("--dark-code-inline-bg: #27272a".toList, "--dark-code-inline-bg: #2a3157".toList),
   ("--glass-bg: rgba(24, 24, 27, .8)".toList, "--glass-bg: rgba(35, 41, 70, .85)".toList),
   ("--glass-border: rgba(255, 255, 255, .1)".toList,
     "--glass-border: rgba(238, 187, 195, .15)".toList),
   ("--glass-shadow: 0 8px 32px rgba(0, 0, 0, .4)".toList,
     "--glass-shadow: 0 8px 32px rgba(18, 22, 41, .5)".toList),
   ("--accent-glow: rgba(168, 85, 247, .15)".toList,
     "--accent-glow: rgba(238, 187, 195, .15)".toList),
   ("--accent-glow-strong: rgba(168, 85, 247, .3)".toList,
     "--accent-glow-strong: rgba(238, 187, 195, .3)".toList)]

/-- The body gradient that step 1b looks for. -/
def bodyGradientOld : Text :=
  "background:linear-gradient(135deg,#1a1025,#1f1530)".toList

/-- The body gradient that step 1b writes. -/
def bodyGradientNew : Text :=
  "background:linear-gradient(135deg,#1a2040,#232946)".toList

end ColorPalette

/-! ## The palettes of `patch-palette-system.js` -/

namespace PaletteSystem

/-- The text `VAR_MAP_JS`, the source of the object that maps the colour keys of
a palette to CSS custom properties. -/
def VAR_MAP_JS : Text :=
  "\x7bprimary50:\"--primary-50\",primary100:\"--primary-100\",primary200:\"--primary-200\",primary300:\"--primary-300\",primary400:\"--primary-400\",primary500:\"--primary-500\",primary600:\"--primary-600\",primary700:\"--primary-700\",primary800:\"--primary-800\",primary900:\"--primary-900\",bg:\"--dark-bg\",surface:\"--dark-surface\",surfaceElevated:\"--dark-surface-elevated\",border:\"--dark-border\",borderSubtle:\"--dark-border-subtle\",hover:\"--dark-hover\",textPrimary:\"--dark-text-primary\",textSecondary:\"--dark-text-secondary\",textTertiary:\"--dark-text-tertiary\",inputBg:\"--dark-input-bg\",codeBg:\"--dark-code-bg\",codeInlineBg:\"--dark-code-inline-bg\",glassBg:\"--glass-bg\",glassBorder:\"--glass-border\",glassShadow:\"--glass-shadow\",accentGlow:\"--accent-glow\",accentGlowStrong:\"--accent-glow-strong\"\x7d".toList

/-- The object that `VAR_MAP_JS` denotes: its keys, in order, with their values. -/
def VAR_MAP : List (Text × Text) :=
  [("primary50".toList, "--primary-50".toList),
   ("primary100".toList, "--primary-100".toList),
   ("primary200".toList, "--primary-200".toList),
   ("primary300".toList, "--primary-300".toList),
   ("primary400".toList, "--primary-400".toList),
   ("primary500".toList, "--primary-500".toList),
   ("primary600".toList, "--primary-600".toList),
   ("primary700".toList, "--primary-700".toList),
   ("primary800".toList, "--primary-800".toList),
   ("primary900".toList, "--primary-900".toList),
   ("bg".toList, "--dark-bg".toList),
   ("surface".toList, "--dark-surface".toList),
   ("surfaceElevated".toList, "--dark-surface-elevated".toList),
   ("border".toList, "--dark-border".toList),
   ("borderSubtle".toList, "--dark-border-subtle".toList),
   ("hover".toList, "--dark-hover".toList),
   ("textPrimary".toList, "--dark-text-primary".toList),
   ("textSecondary".toList, "--dark-text-secondary".toList),
   ("textTertiary".toList, "--dark-text-tertiary".toList),
   ("inputBg".toList, "--dark-input-bg".toList),
   ("codeBg".toList, "--dark-code-bg".toList),
   ("codeInlineBg".toList, "--dark-code-inline-bg".toList),
   ("glassBg".toList, "--glass-bg".toList),
   ("glassBorder".toList, "--glass-border".toList),
   ("glassShadow".toList, "--glass-shadow".toList),
   ("accentGlow".toList, "--accent-glow".toList),
   ("accentGlowStrong".toList, "--accent-glow-strong".toList)]

/-- The source text of an object whose keys are identifiers and whose values are
double-quoted strings without escapes. -/
def objectLiteral (entries : List (Text × Text)) : Text :=
  "\x7b".toList
    ++ ",".toList.intercalate (entries.map fun e => e.1 ++ ":\"".toList ++ e.2 ++ "\"".toList)
    ++ "\x7d".toList

/-- The `colors` of `PALETTES[0]`, the palette `midnight-blush`. -/
def midnightBlush : List (Text × Text) :=
  [("primary50".toList, "#fff5f7".toList),
   ("primary100".toList, "#fde8ec".toList),
   ("primary200".toList, "#f8d0d7".toList),
   ("primary300".toList, "#eebbc3".toList),
   ("primary400".toList, "#e8a5af".toList),
   ("primary500".toList, "#d4899a".toList),
   ("primary600".toList, "#c07080".toList),
   ("primary700".toList, "#a85a6a".toList),
   ("primary800".toList, "#8a4555".toList),
   ("primary900".toList, "#6d3545".toList),
   ("bg".toList, "#232946".toList),
   ("surface".toList, "#1e2440".toList),
   ("surfaceElevated".toList, "#2a3157".toList),
   ("border".toList, "rgba(184, 193, 236, .12)".toList),
   ("borderSubtle".toList, "rgba(184, 193, 236, .06)".toList),
   ("hover".toList, "#303767".toList),
   ("textPrimary".toList, "#fffffe".toList),
   ("textSecondary".toList, "#b8c1ec".toList),
   ("textTertiary".toList, "#8892b8".toList),
   ("inputBg".toList, "#1a1f3d".toList),
   ("codeBg".toList, "#1a1f3d".toList),
   ("codeInlineBg".toList, "#2a3157".toList),
   ("glassBg".toList, "rgba(35, 41, 70, .85)".toList),
   ("glassBorder".toList, "rgba(238, 187, 195, .15)".toList),
   ("glassShadow".toList, "0 8px 32px rgba(18, 22, 41, .5)".toList),
   ("accentGlow".toList, "rgba(238, 187, 195, .15)".toList),
   ("accentGlowStrong".toList, "rgba(238, 187, 195, .3)".toList),
   ("bodyGradientFrom".toList, "#1a2040".toList),
   ("bodyGradientTo".toList, "#232946".toList),
   ("accentText".toList, "#232946".toList),
   ("muted".toList, "#6b7ead".toList),
   ("success".toList, "#4ade80".toList),
   ("error".toList, "#f87171".toList),
   ("warning".toList, "#fbbf24".toList)]

end PaletteSystem

/-! ## `patch-windows-improvements.js`, PATCH 2 to PATCH 4 and the whole script -/

namespace WindowsImprovements

/-- The protocol registration of the original program. -/
def oldProtocol : Text :=
  "process.defaultApp?process.argv.length>=2&&c.app.setAsDefaultProtocolClient(\"roro\",process.execPath,[process.argv[1]]):c.app.setAsDefaultProtocolClient(\"roro\")".toList

/-- The simplified and rebranded protocol registration. -/
def newProtocol : Text :=
  "c.app.setAsDefaultProtocolClient(\"evero\")".toList

/-- PATCH 2: the first branch of the `if`/`else if` chain whose test holds is
taken; the second and the last one only log. -/
def patch2 (code : Text) : Text :=
  if includes code oldProtocol then replace code oldProtocol newProtocol
  else if includes code "setAsDefaultProtocolClient(\"evero\")".toList then code
  else if includes code "setAsDefaultProtocolClient(\"roro\")".toList then
    replace code "setAsDefaultProtocolClient(\"roro\")".toList
      "setAsDefaultProtocolClient(\"evero\")".toList
  else code

/-- The start of the call that spawns the terminal. -/
def spawnPattern : Text :=
  "h=Me.spawn(r,d,\x7bname:\"xterm-256color\"".toList

/-- The code that writes the `claude` command into the terminal. -/
def autoLaunchCode : Text :=
  "\nsetTimeout(()=>\x7b\nconst _lc=this._launchConfig||\x7b\x7d;\nconst _flags=[];\nif(_lc.skipPermissions)_flags.push(\"--dangerously-skip-permissions\");\nif(_lc.model)_flags.push(\"--model\",_lc.model);\nif(_lc.verbose)_flags.push(\"--verbose\");\nif(_lc.customFlags)_flags.push(..._lc.customFlags.split(\" \").filter(Boolean));\nif(_lc.autoLaunch!==false)\x7b\nconst _cmd=\"claude\"+(_flags.length?\" \"+_flags.join(\" \"):\"\")+\"\\r\";\ntry\x7bh.write(_cmd)\x7dcatch(_e)\x7b\x7d\n\x7d\x7d,800),".toList

/-- The loop that moves `pos` on to the next comma or semicolon, or to the end of
the text; the first argument is the text from index `pos` on. -/
def skipLoop : Text → Nat → Nat
  | [], pos => pos
  | c :: rest, pos => if c ≠ ',' ∧ c ≠ ';' then skipLoop rest (pos + 1) else pos

/-- PATCH 3: after the first `.onData(` within 1500 code units of the spawn call,
the parentheses are scanned from depth 1 until they balance, the scan goes on
to the next comma or semicolon, and the auto-launch code is inserted right
after it. -/
def patch3 (code : Text) : Text :=
  let spawnIdx := indexOf code spawnPattern
  if spawnIdx = -1 then code
  else
    let afterSpawnSearch := substring code spawnIdx (spawnIdx + 1500)
    let onDataIdx := indexOf afterSpawnSearch ".onData(".toList
    if onDataIdx = -1 then code
    else
      let searchStart := spawnIdx + onDataIdx
      let parenStart := indexOfFrom code "(".toList searchStart
      let pos := (scanLoop '(' ')' (code.drop (parenStart + 1).toNat) (parenStart + 1).toNat 1).1
      let pos := skipLoop (code.drop pos) pos
      let insertPos : Int := pos + 1
      if insertPos > 0 then
        substring code 0 insertPos ++ autoLaunchCode ++ substringFrom code insertPos
      else code

/-- The anchor of PATCH 4. -/
def shellHandlerPattern : Text :=
  "c.ipcMain.handle(\"shell:openExternal\"".toList

/-- The three `launch-config` handlers. -/
def configHandlers : Text :=
  ",\nc.ipcMain.handle(\"launch-config:set\",async(ev,cfg)=>\x7bif(z)z._launchConfig=cfg;return\x7bsuccess:!0\x7d\x7d),\nc.ipcMain.handle(\"launch-config:get\",async()=>\x7breturn\x7bsuccess:!0,config:z?z._launchConfig||\x7b\x7d:\x7b\x7d\x7d\x7d),\nc.ipcMain.handle(\"launch-config:get-defaults\",async()=>\x7breturn\x7bsuccess:!0,defaults:\x7bautoLaunch:!0,skipPermissions:!1,model:\"\",verbose:!1,customFlags:\"\"\x7d\x7d\x7d)".toList

/-- PATCH 4: the handlers and a comma are inserted before the first
`shell:openExternal` handler. -/
def patch4 (code : Text) : Text :=
  let shellIdx := indexOf code shellHandlerPattern
  if shellIdx = -1 then code
  else substring code 0 shellIdx ++ configHandlers ++ ",".toList ++ substringFrom code shellIdx

/-- The main text the script writes back. -/
def run (code : Text) : Text :=
  patch4 (patch3 (patch2 (patch1 code)))

end WindowsImprovements

/-! ## `patch-ollama-integration.js` -/

namespace OllamaIntegration

/-- The class `OllamaService`. -/
def ollamaServiceClass : Text :=
  "\nclass OllamaService\x7b\nconstructor(modelName)\x7b\nthis.messages=[];\nthis.currentSessionId=null;\nthis.workingDirectory=process.cwd();\nthis.mainWindow=null;\nthis.modelName=modelName||\"llama3.2\";\nthis.ollamaHost=\"http://localhost:11434\";\nthis.conversationHistory=[];\n\x7d\nsetWorkingDirectory(dir)\x7bthis.workingDirectory=dir\x7d\nsetMainWindow(win)\x7bthis.mainWindow=win\x7d\nrestoreState(msgs,sessionId)\x7bthis.messages=msgs;this.currentSessionId=sessionId;\nthis.conversationHistory=msgs.filter(m=>m.role===\"user\"||m.role===\"assistant\").map(m=>(\x7brole:m.role,content:m.content\x7d));\n\x7d\nasync initializeSession()\x7b\nif(this.currentSessionId)return this.currentSessionId;\nthis.currentSessionId=\"ollama-\"+Date.now()+\"-\"+Math.random().toString(36).slice(2,8);\nreturn this.currentSessionId;\n\x7d\ngetMessages()\x7breturn this.messages\x7d\ngetSessionId()\x7breturn this.currentSessionId\x7d\nclearMessages()\x7bthis.messages=[];this.currentSessionId=null;this.conversationHistory=[];\x7d\nasync sendMessage(prompt,streamCallback)\x7b\nif(!this.currentSessionId)await this.initializeSession();\nconst userMsg=\x7bid:Date.now().toString(),role:\"user\",content:prompt,timestamp:Date.now()\x7d;\nthis.messages.push(userMsg);\nthis.conversationHistory.push(\x7brole:\"user\",content:prompt\x7d);\nstreamCallback?.(\x7btype:\"session_start\",sessionId:this.currentSessionId\x7d);\nlet fullResponse=\"\";\ntry\x7b\nconst http=require(\"http\");\nconst postData=JSON.stringify(\x7b\nmodel:this.modelName,\nmessages:this.conversationHistory,\nstream:true\n\x7d);\nconst url=new URL(this.ollamaHost+\"/api/chat\");\nawait new Promise((resolve,reject)=>\x7b\nconst req=http.request(\x7bhostname:url.hostname,port:url.port,path:url.pathname,method:\"POST\",headers:\x7b\"Content-Type\":\"application/json\",\"Content-Length\":Buffer.byteLength(postData)\x7d\x7d,res=>\x7b\nlet buf=\"\";\nres.on(\"data\",chunk=>\x7b\nbuf+=chunk.toString();\nconst lines=buf.split(\"\\n\");\nbuf=lines.pop()||\"\";\nfor(const line of lines)\x7b\nif(!line.trim())continue;\ntry\x7b\nconst j=JSON.parse(line);\nif(j.message&&j.message.content)\x7b\nfullResponse+=j.message.content;\nstreamCallback?.(\x7btype:\"message\",content:j.message.content\x7d);\n\x7d\nif(j.done)\x7b\nresolve();\n\x7d\n\x7dcatch(pe)\x7b\x7d\n\x7d\n\x7d);\nres.on(\"end\",()=>\x7bresolve()\x7d);\nres.on(\"error\",reject);\n\x7d);\nreq.on(\"error\",reject);\nreq.write(postData);\nreq.end();\n\x7d);\n\x7dcatch(err)\x7b\nconst errMsg=\"[Ollama Error] \"+((err&&err.message)?err.message:\"Connection failed. Is Ollama running? (ollama serve)\");\nfullResponse=errMsg;\nstreamCallback?.(\x7btype:\"message\",content:errMsg\x7d);\n\x7d\nconst assistantMsg=\x7bid:(Date.now()+1).toString(),role:\"assistant\",content:fullResponse,timestamp:Date.now()\x7d;\nthis.messages.push(assistantMsg);\nthis.conversationHistory.push(\x7brole:\"assistant\",content:fullResponse\x7d);\nstreamCallback?.(\x7btype:\"done\"\x7d);\nreturn fullResponse;\n\x7d\n\x7d\n".toList

/-- The anchor of PATCH 1. -/
def insertTarget : Text :=
  "new ee;const oe=".toList

/-- PATCH 1: the class is inserted before the first `new ee;const oe=`. -/
def patch1 (code : Text) : Text :=
  let insertIdx := indexOf code insertTarget
  if insertIdx = -1 then code
  else
    substring code 0 insertIdx ++ ollamaServiceClass ++ insertTarget
      ++ substringFrom code (insertIdx + insertTarget.length)

/-- Anchor of PATCH 2a. -/
def oldCreateLogo : Text :=
  "modelLogo:\"claude\",hasSession:!1".toList

/-- Replacement of PATCH 2a. -/
def newCreateLogo : Text :=
  "modelLogo:n===\"ollama\"?\"ollama\":\"claude\",hasSession:!1".toList

/-- Anchor of PATCH 2b. -/
def oldCreateService : Text :=
  "hasUnreadNotification:!1\x7d,g=new ee;g.setWorkingDirectory(s),g.initializeSession()".toList

/-- Replacement of PATCH 2b. -/
def newCreateService : Text :=
  "hasUnreadNotification:!1\x7d,g=n===\"ollama\"?new OllamaService(r):new ee;g.setWorkingDirectory(s),g.initializeSession()".toList

/-- Anchor of PATCH 3. -/
def oldRestore : Text :=
  "for(const d of r.agents)\x7bconst g=new ee;g.setWorkingDirectory(t),g.restoreState(d.messages,d.sessionId)".toList

/-- Replacement of PATCH 3. -/
def newRestore : Text :=
  "for(const d of r.agents)\x7bconst g=(d.metadata&&d.metadata.type===\"ollama\")?new OllamaService(d.metadata.modelName):new ee;g.setWorkingDirectory(t),g.restoreState(d.messages,d.sessionId)".toList

/-- PATCH 2a, 2b and 3, each a guarded replacement. -/
def steps : List Step :=
  [⟨oldCreateLogo, newCreateLogo⟩, ⟨oldCreateService, newCreateService⟩, ⟨oldRestore, newRestore⟩]

/-- The anchor of PATCH 4. -/
def shellHandler : Text :=
  "c.ipcMain.handle(\"shell:openExternal\"".toList

/-- The four `ollama` handlers. -/
def ollamaHandlers : Text :=
  "\nc.ipcMain.handle(\"ollama:check-status\",async()=>\x7b\ntry\x7b\nconst http=require(\"http\");\nreturn await new Promise((resolve)=>\x7b\nconst req=http.get(\"http://localhost:11434/\",res=>\x7b\nlet d=\"\";res.on(\"data\",c=>d+=c);\nres.on(\"end\",()=>resolve(\x7bsuccess:!0,running:!0,response:d\x7d));\n\x7d);\nreq.on(\"error\",()=>resolve(\x7bsuccess:!0,running:!1\x7d));\nreq.setTimeout(3000,()=>\x7breq.destroy();resolve(\x7bsuccess:!0,running:!1\x7d)\x7d);\n\x7d);\n\x7dcatch(err)\x7breturn\x7bsuccess:!1,error:err.message\x7d\x7d\n\x7d),\nc.ipcMain.handle(\"ollama:list-models\",async()=>\x7b\ntry\x7b\nconst http=require(\"http\");\nreturn await new Promise((resolve,reject)=>\x7b\nconst req=http.get(\"http://localhost:11434/api/tags\",res=>\x7b\nlet d=\"\";res.on(\"data\",c=>d+=c);\nres.on(\"end\",()=>\x7btry\x7bconst j=JSON.parse(d);resolve(\x7bsuccess:!0,models:j.models||[]\x7d)\x7dcatch(e)\x7bresolve(\x7bsuccess:!1,error:\"Invalid response\"\x7d)\x7d\x7d);\n\x7d);\nreq.on(\"error\",e=>resolve(\x7bsuccess:!1,error:e.message\x7d));\nreq.setTimeout(5000,()=>\x7breq.destroy();resolve(\x7bsuccess:!1,error:\"Timeout\"\x7d)\x7d);\n\x7d);\n\x7dcatch(err)\x7breturn\x7bsuccess:!1,error:err.message\x7d\x7d\n\x7d),\nc.ipcMain.handle(\"ollama:set-model\",async(ev,projectId,agentId,modelName)=>\x7b\ntry\x7b\nif(!z)return\x7bsuccess:!1,error:\"Agent registry not ready\"\x7d;\nconst agent=z.getAgent(projectId,agentId);\nif(!agent)return\x7bsuccess:!1,error:\"Agent not found\"\x7d;\nif(agent instanceof OllamaService)\x7bagent.modelName=modelName;return\x7bsuccess:!0\x7d\x7d\nreturn\x7bsuccess:!1,error:\"Agent is not an Ollama agent\"\x7d\n\x7dcatch(err)\x7breturn\x7bsuccess:!1,error:err.message\x7d\x7d\n\x7d),\nc.ipcMain.handle(\"ollama:pull-model\",async(ev,modelName)=>\x7b\ntry\x7b\nconst http=require(\"http\");\nconst postData=JSON.stringify(\x7bname:modelName,stream:false\x7d);\nreturn await new Promise((resolve,reject)=>\x7b\nconst req=http.request(\x7bhostname:\"localhost\",port:11434,path:\"/api/pull\",method:\"POST\",headers:\x7b\"Content-Type\":\"application/json\",\"Content-Length\":Buffer.byteLength(postData)\x7d\x7d,res=>\x7b\nlet d=\"\";res.on(\"data\",c=>d+=c);\nres.on(\"end\",()=>\x7btry\x7bresolve(\x7bsuccess:!0,result:JSON.parse(d)\x7d)\x7dcatch\x7bresolve(\x7bsuccess:!0,result:d\x7d)\x7d\x7d);\n\x7d);\nreq.on(\"error\",e=>resolve(\x7bsuccess:!1,error:e.message\x7d));\nreq.setTimeout(300000,()=>\x7breq.destroy();resolve(\x7bsuccess:!1,error:\"Timeout (5min)\"\x7d)\x7d);\nreq.write(postData);\nreq.end();\n\x7d);\n\x7dcatch(err)\x7breturn\x7bsuccess:!1,error:err.message\x7d\x7d\n\x7d),".toList

/-- PATCH 4: the handlers are inserted before the first `shell:openExternal`
handler. -/
def patch4 (code : Text) : Text :=
  let shellIdx := indexOf code shellHandler
  if shellIdx = -1 then code
  else substring code 0 shellIdx ++ ollamaHandlers ++ substringFrom code shellIdx

/-- The defaults PATCH 5 looks for. -/
def oldDefaults : Text :=
  "defaults:\x7bautoLaunch:!1,skipPermissions:!1,model:\"\",verbose:!1,customFlags:\"\"\x7d".toList

/-- The defaults PATCH 5 writes. -/
def newDefaults : Text :=
  "defaults:\x7bautoLaunch:!1,skipPermissions:!1,model:\"\",verbose:!1,customFlags:\"\",ollamaModel:\"llama3.2\"\x7d".toList

/-- PATCH 5, a guarded replacement. -/
def patch5 (code : Text) : Text :=
  applyStep ⟨oldDefaults, newDefaults⟩ code

/-- The main text the script writes back. -/
def run (code : Text) : Text :=
  patch5 (patch4 (applySteps steps (patch1 code)))

end OllamaIntegration

/-! ## A main text on which every patch of the two scripts finds its anchor -/

/-- A main text with the anchors of PATCH 1 to 4 of `patch-windows-improvements.js` and of
PATCH 1 and PATCH 4 of `patch-ollama-integration.js`. -/
def mainSample : Text :=
  "class ee\x7b\x7dconst ne=new ee;const oe=2;c.app.whenReady().then(()=>\x7bprocess.defaultApp?process.argv.length>=2&&c.app.setAsDefaultProtocolClient(\"roro\",process.execPath,[process.argv[1]]):c.app.setAsDefaultProtocolClient(\"roro\");h=Me.spawn(r,d,\x7bname:\"xterm-256color\"\x7d);h.onData(d=>\x7bsend(d)\x7d),c.ipcMain.handle(\"shell:openExternal\",async(e,u)=>\x7b\x7d)\x7d)".toList

/-! ## `patch-conversation-export.js`, PART 3 -/

namespace ConversationExport

/-- The chat header of the original renderer. -/
def oldHeader : Text :=
  "E.jsx(\"div\",\x7bclassName:\"flex items-center justify-between px-4 py-3 bg-dark-surface h-[60px]\",children:E.jsx(\"div\",\x7bclassName:\"flex items-center space-x-4 \",children:E.jsx(jY,\x7bprojectId:t,agentId:e,isLoading:h,onOpenSettings:()=>r?.(),refreshTrigger:s\x7d)\x7d)\x7d)".toList

/-- The export button with its menu. -/
def exportBtn : Text :=
  "E.jsx(function()\x7bconst[showMenu,setMenu]=$.useState(false);const doExport=(fmt)=>\x7bsetMenu(false);if(o.length===0)return;const date=new Date().toISOString().slice(0,10);if(fmt===\"md\")\x7bconst md=\"# Conversation Export\\n\\nDate: \"+date+\"\\n\\n---\\n\\n\"+o.map(V=>\"## \"+(V.role===\"user\"?\"You\":\"Assistant\")+\"\\n\\n\"+V.content+\"\\n\").join(\"\\n---\\n\\n\");window.electronAPI.conversation.export(md,\"conversation-\"+date+\".md\")\x7delse if(fmt===\"json\")\x7bconst json=JSON.stringify(\x7bexported:date,messages:o.map(V=>(\x7brole:V.role,content:V.content\x7d))\x7d,null,2);window.electronAPI.conversation.export(json,\"conversation-\"+date+\".json\")\x7delse if(fmt===\"copy\")\x7bconst text=o.map(V=>(V.role===\"user\"?\"You\":\"Assistant\")+\": \"+V.content).join(\"\\n\\n\");navigator.clipboard.writeText(text)\x7d\x7d;return E.jsxs(\"div\",\x7bstyle:\x7bposition:\"relative\"\x7d,children:[E.jsx(\"button\",\x7bonClick:()=>setMenu(!showMenu),style:\x7bpadding:\"4px 10px\",borderRadius:\"6px\",border:\"1px solid #2a3157\",background:\"#1e2440\",color:\"#b8c1ec\",cursor:o.length>0?\"pointer\":\"default\",fontSize:\"12px\",opacity:o.length>0?1:0.4\x7d,disabled:o.length===0,title:\"Export conversation\",children:\"Export\"\x7d),showMenu&&E.jsxs(\"div\",\x7bstyle:\x7bposition:\"absolute\",right:0,top:\"100%\",marginTop:\"4px\",background:\"#1e2440\",border:\"1px solid #2a3157\",borderRadius:\"8px\",padding:\"4px\",minWidth:\"160px\",zIndex:100,boxShadow:\"0 8px 24px rgba(18,22,41,0.6)\"\x7d,children:[E.jsx(\"button\",\x7bonClick:()=>doExport(\"md\"),style:\x7bdisplay:\"block\",width:\"100%\",textAlign:\"left\",padding:\"6px 10px\",borderRadius:\"4px\",border:\"none\",background:\"transparent\",color:\"#fffffe\",cursor:\"pointer\",fontSize:\"12px\"\x7d,onMouseEnter:ev=>ev.currentTarget.style.background=\"#2a3157\",onMouseLeave:ev=>ev.currentTarget.style.background=\"transparent\",children:\"Save as Markdown\"\x7d),E.jsx(\"button\",\x7bonClick:()=>doExport(\"json\"),style:\x7bdisplay:\"block\",width:\"100%\",textAlign:\"left\",padding:\"6px 10px\",borderRadius:\"4px\",border:\"none\",background:\"transparent\",color:\"#fffffe\",cursor:\"pointer\",fontSize:\"12px\"\x7d,onMouseEnter:ev=>ev.currentTarget.style.background=\"#2a3157\",onMouseLeave:ev=>ev.currentTarget.style.background=\"transparent\",children:\"Save as JSON\"\x7d),E.jsx(\"div\",\x7bstyle:\x7bheight:\"1px\",background:\"#2a3157\",margin:\"2px 0\"\x7d\x7d),E.jsx(\"button\",\x7bonClick:()=>doExport(\"copy\"),style:\x7bdisplay:\"block\",width:\"100%\",textAlign:\"left\",padding:\"6px 10px\",borderRadius:\"4px\",border:\"none\",background:\"transparent\",color:\"#fffffe\",cursor:\"pointer\",fontSize:\"12px\"\x7d,onMouseEnter:ev=>ev.currentTarget.style.background=\"#2a3157\",onMouseLeave:ev=>ev.currentTarget.style.background=\"transparent\",children:\"Copy to Clipboard\"\x7d)]\x7d)]\x7d)\x7d,\x7b\x7d)".toList

/-- The chat header with the export button as second child. -/
def newHeader : Text :=
  "E.jsxs(\"div\",\x7bclassName:\"flex items-center justify-between px-4 py-3 bg-dark-surface h-[60px]\",children:[E.jsx(\"div\",\x7bclassName:\"flex items-center space-x-4 \",children:E.jsx(jY,\x7bprojectId:t,agentId:e,isLoading:h,onOpenSettings:()=>r?.(),refreshTrigger:s\x7d)\x7d),".toList ++ exportBtn ++ "]\x7d)".toList

/-- PART 3 on the renderer text: the first chat header is replaced; without it
the script only logs. -/
def patchRenderer (renderCode : Text) : Text :=
  if !includes renderCode oldHeader then renderCode
  else replace renderCode oldHeader newHeader

end ConversationExport

/-! ## `patch-palette-system.js`, PART 3 to PART 5 -/

namespace PaletteSystem

/-- The palette engine that PART 3 puts in front of the renderer. -/
def engineCode : Text :=
  "/* EveRo Palette Engine */\nvar __paletteCache=\x7b\x7d;\nfunction __resolveColor(role)\x7breturn __paletteCache[role]||null\x7d\nfunction __applyPalette(pal)\x7bif(!pal||!pal.colors)return;Object.assign(__paletteCache,pal.colors);var VM=".toList ++ VAR_MAP_JS ++ ";var el=document.getElementById(\"evero-palette-override\");if(!el)\x7bel=document.createElement(\"style\");el.id=\"evero-palette-override\";document.head.appendChild(el)\x7dvar css=\":root\x7b\";var keys=Object.keys(VM);for(var i=0;i<keys.length;i++)\x7bvar k=keys[i];if(pal.colors[k])css+=VM[k]+\":\"+pal.colors[k]+\";\"\x7dcss+=\"\x7d\";if(pal.colors.bodyGradientFrom&&pal.colors.bodyGradientTo)\x7bcss+=\"body\x7bbackground:linear-gradient(135deg,\"+pal.colors.bodyGradientFrom+\",\"+pal.colors.bodyGradientTo+\")!important\x7d\"\x7del.textContent=css;document.documentElement.style.visibility=\"visible\"\x7d\nfunction __derivePalette(c)\x7bfunction hx(h)\x7bvar m=h.match(/^#?([a-f\\d]\x7b2\x7d)([a-f\\d]\x7b2\x7d)([a-f\\d]\x7b2\x7d)$/i);return m?[parseInt(m[1],16),parseInt(m[2],16),parseInt(m[3],16)]:[0,0,0]\x7dfunction rh(r,g,b)\x7breturn\"#\"+[r,g,b].map(function(x)\x7breturn Math.round(Math.max(0,Math.min(255,x))).toString(16).padStart(2,\"0\")\x7d).join(\"\")\x7dfunction mx(c1,c2,t)\x7bvar a=hx(c1),b=hx(c2);return rh(a[0]+(b[0]-a[0])*t,a[1]+(b[1]-a[1])*t,a[2]+(b[2]-a[2])*t)\x7dvar ac=c.accent,bg=c.bg,sf=c.surface,tp=c.textPrimary,ts=c.textSecondary,bd=c.border;var ar=hx(ac),br=hx(bg),tr=hx(ts);var se=mx(sf,tp,0.08),hv=mx(sf,tp,0.12),ib=mx(bg,\"#000000\",0.08);return\x7bprimary50:mx(ac,\"#ffffff\",0.92),primary100:mx(ac,\"#ffffff\",0.82),primary200:mx(ac,\"#ffffff\",0.65),primary300:ac,primary400:mx(ac,\"#000000\",0.12),primary500:mx(ac,\"#000000\",0.25),primary600:mx(ac,\"#000000\",0.38),primary700:mx(ac,\"#000000\",0.52),primary800:mx(ac,\"#000000\",0.65),primary900:mx(ac,\"#000000\",0.78),bg:bg,surface:sf,surfaceElevated:se,border:\"rgba(\"+tr[0]+\",\"+tr[1]+\",\"+tr[2]+\",.12)\",borderSubtle:\"rgba(\"+tr[0]+\",\"+tr[1]+\",\"+tr[2]+\",.06)\",hover:hv,textPrimary:tp,textSecondary:ts,textTertiary:mx(ts,bg,0.35),inputBg:ib,codeBg:ib,codeInlineBg:se,glassBg:\"rgba(\"+br[0]+\",\"+br[1]+\",\"+br[2]+\",.85)\",glassBorder:\"rgba(\"+ar[0]+\",\"+ar[1]+\",\"+ar[2]+\",.15)\",glassShadow:\"0 8px 32px rgba(\"+Math.max(0,br[0]-20)+\",\"+Math.max(0,br[1]-20)+\",\"+Math.max(0,br[2]-20)+\",.5)\",accentGlow:\"rgba(\"+ar[0]+\",\"+ar[1]+\",\"+ar[2]+\",.15)\",accentGlowStrong:\"rgba(\"+ar[0]+\",\"+ar[1]+\",\"+ar[2]+\",.3)\",bodyGradientFrom:mx(bg,\"#000000\",0.06),bodyGradientTo:bg,accentText:bg,muted:mx(ts,bg,0.5),success:\"#4ade80\",error:\"#f87171\",warning:\"#fbbf24\"\x7d\x7d\n(function()\x7bdocument.documentElement.style.visibility=\"hidden\";function ready()\x7bif(window.electronAPI&&window.electronAPI.palette)\x7bwindow.electronAPI.palette.getActive().then(function(res)\x7bif(res&&res.success&&res.data)__applyPalette(res.data);else document.documentElement.style.visibility=\"visible\"\x7d).catch(function()\x7bdocument.documentElement.style.visibility=\"visible\"\x7d);window.electronAPI.palette.onChanged(function(pal)\x7b__applyPalette(pal)\x7d)\x7delse\x7bdocument.documentElement.style.visibility=\"visible\"\x7d\x7dif(document.readyState===\"loading\")document.addEventListener(\"DOMContentLoaded\",ready);else ready();setTimeout(function()\x7bdocument.documentElement.style.visibility=\"visible\"\x7d,200)\x7d)();\n".toList

/-- The list `inlineReplacements`. -/
def inlineReplacements : List (Text × Text) :=
  [(":\"#fffffe\"".toList,
     ":(__resolveColor(\"textPrimary\")||\"#fffffe\")".toList),
   (":\"#b8c1ec\"".toList,
     ":(__resolveColor(\"textSecondary\")||\"#b8c1ec\")".toList),
   (":\"#8892b8\"".toList,
     ":(__resolveColor(\"textTertiary\")||\"#8892b8\")".toList),
   (":\"#1e2440\"".toList,
     ":(__resolveColor(\"surface\")||\"#1e2440\")".toList),
   (":\"#1a1f3d\"".toList,
     ":(__resolveColor(\"inputBg\")||\"#1a1f3d\")".toList),
   (":\"#2a3157\"".toList,
     ":(__resolveColor(\"border\")||\"#2a3157\")".toList),
   (":\"#eebbc3\"".toList,
     ":(__resolveColor(\"accent\")||\"#eebbc3\")".toList),
   (":\"#232946\"".toList,
     ":(__resolveColor(\"accentText\")||\"#232946\")".toList),
   (":\"#6b7ead\"".toList,
     ":(__resolveColor(\"muted\")||\"#6b7ead\")".toList)]

/-- The list `hoverReplacements`. -/
def hoverReplacements : List (Text × Text) :=
  [("e.currentTarget.style.background=\"#252c55\"".toList,
     "e.currentTarget.style.background=__resolveColor(\"hover\")||\"#252c55\"".toList),
   ("ev.currentTarget.style.background=\"#2a3157\"".toList,
     "ev.currentTarget.style.background=__resolveColor(\"surfaceElevated\")||\"#2a3157\"".toList),
   ("ev.currentTarget.style.background=\"transparent\"".toList,
     "ev.currentTarget.style.background=\"transparent\"".toList),
   ("e.currentTarget.style.background=\"#1a1f3d\"".toList,
     "e.currentTarget.style.background=__resolveColor(\"inputBg\")||\"#1a1f3d\"".toList)]

/-- The list `borderReplacements`. -/
def borderReplacements : List (Text × Text) :=
  [("\"1px solid #2a3157\"".toList,
     "\"1px solid \"+(__resolveColor(\"surfaceElevated\")||\"#2a3157\")".toList),
   ("\"1px solid #1e2440\"".toList,
     "\"1px solid \"+(__resolveColor(\"surface\")||\"#1e2440\")".toList)]

/-- The box shadow PART 4 looks for. -/
def shadowOld : Text :=
  "\"0 8px 24px rgba(18,22,41,0.6)\"".toList

/-- The box shadow PART 4 writes. -/
def shadowNew : Text :=
  "\"0 8px 24px rgba(0,0,0,0.4)\"".toList

/-- One replacement of PART 4: `count = renderer.split(old).length - 1`, and
`renderer.replaceAll(old, rep)` when the count is positive. -/
def countedReplaceAll (renderer : Text) (r : Text × Text) : Text :=
  if matchCount renderer r.1 > 0 then replaceAll renderer r.1 r.2 else renderer

/-- PART 4: the inline, hover and border replacements in the order of their
lists (a hover entry whose two texts are equal is passed over), then the box
shadow. -/
def part4 (renderer : Text) : Text :=
  let renderer := inlineReplacements.foldl countedReplaceAll renderer
  let renderer := hoverReplacements.foldl
    (fun buf r => if r.1 = r.2 then buf else countedReplaceAll buf r) renderer
  let renderer := borderReplacements.foldl countedReplaceAll renderer
  if includes renderer shadowOld then replaceAll renderer shadowOld shadowNew else renderer

/-- The palette picker. -/
def palettePicker : Text :=
  "E.jsx((function()\x7bvar _s=W.useState,_e=W.useEffect;var _r=_s(false),showP=_r[0],setP=_r[1];var _p=_s([]),pals=_p[0],setPals=_p[1];var _a=_s(\"\"),actId=_a[0],setAct=_a[1];var _cm=_s(false),custMode=_cm[0],setCustMode=_cm[1];var _cn=_s(\"My Theme\"),custName=_cn[0],setCustName=_cn[1];var _cc=_s(\x7bbg:\"#232946\",surface:\"#1e2440\",textPrimary:\"#fffffe\",textSecondary:\"#b8c1ec\",accent:\"#eebbc3\",border:\"#2a3157\"\x7d),custC=_cc[0],setCustC=_cc[1];_e(function()\x7bif(showP)\x7bwindow.electronAPI.palette.list().then(function(r)\x7bif(r&&r.success)setPals(r.data)\x7d);window.electronAPI.palette.getActive().then(function(r)\x7bif(r&&r.success)setAct(r.data.id)\x7d)\x7d\x7d,[showP]);var selPal=function(id)\x7bwindow.electronAPI.palette.set(id).then(function(r)\x7bif(r&&r.success)setAct(id)\x7d)\x7d;var saveCust=function()\x7bvar d=window.__derivePalette(custC);var pal=\x7bname:custName,type:\"dark\",colors:d\x7d;window.electronAPI.palette.saveCustom(pal).then(function(r)\x7bif(r&&r.success)\x7bsetAct(r.data.id);setPals(function(prev)\x7breturn prev.filter(function(x)\x7breturn x.id!==r.data.id\x7d).concat([r.data])\x7d);setCustMode(false)\x7d\x7d)\x7d;var delCust=function(id)\x7bwindow.electronAPI.palette.deleteCustom(id).then(function()\x7bsetPals(function(prev)\x7breturn prev.filter(function(x)\x7breturn x.id!==id\x7d)\x7d)\x7d)\x7d;var doImport=function()\x7bvar inp=document.createElement(\"input\");inp.type=\"file\";inp.accept=\".json\";inp.onchange=function()\x7bvar f=inp.files[0];if(!f)return;var rd=new FileReader();rd.onload=function()\x7bwindow.electronAPI.palette.import(rd.result).then(function(r)\x7bif(r&&r.success)\x7bsetPals(function(prev)\x7breturn prev.concat([r.data])\x7d);setAct(r.data.id)\x7d\x7d)\x7d;rd.readAsText(f)\x7d;inp.click()\x7d;var doExportPal=function()\x7bvar cur=pals.find(function(x)\x7breturn x.id===actId\x7d);if(!cur)return;var blob=new Blob([JSON.stringify(cur,null,2)],\x7btype:\"application/json\"\x7d);var a=document.createElement(\"a\");a.href=URL.createObjectURL(blob);a.download=cur.id+\".json\";a.click()\x7d;var swatch=function(colors)\x7breturn E.jsx(\"div\",\x7bstyle:\x7bdisplay:\"flex\",height:\"16px\",borderRadius:\"4px\",overflow:\"hidden\",marginBottom:\"3px\"\x7d,children:[colors.bg,colors.surface,colors.accent||colors.primary300,colors.textPrimary,colors.textSecondary].map(function(c,i)\x7breturn E.jsx(\"div\",\x7bstyle:\x7bflex:1,background:c\x7d\x7d,String(i))\x7d)\x7d)\x7d;var card=function(p,showDel)\x7breturn E.jsxs(\"div\",\x7bonClick:function()\x7bselPal(p.id)\x7d,style:\x7bcursor:\"pointer\",borderRadius:\"8px\",border:p.id===actId?\"2px solid \"+(__resolveColor(\"accent\")||\"#eebbc3\"):\"2px solid transparent\",padding:\"4px\",background:p.colors.bg,position:\"relative\"\x7d,children:[swatch(p.colors),E.jsx(\"div\",\x7bstyle:\x7bfontSize:\"9px\",color:p.colors.textPrimary,textAlign:\"center\",whiteSpace:\"nowrap\",overflow:\"hidden\",textOverflow:\"ellipsis\"\x7d,children:p.name\x7d),showDel?E.jsx(\"button\",\x7bonClick:function(ev)\x7bev.stopPropagation();delCust(p.id)\x7d,style:\x7bposition:\"absolute\",top:\"1px\",right:\"3px\",background:\"none\",border:\"none\",color:p.colors.textTertiary||\"#888\",cursor:\"pointer\",fontSize:\"10px\",lineHeight:\"1\"\x7d,children:\"\\u00d7\"\x7d):null]\x7d,p.id)\x7d;return E.jsxs(\"div\",\x7bstyle:\x7bposition:\"relative\"\x7d,children:[E.jsxs(\"button\",\x7bonClick:function()\x7bsetP(!showP)\x7d,style:\x7bpadding:\"4px 10px\",borderRadius:\"6px\",border:\"1px solid \"+(__resolveColor(\"surfaceElevated\")||\"#2a3157\"),background:__resolveColor(\"surface\")||\"#1e2440\",color:__resolveColor(\"textSecondary\")||\"#b8c1ec\",cursor:\"pointer\",fontSize:\"12px\",display:\"flex\",alignItems:\"center\",gap:\"4px\"\x7d,children:[E.jsx(\"svg\",\x7bwidth:12,height:12,viewBox:\"0 0 24 24\",fill:\"none\",stroke:\"currentColor\",strokeWidth:2,children:E.jsx(\"path\",\x7bd:\"M12 2C6.48 2 2 6.48 2 12s4.48 10 10 10 10-4.48 10-10S17.52 2 12 2zm-1 17.93c-3.95-.49-7-3.85-7-7.93 0-.62.08-1.21.21-1.79L9 15v1c0 1.1.9 2 2 2v1.93zm6.9-2.54c-.26-.81-1-1.39-1.9-1.39h-1v-3c0-.55-.45-1-1-1H8v-2h2c.55 0 1-.45 1-1V7h2c1.1 0 2-.9 2-2v-.41c2.93 1.19 5 4.06 5 7.41 0 2.08-.8 3.97-2.1 5.39z\"\x7d)\x7d),\"Theme\"]\x7d),showP&&E.jsxs(\"div\",\x7bstyle:\x7bposition:\"absolute\",right:0,top:\"100%\",marginTop:\"4px\",background:__resolveColor(\"surface\")||\"#1e2440\",border:\"1px solid \"+(__resolveColor(\"surfaceElevated\")||\"#2a3157\"),borderRadius:\"12px\",padding:\"12px\",width:\"340px\",zIndex:200,boxShadow:\"0 12px 40px rgba(0,0,0,0.5)\",maxHeight:\"480px\",overflowY:\"auto\"\x7d,children:[E.jsxs(\"div\",\x7bstyle:\x7bdisplay:\"flex\",justifyContent:\"space-between\",alignItems:\"center\",marginBottom:\"8px\"\x7d,children:[E.jsx(\"div\",\x7bstyle:\x7bcolor:__resolveColor(\"textPrimary\")||\"#fffffe\",fontSize:\"13px\",fontWeight:600\x7d,children:\"Color Themes\"\x7d),E.jsxs(\"div\",\x7bstyle:\x7bdisplay:\"flex\",gap:\"4px\"\x7d,children:[E.jsx(\"button\",\x7bonClick:doExportPal,title:\"Export current theme\",style:\x7bbackground:\"none\",border:\"none\",color:__resolveColor(\"textTertiary\")||\"#8892b8\",cursor:\"pointer\",fontSize:\"11px\"\x7d,children:\"\\u2913\"\x7d),E.jsx(\"button\",\x7bonClick:function()\x7bsetP(false)\x7d,style:\x7bbackground:\"none\",border:\"none\",color:__resolveColor(\"textTertiary\")||\"#8892b8\",cursor:\"pointer\",fontSize:\"14px\"\x7d,children:\"\\u00d7\"\x7d)]\x7d)]\x7d),E.jsx(\"div\",\x7bstyle:\x7bdisplay:\"grid\",gridTemplateColumns:\"1fr 1fr 1fr\",gap:\"6px\",marginBottom:\"8px\"\x7d,children:pals.filter(function(p)\x7breturn p.builtin\x7d).map(function(p)\x7breturn card(p,false)\x7d)\x7d),pals.filter(function(p)\x7breturn!p.builtin\x7d).length>0&&E.jsxs(\"div\",\x7bstyle:\x7bmarginBottom:\"8px\"\x7d,children:[E.jsx(\"div\",\x7bstyle:\x7bcolor:__resolveColor(\"textTertiary\")||\"#8892b8\",fontSize:\"10px\",marginBottom:\"4px\",textTransform:\"uppercase\",letterSpacing:\"0.5px\"\x7d,children:\"Custom\"\x7d),E.jsx(\"div\",\x7bstyle:\x7bdisplay:\"grid\",gridTemplateColumns:\"1fr 1fr 1fr\",gap:\"6px\"\x7d,children:pals.filter(function(p)\x7breturn!p.builtin\x7d).map(function(p)\x7breturn card(p,true)\x7d)\x7d)]\x7d),!custMode&&E.jsxs(\"div\",\x7bstyle:\x7bdisplay:\"flex\",gap:\"4px\"\x7d,children:[E.jsx(\"button\",\x7bonClick:function()\x7bsetCustMode(true)\x7d,style:\x7bflex:1,padding:\"5px\",borderRadius:\"6px\",border:\"1px solid \"+(__resolveColor(\"surfaceElevated\")||\"#2a3157\"),background:\"transparent\",color:__resolveColor(\"textSecondary\")||\"#b8c1ec\",cursor:\"pointer\",fontSize:\"10px\"\x7d,children:\"+ Create\"\x7d),E.jsx(\"button\",\x7bonClick:doImport,style:\x7bflex:1,padding:\"5px\",borderRadius:\"6px\",border:\"1px solid \"+(__resolveColor(\"surfaceElevated\")||\"#2a3157\"),background:\"transparent\",color:__resolveColor(\"textSecondary\")||\"#b8c1ec\",cursor:\"pointer\",fontSize:\"10px\"\x7d,children:\"Import\"\x7d)]\x7d),custMode&&E.jsxs(\"div\",\x7bstyle:\x7bborderTop:\"1px solid \"+(__resolveColor(\"surfaceElevated\")||\"#2a3157\"),paddingTop:\"8px\",marginTop:\"4px\"\x7d,children:[E.jsx(\"input\",\x7bvalue:custName,onChange:function(ev)\x7bsetCustName(ev.target.value)\x7d,placeholder:\"Theme name\",style:\x7bwidth:\"100%\",padding:\"4px 8px\",borderRadius:\"4px\",border:\"1px solid \"+(__resolveColor(\"surfaceElevated\")||\"#2a3157\"),background:__resolveColor(\"inputBg\")||\"#1a1f3d\",color:__resolveColor(\"textPrimary\")||\"#fffffe\",fontSize:\"11px\",marginBottom:\"6px\",boxSizing:\"border-box\"\x7d\x7d),E.jsx(\"div\",\x7bstyle:\x7bdisplay:\"grid\",gridTemplateColumns:\"1fr 1fr 1fr\",gap:\"4px\",marginBottom:\"6px\"\x7d,children:[\"bg\",\"surface\",\"textPrimary\",\"textSecondary\",\"accent\",\"border\"].map(function(key)\x7breturn E.jsxs(\"label\",\x7bstyle:\x7bdisplay:\"flex\",alignItems:\"center\",gap:\"3px\",fontSize:\"9px\",color:__resolveColor(\"textTertiary\")||\"#8892b8\",cursor:\"pointer\"\x7d,children:[E.jsx(\"input\",\x7btype:\"color\",value:custC[key],onChange:function(ev)\x7bsetCustC(function(prev)\x7bvar n=\x7b\x7d;for(var k in prev)n[k]=prev[k];n[key]=ev.target.value;return n\x7d)\x7d,style:\x7bwidth:\"18px\",height:\"18px\",border:\"none\",padding:0,cursor:\"pointer\",borderRadius:\"3px\"\x7d\x7d),key]\x7d,key)\x7d)\x7d),E.jsx(\"div\",\x7bstyle:\x7bdisplay:\"flex\",height:\"20px\",borderRadius:\"4px\",overflow:\"hidden\",marginBottom:\"6px\"\x7d,children:[custC.bg,custC.surface,custC.accent,custC.textPrimary,custC.textSecondary].map(function(c,i)\x7breturn E.jsx(\"div\",\x7bstyle:\x7bflex:1,background:c\x7d\x7d,String(i))\x7d)\x7d),E.jsxs(\"div\",\x7bstyle:\x7bdisplay:\"flex\",gap:\"4px\"\x7d,children:[E.jsx(\"button\",\x7bonClick:saveCust,style:\x7bflex:1,padding:\"5px\",borderRadius:\"6px\",background:__resolveColor(\"accent\")||\"#eebbc3\",color:__resolveColor(\"accentText\")||\"#232946\",border:\"none\",cursor:\"pointer\",fontSize:\"10px\",fontWeight:600\x7d,children:\"Save Theme\"\x7d),E.jsx(\"button\",\x7bonClick:function()\x7bsetCustMode(false)\x7d,style:\x7bflex:1,padding:\"5px\",borderRadius:\"6px\",border:\"1px solid \"+(__resolveColor(\"surfaceElevated\")||\"#2a3157\"),background:\"transparent\",color:__resolveColor(\"textSecondary\")||\"#b8c1ec\",cursor:\"pointer\",fontSize:\"10px\"\x7d,children:\"Cancel\"\x7d)]\x7d)]\x7d)]\x7d)]\x7d)\x7d)(),\x7b\x7d)".toList

/-- The start of the export button that PART 5 looks for. -/
def exportIifeStart : Text :=
  "E.jsx((function()\x7bconst[showMenu,setMenu]=W.useState(false);const doExport=(fmt)=>\x7b".toList

/-- The opening of the container that PART 5 puts around the two buttons. -/
def wrapperStart : Text :=
  "E.jsxs(\"div\",\x7bstyle:\x7bdisplay:\"flex\",gap:\"8px\",alignItems:\"center\"\x7d,children:[".toList

/-- The end of the export button that PART 5 looks for. -/
def exportEndMarker : Text :=
  "\x7d)(),\x7b\x7d)]\x7d),E.jsx(\"div\",\x7bclassName:\"flex-1 overflow-hidden\"".toList

/-- PART 5: when the start of the export button is found the container is opened
in front of it, and when the end marker is then found the palette picker and
the closing of the container are put in; in the other cases the script only
logs a warning. -/
def part5 (renderer : Text) : Text :=
  let exportIifeStartIdx := indexOf renderer exportIifeStart
  if exportIifeStartIdx = -1 then renderer
  else
    let renderer := substring renderer 0 exportIifeStartIdx ++ wrapperStart ++ exportIifeStart
      ++ substringFrom renderer (exportIifeStartIdx + exportIifeStart.length)
    let exportEndIdx := indexOf renderer exportEndMarker
    if exportEndIdx = -1 then renderer
    else
      substring renderer 0 exportEndIdx ++ "\x7d)(),\x7b\x7d),".toList ++ palettePicker
        ++ "]\x7d)]\x7d),E.jsx(\"div\",\x7bclassName:\"flex-1 overflow-hidden\"".toList
        ++ substringFrom renderer (exportEndIdx + exportEndMarker.length)

/-- PART 3 to PART 5 on the renderer text; the script reaches them when PART 1
and PART 2 have found their anchors in the main text and in the preload
text. -/
def patchRenderer (renderer : Text) : Text :=
  part5 (part4 (engineCode ++ renderer))

end PaletteSystem

/-! ## A renderer text with the chat header -/

/-- A renderer text with the chat header of the original program, followed by
the pane that the end marker of `patch-palette-system.js` names. -/
def rendererSample : Text :=
  "const WY=()=>E.jsxs(\"div\",\x7bclassName:\"flex flex-col h-full\",children:[".toList ++ ConversationExport.oldHeader
    ++ ",E.jsx(\"div\",\x7bclassName:\"flex-1 overflow-hidden\",children:E.jsx(XY,\x7b\x7d)\x7d)]\x7d)".toList

/-! ## `verify-all.js` -/

namespace VerifyAll

/-- The regular expressions of the checks.  Each is either a text all of whose
characters are literal (written with or without a backslash), or two such
texts with `.*?` between them. -/
inductive Regex where
  | literal (text : Text) : Regex
  | lazyGap (first second : Text) : Regex

/-- The characters `.` does not match. -/
def isLineTerminator (c : Char) : Bool :=
  c = '\n' || c = '\r' || c = '\u2028' || c = '\u2029'

/-- Whether `.*?second` matches at the head of the text. -/
def gapThen (second : Text) : Text → Bool
  | [] => second.isPrefixOf []
  | c :: rest => second.isPrefixOf (c :: rest) || (!isLineTerminator c && gapThen second rest)

/-- Whether `first.*?second` matches somewhere in the text. -/
def lazyGapTest (first second : Text) : Text → Bool
  | [] => first.isPrefixOf [] && gapThen second []
  | c :: rest =>
    (first.isPrefixOf (c :: rest) && gapThen second ((c :: rest).drop first.length))
      || lazyGapTest first second rest

/-- The call `regex.test(code)`. -/
def Regex.test : Regex → Text → Bool
  | Regex.literal text, code => includes code text
  | Regex.lazyGap first second, code => lazyGapTest first second code

/-- The counters `pass` and `fail` of one section. -/
structure Tally where
  pass : Nat
  fail : Nat
deriving DecidableEq

/-- The statement `ok ? pass++ : fail++`. -/
def Tally.count (t : Tally) (ok : Bool) : Tally :=
  if ok then ⟨t.pass + 1, t.fail⟩ else ⟨t.pass, t.fail + 1⟩

/-- The counters after a `forEach` over checks with the given results. -/
def tally (results : List Bool) (start : Tally) : Tally :=
  results.foldl Tally.count start

/-- The list `mainChecks`; the test `none` is the `null` of the special check. -/
def mainChecks : List (String × Option Regex) :=
  [("notify-app.cmd", some (Regex.literal "notify-app.cmd".toList)),
   ("frame:true", some (Regex.literal "frame:true".toList)),
   ("sharp-win32-x64 (in build-win.js patch)", some (Regex.literal "true".toList)),
   ("USERPROFILE fallback", some (Regex.literal "USERPROFILE".toList)),
   ("where claude", some (Regex.literal "where claude".toList)),
   ("PATH System32 fallback", some (Regex.literal "SystemRoot".toList)),
   ("titleBarStyle cross-platform", some (Regex.literal "titleBarStyle:process.platform".toList)),
   ("wmic process detection", some (Regex.literal "wmic".toList)),
   ("single-instance lock", some (Regex.literal "requestSingleInstanceLock".toList)),
   ("second-instance handler", some (Regex.literal "second-instance".toList)),
   ("auto-launch claude", some (Regex.literal "_launchConfig".toList)),
   ("launch-config:set IPC", some (Regex.literal "launch-config:set".toList)),
   ("launch-config:get IPC", some (Regex.literal "launch-config:get\"".toList)),
   ("launch-config:get-defaults IPC", some (Regex.literal "launch-config:get-defaults".toList)),
   ("OllamaService class", some (Regex.literal "class OllamaService".toList)),
   ("Ollama API host", some (Regex.literal "localhost:11434".toList)),
   ("createAgent modelLogo dispatch",
     some (Regex.literal "n===\"ollama\"?\"ollama\":\"claude\"".toList)),
   ("createAgent service dispatch", some (Regex.literal "n===\"ollama\"?new OllamaService".toList)),
   ("Agent restore dispatch", some (Regex.literal "metadata&&d.metadata.type===\"ollama\"".toList)),
   ("ollama:check-status IPC", some (Regex.literal "ollama:check-status".toList)),
   ("ollama:list-models IPC", some (Regex.literal "ollama:list-models".toList)),
   ("ollama:set-model IPC", some (Regex.literal "ollama:set-model".toList)),
   ("ollama:pull-model IPC", some (Regex.literal "ollama:pull-model".toList)),
   ("ollamaModel in defaults", some (Regex.literal "ollamaModel".toList)),
   ("__normPath helper", some (Regex.literal "__normPath(p)".toList)),
   ("__normFileMap helper", some (Regex.literal "__normFileMap(fm)".toList)),
   ("file-activity normalization", some (Regex.literal "filePath:__normPath(m)".toList)),
   ("file-map:load normalization", some (Regex.literal "__normFileMap(".toList)),
   ("file-map:get normalization", some (Regex.literal "fileMap:__normFileMap(n)".toList)),
   ("EveRo window title", some (Regex.literal "title:\"EveRo\"".toList)),
   ("evero-dev userData", some (Regex.literal "evero-dev".toList)),
   ("evero OAuth redirect", some (Regex.literal "evero://auth/callback".toList)),
   ("evero protocol handler", some (Regex.literal "setAsDefaultProtocolClient(\"evero\")".toList)),
   ("EveRo bot name", some (Regex.literal "name:\"EveRo\"".toList)),
   ("evero_icon avatar", some (Regex.literal "evero_icon".toList)),
   ("No \"roro\" quoted strings", none)]

/-- The results of the main checks, in order: the special check asks that
`"roro"` does not occur, the others run their regular expression. -/
def mainResults (mainCode : Text) : List Bool :=
  mainChecks.map fun chk =>
    match chk.2 with
    | none => !includes mainCode "\"roro\"".toList
    | some test => test.test mainCode

/-- The list `renderChecks`. -/
def renderChecks : List (String × Regex) :=
  [("Ollama in PH logo map", Regex.literal "PH=\x7bclaude:zw,codex:jw,ollama:".toList),
   ("Ollama in zY logo map", Regex.literal "zY=\x7bclaude:zw,codex:jw,ollama:".toList),
   ("Ollama alt text", Regex.lazyGap "ollama".toList "Ollama".toList),
   ("Ollama model selector button", Regex.lazyGap "onClick:".toList "ollama".toList),
   ("Ctrl+L shortcut", Regex.lazyGap "ctrlKey".toList "key===\"l\"".toList),
   ("Ctrl+Backspace shortcut", Regex.lazyGap "ctrlKey".toList "key===\"Backspace\"".toList),
   ("Path split regex exists", Regex.literal "split(/[".toList),
   ("Hook event prefix", Regex.literal "[Hook]".toList),
   ("EveRo alt text", Regex.literal "alt:\"EveRo\"".toList),
   ("EveRo sender", Regex.literal "sender:\"EveRo\"".toList),
   ("evero_transparent image ref", Regex.literal "evero_transparent".toList),
   ("evero_icon image ref", Regex.literal "evero_icon".toList),
   ("EveRo marketing copy", Regex.literal "At EveRo,".toList),
   ("THINK badge on Claude agents", Regex.literal "children:\"THINK\"".toList),
   ("CODE badge on agents", Regex.literal "children:\"CODE\"".toList),
   ("TOOLS badge on Claude agents", Regex.literal "children:\"TOOLS\"".toList),
   ("LOCAL badge on Ollama agents", Regex.literal "children:\"LOCAL\"".toList),
   ("Model Hub component", Regex.literal "Model Hub".toList),
   ("Featured Models section", Regex.literal "Featured Models".toList),
   ("Pull New Model section", Regex.literal "Pull New Model".toList),
   ("Model picker dropdown", Regex.literal "Ollama Model".toList),
   ("Claude Agent template button", Regex.literal "children:\"Claude Agent\"".toList),
   ("Ollama Agent template button", Regex.literal "children:\"Ollama Agent\"".toList),
   ("Ollama createAgent in template", Regex.literal "createAgent(s,ee,i,\"ollama\")".toList)]

/-- The test `/rror[oO]|irror[oO]|rror_/.test(ctx)` of the scan for `roro`. -/
def falsePositive (ctx : Text) : Bool :=
  includes ctx "rroro".toList || includes ctx "rrorO".toList
    || includes ctx "irroro".toList || includes ctx "irrorO".toList
    || includes ctx "rror_".toList

/-- The loop that counts `roro`: `renderCode.indexOf` finds the next occurrence
of `roro` at or after `pos`, the occurrence counts unless its context
`renderCode.substring(Math.max(0, idx - 5), idx + 10)` is a false positive, and
`pos = idx + 4` moves past it.  The first argument is the text from index `idx`
on, `skip` the number of code units up to `pos`. -/
def roroScan (renderCode : Text) : Text → Nat → Nat → Nat
  | [], _, _ => 0
  | _ :: rest, idx, skip + 1 => roroScan renderCode rest (idx + 1) skip
  | c :: rest, idx, 0 =>
    if "roro".toList.isPrefixOf (c :: rest) then
      (if !falsePositive (substring renderCode (max 0 ((idx : Int) - 5)) ((idx : Int) + 10))
        then 1 else 0) + roroScan renderCode rest (idx + 1) 3
    else roroScan renderCode rest (idx + 1) 0

/-- The value of `roroCount` after the loop. -/
def roroCount (renderCode : Text) : Nat :=
  roroScan renderCode renderCode 0 0

/-- The results of the renderer checks, the check `noRoro` last. -/
def renderResults (renderCode : Text) : List Bool :=
  renderChecks.map (fun chk => chk.2.test renderCode) ++ [decide (roroCount renderCode = 0)]

/-- The list `fileChecks`. -/
def fileChecks : List String :=
  ["out/main/index.js",
   "out/preload/index.js",
   "out/renderer/assets/index-BFJPEAID.js",
   "out/renderer/assets/evero_icon-CWBhGVPN.png",
   "out/renderer/assets/evero_transparent-d1cj6xt4.png",
   "out/renderer/evero_transparent.png",
   "resources/icon.ico",
   "resources/app-update.yml",
   "resources/hooks/notify-app.cmd",
   "resources/hooks/settings.json",
   "package.json"]

/-- The list `oldFiles`. -/
def oldFiles : List String :=
  ["out/renderer/assets/roro_icon-CWBhGVPN.png",
   "out/renderer/assets/roro_transparent-d1cj6xt4.png",
   "out/renderer/roro_transparent.png"]

/-- The results of the file checks: the files of `fileChecks` must exist, those
of `oldFiles` must not. -/
def fileResults (existsSync : String → Bool) : List Bool :=
  fileChecks.map existsSync ++ oldFiles.map (fun f => !existsSync f)

/-- The values `JSON.parse` returns; a number is kept as its source text. -/
inductive Json where
  | null : Json
  | bool (b : Bool) : Json
  | number (digits : Text) : Json
  | string (text : Text) : Json
  | array (items : List Json) : Json
  | object (members : List (Text × Json)) : Json

/-- The number a property key stands for when it is a canonical array index:
decimal digits without a leading zero. -/
def arrayIndex (key : Text) : Option Nat :=
  if key ≠ [] ∧ key.all Char.isDigit ∧ (key = ['0'] ∨ key.head? ≠ some '0') then
    some (key.foldl (fun n c => 10 * n + (c.toNat - 48)) 0)
  else none

/-- The member access `v.key` and `v[key]` on a value that is `undefined`
(`none`) or came from `JSON.parse`, for the keys the script uses, none of which
is a property of a prototype: a `TypeError` on `undefined` and `null`, the
member of an object (the last one when the key is repeated), the element of an
array or the code unit of a string at a canonical index, and `undefined`
otherwise. -/
def member (v : Option Json) (key : Text) : Except String (Option Json) :=
  match v with
  | none => Except.error "TypeError: Cannot read properties of undefined"
  | some Json.null => Except.error "TypeError: Cannot read properties of null"
  | some (Json.object members) =>
    Except.ok (((members.filter fun m => m.1 = key).getLast?).map Prod.snd)
  | some (Json.array items) =>
    Except.ok ((arrayIndex key).bind fun n => items.get? n)
  | some (Json.string text) =>
    Except.ok ((arrayIndex key).bind fun n => (text.get? n).map fun c => Json.string [c])
  | some (Json.bool _) => Except.ok none
  | some (Json.number _) => Except.ok none

/-- A chain of member accesses `v.k1.k2...`. -/
def path (v : Option Json) : List Text → Except String (Option Json)
  | [] => Except.ok v
  | key :: keys =>
    match member v key with
    | Except.error e => Except.error e
    | Except.ok w => path w keys

/-- The comparison `v === text` with a string. -/
def strictEquals (v : Option Json) (text : Text) : Bool :=
  match v with
  | some (Json.string t) => t = text
  | _ => false

/-- The array `cfgChecks`, whose eight comparisons are evaluated in order before
any of them is logged; an error when a member access throws. -/
def cfgChecks (pkg : Json) : Except String (List (String × Bool)) := do
  let v1 ← path (some pkg) ["name".toList]
  let v2 ← path (some pkg) ["version".toList]
  let v3 ← path (some pkg) ["build".toList, "appId".toList]
  let v4 ← path (some pkg) ["build".toList, "productName".toList]
  let v5 ← path (some pkg) ["build".toList, "nsis".toList, "shortcutName".toList]
  let v6 ← path (some pkg) ["build".toList, "protocols".toList, "name".toList]
  let v7 ← path (some pkg) ["build".toList, "protocols".toList, "schemes".toList, "0".toList]
  let v8 ← path (some pkg) ["build".toList, "publish".toList, "repo".toList]
  pure
    [("package name = evero", strictEquals v1 "evero".toList),
     ("version = 1.0.92", strictEquals v2 "1.0.92".toList),
     ("appId = com.evero.app", strictEquals v3 "com.evero.app".toList),
     ("productName = EveRo", strictEquals v4 "EveRo".toList),
     ("shortcutName = EveRo", strictEquals v5 "EveRo".toList),
     ("protocol name = evero", strictEquals v6 "evero".toList),
     ("protocol scheme = evero", strictEquals v7 "evero".toList),
     ("publish repo = evero", strictEquals v8 "evero".toList)]

/-- The array `auChecks` on the text of `app-update.yml`. -/
def auChecks (appUpdate : Text) : List (String × Bool) :=
  [("app-update repo = evero", includes appUpdate "repo: evero".toList),
   ("app-update cache = evero-updater", includes appUpdate "updaterCacheDirName: evero-updater".toList)]

/-- The array `colorChecks` on the text of the style sheet. -/
def colorChecks (cssCode : Text) : List (String × Bool) :=
  [("--dark-bg is #232946", includes cssCode "--dark-bg: #232946".toList),
   ("--dark-surface is #1e2440", includes cssCode "--dark-surface: #1e2440".toList),
   ("--dark-text-primary is #fffffe", includes cssCode "--dark-text-primary: #fffffe".toList),
   ("--dark-text-secondary is #b8c1ec", includes cssCode "--dark-text-secondary: #b8c1ec".toList),
   ("--dark-text-tertiary is #8892b8", includes cssCode "--dark-text-tertiary: #8892b8".toList),
   ("--primary-300 is #eebbc3 (button/highlight)",
     includes cssCode "--primary-300: #eebbc3".toList),
   ("--primary-500 is #d4899a", includes cssCode "--primary-500: #d4899a".toList),
   ("--dark-hover is #303767", includes cssCode "--dark-hover: #303767".toList),
   ("--dark-input-bg is #1a1f3d", includes cssCode "--dark-input-bg: #1a1f3d".toList),
   ("Body gradient uses navy", includes cssCode "#1a2040,#232946".toList),
   ("Glass bg is navy", includes cssCode "rgba(35, 41, 70, .85)".toList),
   ("Accent glow is pink", includes cssCode "rgba(238, 187, 195, .15)".toList),
   ("No old purple primary in vars", !includes cssCode "--primary-500: #a855f7".toList),
   ("No old dark-bg (#0f0f12)", !includes cssCode "--dark-bg: #0f0f12".toList),
   ("No old body gradient (#1a1025)",
     !includes cssCode "background:linear-gradient(135deg,#1a1025".toList)]

/-- What the script finds on disk, with paths relative to the directory above
`scripts`: the text `fs.readFileSync(path, 'utf-8')` returns (`none` when it
throws), the answer of `fs.existsSync(path)`, and the value of
`JSON.parse(fs.readFileSync('package.json', 'utf-8'))` (`none` when the read or
the parse throws). -/
structure Env where
  readFileSync : String → Option Text
  existsSync : String → Bool
  packageJson : Option Json

/-- How a run ends: the ten counters, the two numbers of the `Total:` line, the
number of the `FAILURES:` line, whether `ALL CHECKS PASSED` is printed, and the
exit code of the process. -/
structure Report where
  main : Tally
  render : Tally
  file : Tally
  cfg : Tally
  color : Tally
  total : Option (Nat × Nat)
  failures : Option Nat
  allPassed : Bool
  exitCode : Nat
deriving DecidableEq

/-- The end of a run in which a statement throws: the exception is not caught,
nothing more is printed and Node ends the process with exit code 1. -/
def crashed (main render file cfg color : Tally) : Report :=
  ⟨main, render, file, cfg, color, none, none, false, 1⟩

/-- The section `SUMMARY`. -/
def summary (main render file cfg color : Tally) : Report :=
  let totalPass := main.pass + render.pass + file.pass + cfg.pass + color.pass
  let totalFail := main.fail + render.fail + file.fail + cfg.fail + color.fail
  let totalChecks := totalPass + totalFail
  if totalFail > 0 then
    ⟨main, render, file, cfg, color, some (totalPass, totalChecks), some totalFail, false, 1⟩
  else ⟨main, render, file, cfg, color, some (totalPass, totalChecks), none, true, 0⟩

/-- The script, from top to bottom. -/
def run (env : Env) : Report :=
  match env.readFileSync "out/main/index.js" with
  | none => crashed ⟨0, 0⟩ ⟨0, 0⟩ ⟨0, 0⟩ ⟨0, 0⟩ ⟨0, 0⟩
  | some mainCode =>
    let main := tally (mainResults mainCode) ⟨0, 0⟩
    match env.readFileSync "out/renderer/assets/index-BFJPEAID.js" with
    | none => crashed main ⟨0, 0⟩ ⟨0, 0⟩ ⟨0, 0⟩ ⟨0, 0⟩
    | some renderCode =>
      let render := tally (renderResults renderCode) ⟨0, 0⟩
      let file := tally (fileResults env.existsSync) ⟨0, 0⟩
      match env.packageJson with
      | none => crashed main render file ⟨0, 0⟩ ⟨0, 0⟩
      | some pkg =>
        match cfgChecks pkg with
        | Except.error _ => crashed main render file ⟨0, 0⟩ ⟨0, 0⟩
        | Except.ok checks =>
          let cfg := tally (checks.map Prod.snd) ⟨0, 0⟩
          match env.readFileSync "resources/app-update.yml" with
          | none => crashed main render file cfg ⟨0, 0⟩
          | some appUpdate =>
            let cfg := tally ((auChecks appUpdate).map Prod.snd) cfg
            match env.readFileSync "out/renderer/assets/index-CDjYEUtK.css" with
            | none => crashed main render file cfg ⟨0, 0⟩
            | some cssCode =>
              summary main render file cfg (tally ((colorChecks cssCode).map Prod.snd) ⟨0, 0⟩)

/-- A main text that passes every main check. -/
def goodMain : Text :=
  "notify-app.cmd frame:true true USERPROFILE where claude SystemRoot titleBarStyle:process.platform wmic requestSingleInstanceLock second-instance _launchConfig launch-config:set launch-config:get\" launch-config:get-defaults class OllamaService localhost:11434 n===\"ollama\"?\"ollama\":\"claude\" n===\"ollama\"?new OllamaService metadata&&d.metadata.type===\"ollama\" ollama:check-status ollama:list-models ollama:set-model ollama:pull-model ollamaModel __normPath(p) __normFileMap(fm) filePath:__normPath(m) __normFileMap( fileMap:__normFileMap(n) title:\"EveRo\" evero-dev evero://auth/callback setAsDefaultProtocolClient(\"evero\") name:\"EveRo\" evero_icon".toList

/-- A renderer text that passes every renderer check. -/
def goodRender : Text :=
  "PH=\x7bclaude:zw,codex:jw,ollama: zY=\x7bclaude:zw,codex:jw,ollama: ollama Ollama onClick: ollama ctrlKey key===\"l\" ctrlKey key===\"Backspace\" split(/[ [Hook] alt:\"EveRo\" sender:\"EveRo\" evero_transparent evero_icon At EveRo, children:\"THINK\" children:\"CODE\" children:\"TOOLS\" children:\"LOCAL\" Model Hub Featured Models Pull New Model Ollama Model children:\"Claude Agent\" children:\"Ollama Agent\" createAgent(s,ee,i,\"ollama\")".toList

/-- A style sheet that passes every colour check. -/
def goodCss : Text :=
  "--dark-bg: #232946;--dark-surface: #1e2440;--dark-text-primary: #fffffe;--dark-text-secondary: #b8c1ec;--dark-text-tertiary: #8892b8;--primary-300: #eebbc3;--primary-500: #d4899a;--dark-hover: #303767;--dark-input-bg: #1a1f3d;#1a2040,#232946;rgba(35, 41, 70, .85);rgba(238, 187, 195, .15)".toList

/-- An `app-update.yml` that passes its two checks. -/
def goodAppUpdate : Text :=
  "repo: evero\nupdaterCacheDirName: evero-updater".toList

/-- A `package.json` that passes the eight configuration checks. -/
def goodPackage : Json :=
  Json.object
    [("name".toList, Json.string "evero".toList),
     ("version".toList, Json.string "1.0.92".toList),
     ("build".toList, Json.object
       [("appId".toList, Json.string "com.evero.app".toList),
        ("productName".toList, Json.string "EveRo".toList),
        ("nsis".toList, Json.object [("shortcutName".toList, Json.string "EveRo".toList)]),
        ("protocols".toList, Json.object
          [("name".toList, Json.string "evero".toList),
           ("schemes".toList, Json.array [Json.string "evero".toList])]),
        ("publish".toList, Json.object [("repo".toList, Json.string "evero".toList)])])]

/-- The files of a build on which every check passes. -/
def goodFiles : String → Option Text := fun f =>
  if f = "out/main/index.js" then some goodMain
  else if f = "out/renderer/assets/index-BFJPEAID.js" then some goodRender
  else if f = "resources/app-update.yml" then some goodAppUpdate
  else if f = "out/renderer/assets/index-CDjYEUtK.css" then some goodCss
  else none

/-- A build on which every check passes. -/
def goodEnv : Env :=
  ⟨goodFiles, fun f => decide (f ∈ fileChecks), some goodPackage⟩

/-- The same build with the main text of the original program reduced to the word
`true`, so that 34 main checks fail. -/
def staleEnv : Env :=
  ⟨fun f => if f = "out/main/index.js" then some "true".toList else goodFiles f,
    fun f => decide (f ∈ fileChecks), some goodPackage⟩

/-- The good build without `resources/app-update.yml`. -/
def noUpdateEnv : Env :=
  ⟨fun f => if f = "resources/app-update.yml" then none else goodFiles f,
    fun f => decide (f ∈ fileChecks ∧ f ≠ "resources/app-update.yml"), some goodPackage⟩

/-- The good build with a `package.json` that has no `build` member. -/
def noBuildEnv : Env :=
  ⟨goodFiles, fun f => decide (f ∈ fileChecks),
    some (Json.object [("name".toList, Json.string "evero".toList),
      ("version".toList, Json.string "1.0.92".toList)])⟩

end VerifyAll

/-! ## Replacements that bring no new occurrence of a pattern -/

/-- Whether putting `new` where `old` stood can bring no new occurrence of
`pat`: an occurrence that begins before `new` and reaches into it reaches in
the same way into `old`, and no occurrence begins inside `new`, not even one
that would go on after its end. -/
def safePair (pat old new : Text) : Bool :=
  reachOK pat old new && noStart pat new

/-- The pairs of old and new text of the steps of `patch-windows-improvements.js`
(an insertion has the old text `[]`). -/
def WindowsImprovements.pairs : List (Text × Text) :=
  [([], WindowsImprovements.singleInstanceCode),
   (WindowsImprovements.oldProtocol, WindowsImprovements.newProtocol),
   ("setAsDefaultProtocolClient(\"roro\")".toList, "setAsDefaultProtocolClient(\"evero\")".toList),
   ([], WindowsImprovements.autoLaunchCode),
   ([], WindowsImprovements.configHandlers ++ ",".toList)]

/-- The pairs of old and new text of PATCH 1 to PATCH 4 of
`patch-ollama-integration.js`. -/
def OllamaIntegration.pairs : List (Text × Text) :=
  [([], OllamaIntegration.ollamaServiceClass),
   (OllamaIntegration.oldCreateLogo, OllamaIntegration.newCreateLogo),
   (OllamaIntegration.oldCreateService, OllamaIntegration.newCreateService),
   (OllamaIntegration.oldRestore, OllamaIntegration.newRestore),
   ([], OllamaIntegration.ollamaHandlers)]

/-- The pairs of old and new text of PART 3 of `patch-conversation-export.js`
and of PART 3 and PART 4 of `patch-palette-system.js`. -/
def PaletteSystem.pairs : List (Text × Text) :=
  [(ConversationExport.oldHeader, ConversationExport.newHeader), ([], PaletteSystem.engineCode)]
    ++ PaletteSystem.inlineReplacements ++ PaletteSystem.hoverReplacements
    ++ PaletteSystem.borderReplacements ++ [(PaletteSystem.shadowOld, PaletteSystem.shadowNew)]

/-- Whether every pair of the list is safe for `pat`. -/
def safePairs (pat : Text) (pairs : List (Text × Text)) : Bool :=
  pairs.all fun p => safePair pat p.1 p.2

/-! ## `patch-color-palette.js`, PART 2 -/

namespace ColorPalette

/-- The list `jsColorReplacements`: old and new inline colour. -/
def jsColorReplacements : List (Text × Text) :=
  [("#374151".toList, "#2a3157".toList),
   ("#1f2937".toList, "#1e2440".toList),
   ("#111827".toList, "#1a1f3d".toList),
   ("#e2e8f0".toList, "#fffffe".toList),
   ("#9ca3af".toList, "#b8c1ec".toList),
   ("#6b7280".toList, "#8892b8".toList),
   ("#4b5563".toList, "#6b7ead".toList),
   ("#1a2332".toList, "#252c55".toList)]

/-- One turn of the `forEach` over `jsColorReplacements`, on the pair of `render`
and `jsCount`: `count = render.split(old).length - 1`, and when it is positive
`render.replaceAll(old, rep)` and `jsCount += count`. -/
def jsStep (state : Text × Nat) (r : Text × Text) : Text × Nat :=
  if matchCount state.1 r.1 > 0 then
    (replaceAll state.1 r.1 r.2, state.2 + matchCount state.1 r.1)
  else state

/-- The accent blue with its quotes. -/
def accentOld : Text :=
  "\"#3b82f6\"".toList

/-- The soft pink with its quotes. -/
def accentNew : Text :=
  "\"#eebbc3\"".toList

/-- The button style with white text. -/
def buttonOld : Text :=
  "background:\"#eebbc3\",color:\"#fff\"".toList

/-- The button style with dark text. -/
def buttonNew : Text :=
  "background:\"#eebbc3\",color:\"#232946\"".toList

/-- PART 2 on the renderer text: the text written back and the `jsCount` that is
logged. -/
def part2 (render : Text) : Text × Nat :=
  let state := jsColorReplacements.foldl jsStep (render, 0)
  let render := replaceAll state.1 accentOld accentNew
  let render := replaceAll render buttonOld buttonNew
  (render, state.2)

end ColorPalette

/-! ## Replacements that keep the occurrences of a pattern -/

/-- Whether putting `new` where `old` stood neither brings nor removes an
occurrence of `pat`: no occurrence begins inside `old` or `new`, and an
occurrence that begins before reaches into the one as it does into the
other. -/
def independent (pat old new : Text) : Bool :=
  reachOK pat old new && reachOK pat new old && noStart pat old && noStart pat new

/-- Whether a global replacement of `r.1` by `r.2` removes every occurrence of
`r.1`: the occurrences of `r.1` do not overlap, and the replacement text brings
none. -/
def stepOK (r : Text × Text) : Bool :=
  !r.1.isEmpty && plainReplacement r.2 && noStart r.1 r.1.tail && safePair r.1 r.1 r.2

/-- Whether the steps of a chain of global replacements are each in order and
leave the patterns of one another alone. -/
def chainOK : List (Text × Text) → Bool
  | [] => true
  | r :: rest =>
    stepOK r && rest.all (fun q => independent q.1 r.1 r.2 && independent r.1 q.1 q.2)
      && chainOK rest

/-! ## The palettes and the colour cache of `patch-palette-system.js` -/

namespace PaletteSystem

/-- A colour value of a palette: a text written in the source, the result of
`mixHex(c1, c2, t)`, or a template literal that puts the `hexToRgb` channels of
a colour, each made darker by `darker` and not below 0, between two texts.  The
digits of a mixed colour are not computed: `rgbToHex` returns `#` followed by
the digits, and `__resolveColor` only asks whether the value is the empty
text. -/
inductive Colour where
  | text (value : Text) : Colour
  | mixHex (c1 c2 : Colour) (t : Text) : Colour
  | template (before : Text) (channels : Colour) (darker : Nat) (after : Text) : Colour
deriving DecidableEq

/-- Whether a colour value counts as true in `value||other`: every text but the
empty one does. -/
def Colour.truthy : Colour → Bool
  | Colour.text value => !value.isEmpty
  | Colour.mixHex _ _ _ => true
  | Colour.template _ _ _ _ => true

/-- The function `primaryScale`. -/
def primaryScale (accent : Text) : List (Text × Colour) :=
  [("primary50".toList, Colour.mixHex (Colour.text accent) (Colour.text "#ffffff".toList) "0.92".toList),
   ("primary100".toList, Colour.mixHex (Colour.text accent) (Colour.text "#ffffff".toList) "0.82".toList),
   ("primary200".toList, Colour.mixHex (Colour.text accent) (Colour.text "#ffffff".toList) "0.65".toList),
   ("primary300".toList, Colour.text accent),
   ("primary400".toList, Colour.mixHex (Colour.text accent) (Colour.text "#000000".toList) "0.12".toList),
   ("primary500".toList, Colour.mixHex (Colour.text accent) (Colour.text "#000000".toList) "0.25".toList),
   ("primary600".toList, Colour.mixHex (Colour.text accent) (Colour.text "#000000".toList) "0.38".toList),
   ("primary700".toList, Colour.mixHex (Colour.text accent) (Colour.text "#000000".toList) "0.52".toList),
   ("primary800".toList, Colour.mixHex (Colour.text accent) (Colour.text "#000000".toList) "0.65".toList),
   ("primary900".toList, Colour.mixHex (Colour.text accent) (Colour.text "#000000".toList) "0.78".toList)]

/-- The expression `opts.key || other`, for options that are texts. -/
def optOr (opts : List (Text × Text)) (key : Text) (other : Colour) : Colour :=
  match opts.lookup key with
  | some value => if value.isEmpty then other else Colour.text value
  | none => other

/-- A palette. -/
structure Palette where
  id : Text
  name : Text
  author : Text
  type : Text
  builtin : Bool
  colors : List (Text × Colour)

/-- The function `makePalette`. -/
def makePalette (id name author type accent bg surface textPrimary textSecondary : Text)
    (opts : List (Text × Text)) : Palette :=
  let textTertiary :=
    optOr opts "textTertiary".toList
      (Colour.mixHex (Colour.text textSecondary) (Colour.text bg) "0.35".toList)
  let surfaceElevated :=
    optOr opts "surfaceElevated".toList
      (Colour.mixHex (Colour.text surface) (Colour.text textPrimary) "0.08".toList)
  let hover :=
    optOr opts "hover".toList
      (Colour.mixHex (Colour.text surface) (Colour.text textPrimary) "0.12".toList)
  let inputBg :=
    optOr opts "inputBg".toList
      (Colour.mixHex (Colour.text bg) (Colour.text "#000000".toList) "0.08".toList)
  let muted :=
    optOr opts "muted".toList
      (Colour.mixHex (Colour.text textSecondary) (Colour.text bg) "0.5".toList)
  ⟨id, name, author, type, true,
    primaryScale accent ++
    [("bg".toList, Colour.text bg),
     ("surface".toList, Colour.text surface),
     ("surfaceElevated".toList, surfaceElevated),
     ("border".toList, Colour.template "rgba(".toList (Colour.text textSecondary) 0 ", .12)".toList),
     ("borderSubtle".toList,
       Colour.template "rgba(".toList (Colour.text textSecondary) 0 ", .06)".toList),
     ("hover".toList, hover),
     ("textPrimary".toList, Colour.text textPrimary),
     ("textSecondary".toList, Colour.text textSecondary),
     ("textTertiary".toList, textTertiary),
     ("inputBg".toList, inputBg),
     ("codeBg".toList, optOr opts "codeBg".toList inputBg),
     ("codeInlineBg".toList, optOr opts "codeInlineBg".toList surfaceElevated),
     ("glassBg".toList, Colour.template "rgba(".toList (Colour.text bg) 0 ", .85)".toList),
     ("glassBorder".toList, Colour.template "rgba(".toList (Colour.text accent) 0 ", .15)".toList),
     ("glassShadow".toList,
       Colour.template "0 8px 32px rgba(".toList (Colour.text bg) 20 ", .5)".toList),
     ("accentGlow".toList, Colour.template "rgba(".toList (Colour.text accent) 0 ", .15)".toList),
     ("accentGlowStrong".toList,
       Colour.template "rgba(".toList (Colour.text accent) 0 ", .3)".toList),
     ("bodyGradientFrom".toList,
       optOr opts "bodyGradientFrom".toList
         (Colour.mixHex (Colour.text bg) (Colour.text "#000000".toList) "0.06".toList)),
     ("bodyGradientTo".toList, optOr opts "bodyGradientTo".toList (Colour.text bg)),
     ("accentText".toList,
       optOr opts "accentText".toList
         (if type = "dark".toList then Colour.text bg else Colour.text "#ffffff".toList)),
     ("muted".toList, muted),
     ("success".toList, Colour.text "#4ade80".toList),
     ("error".toList, Colour.text "#f87171".toList),
     ("warning".toList, Colour.text "#fbbf24".toList)]⟩

/-- The colours of an object literal all of whose values are texts. -/
def texts (entries : List (Text × Text)) : List (Text × Colour) :=
  entries.map fun e => (e.1, Colour.text e.2)

/-- The palette `midnight-blush`, entry 1 of `PALETTES`. -/
def palette1 : Palette :=
  ⟨"midnight-blush".toList, "Midnight Blush".toList, "EveRo".toList, "dark".toList, true,
    texts midnightBlush⟩

/-- The palette `cyberpunk`, entry 2 of `PALETTES`. -/
def palette2 : Palette :=
  makePalette "cyberpunk".toList "Cyberpunk".toList "EveRo".toList "dark".toList
    "#ff2a6d".toList "#0d0221".toList "#150734".toList "#e0e0ff".toList "#a599c4".toList
    [("textTertiary".toList, "#7b6f99".toList),
     ("muted".toList, "#5e4f8a".toList),
     ("hover".toList, "#1e0b4a".toList),
     ("surfaceElevated".toList, "#1f0f4f".toList),
     ("inputBg".toList, "#0a011a".toList),
     ("border".toList, "#1f0f4f".toList),
     ("accentText".toList, "#0d0221".toList)]

/-- The palette `neon-ember`, entry 3 of `PALETTES`. -/
def palette3 : Palette :=
  makePalette "neon-ember".toList "Neon Ember".toList "EveRo".toList "dark".toList
    "#ff6b35".toList "#0a0a0f".toList "#14141f".toList "#f0f0f0".toList "#a0a0b0".toList
    [("textTertiary".toList, "#707080".toList),
     ("muted".toList, "#555565".toList),
     ("hover".toList, "#1e1e2f".toList),
     ("surfaceElevated".toList, "#222235".toList),
     ("inputBg".toList, "#08080d".toList),
     ("border".toList, "#222235".toList),
     ("accentText".toList, "#0a0a0f".toList)]

/-- The palette `deep-teal`, entry 4 of `PALETTES`. -/
def palette4 : Palette :=
  makePalette "deep-teal".toList "Deep Teal".toList "EveRo".toList "dark".toList
    "#00d9ff".toList "#0d1b2a".toList "#1b2838".toList "#e0f7fa".toList "#80cbc4".toList
    [("textTertiary".toList, "#4db6ac".toList),
     ("muted".toList, "#2e8b83".toList),
     ("hover".toList, "#243a4d".toList),
     ("surfaceElevated".toList, "#263c50".toList),
     ("inputBg".toList, "#091520".toList),
     ("border".toList, "#263c50".toList),
     ("accentText".toList, "#0d1b2a".toList)]

/-- The palette `mocha`, entry 5 of `PALETTES`. -/
def palette5 : Palette :=
  makePalette "mocha".toList "Mocha".toList "EveRo".toList "dark".toList
    "#d4a574".toList "#1e1510".toList "#2a2018".toList "#f5e6d3".toList "#c4a882".toList
    [("textTertiary".toList, "#9a7e5b".toList),
     ("muted".toList, "#7a6348".toList),
     ("hover".toList, "#3a3025".toList),
     ("surfaceElevated".toList, "#3d3228".toList),
     ("inputBg".toList, "#17100b".toList),
     ("border".toList, "#3d3228".toList),
     ("accentText".toList, "#1e1510".toList)]

/-- The palette `catppuccin-mocha`, entry 6 of `PALETTES`. -/
def palette6 : Palette :=
  ⟨"catppuccin-mocha".toList, "Catppuccin Mocha".toList, "Catppuccin".toList, "dark".toList, true,
    primaryScale "#b4befe".toList ++
    texts
    [("bg".toList, "#1e1e2e".toList),
     ("surface".toList, "#181825".toList),
     ("surfaceElevated".toList, "#313244".toList),
     ("border".toList, "rgba(186, 194, 222, .12)".toList),
     ("borderSubtle".toList, "rgba(186, 194, 222, .06)".toList),
     ("hover".toList, "#383854".toList),
     ("textPrimary".toList, "#cdd6f4".toList),
     ("textSecondary".toList, "#bac2de".toList),
     ("textTertiary".toList, "#a6adc8".toList),
     ("inputBg".toList, "#11111b".toList),
     ("codeBg".toList, "#11111b".toList),
     ("codeInlineBg".toList, "#313244".toList),
     ("glassBg".toList, "rgba(30, 30, 46, .85)".toList),
     ("glassBorder".toList, "rgba(180, 190, 254, .15)".toList),
     ("glassShadow".toList, "0 8px 32px rgba(10, 10, 26, .5)".toList),
     ("accentGlow".toList, "rgba(180, 190, 254, .15)".toList),
     ("accentGlowStrong".toList, "rgba(180, 190, 254, .3)".toList),
     ("bodyGradientFrom".toList, "#181828".toList),
     ("bodyGradientTo".toList, "#1e1e2e".toList),
     ("accentText".toList, "#1e1e2e".toList),
     ("muted".toList, "#6c7086".toList),
     ("success".toList, "#a6e3a1".toList),
     ("error".toList, "#f38ba8".toList),
     ("warning".toList, "#f9e2af".toList)]⟩

/-- The palette `catppuccin-frappe`, entry 7 of `PALETTES`. -/
def palette7 : Palette :=
  ⟨"catppuccin-frappe".toList, "Catppuccin Frapp\u00e9".toList, "Catppuccin".toList, "dark".toList, true,
    primaryScale "#babbf1".toList ++
    texts
    [("bg".toList, "#303446".toList),
     ("surface".toList, "#292c3c".toList),
     ("surfaceElevated".toList, "#414559".toList),
     ("border".toList, "rgba(181, 191, 226, .12)".toList),
     ("borderSubtle".toList, "rgba(181, 191, 226, .06)".toList),
     ("hover".toList, "#4a4e66".toList),
     ("textPrimary".toList, "#c6d0f5".toList),
     ("textSecondary".toList, "#b5bfe2".toList),
     ("textTertiary".toList, "#a5adce".toList),
     ("inputBg".toList, "#232634".toList),
     ("codeBg".toList, "#232634".toList),
     ("codeInlineBg".toList, "#414559".toList),
     ("glassBg".toList, "rgba(48, 52, 70, .85)".toList),
     ("glassBorder".toList, "rgba(186, 187, 241, .15)".toList),
     ("glassShadow".toList, "0 8px 32px rgba(28, 32, 50, .5)".toList),
     ("accentGlow".toList, "rgba(186, 187, 241, .15)".toList),
     ("accentGlowStrong".toList, "rgba(186, 187, 241, .3)".toList),
     ("bodyGradientFrom".toList, "#282c3e".toList),
     ("bodyGradientTo".toList, "#303446".toList),
     ("accentText".toList, "#303446".toList),
     ("muted".toList, "#737994".toList),
     ("success".toList, "#a6d189".toList),
     ("error".toList, "#e78284".toList),
     ("warning".toList, "#e5c890".toList)]⟩

/-- The palette `rose-pine`, entry 8 of `PALETTES`. -/
def palette8 : Palette :=
  ⟨"rose-pine".toList, "Ros\u00e9 Pine".toList, "Ros\u00e9 Pine".toList, "dark".toList, true,
    primaryScale "#ebbcba".toList ++
    texts
    [("bg".toList, "#191724".toList),
     ("surface".toList, "#1f1d2e".toList),
     ("surfaceElevated".toList, "#26233a".toList),
     ("border".toList, "rgba(144, 140, 170, .12)".toList),
     ("borderSubtle".toList, "rgba(144, 140, 170, .06)".toList),
     ("hover".toList, "#2e2b40".toList),
     ("textPrimary".toList, "#e0def4".toList),
     ("textSecondary".toList, "#908caa".toList),
     ("textTertiary".toList, "#6e6a86".toList),
     ("inputBg".toList, "#13111e".toList),
     ("codeBg".toList, "#13111e".toList),
     ("codeInlineBg".toList, "#26233a".toList),
     ("glassBg".toList, "rgba(25, 23, 36, .85)".toList),
     ("glassBorder".toList, "rgba(235, 188, 186, .15)".toList),
     ("glassShadow".toList, "0 8px 32px rgba(5, 3, 16, .5)".toList),
     ("accentGlow".toList, "rgba(235, 188, 186, .15)".toList),
     ("accentGlowStrong".toList, "rgba(235, 188, 186, .3)".toList),
     ("bodyGradientFrom".toList, "#12101e".toList),
     ("bodyGradientTo".toList, "#191724".toList),
     ("accentText".toList, "#191724".toList),
     ("muted".toList, "#555169".toList),
     ("success".toList, "#9ccfd8".toList),
     ("error".toList, "#eb6f92".toList),
     ("warning".toList, "#f6c177".toList)]⟩

/-- The palette `rose-pine-moon`, entry 9 of `PALETTES`. -/
def palette9 : Palette :=
  ⟨"rose-pine-moon".toList, "Ros\u00e9 Pine Moon".toList, "Ros\u00e9 Pine".toList, "dark".toList, true,
    primaryScale "#ea9a97".toList ++
    texts
    [("bg".toList, "#232136".toList),
     ("surface".toList, "#2a273f".toList),
     ("surfaceElevated".toList, "#393552".toList),
     ("border".toList, "rgba(144, 140, 170, .12)".toList),
     ("borderSubtle".toList, "rgba(144, 140, 170, .06)".toList),
     ("hover".toList, "#423e5c".toList),
     ("textPrimary".toList, "#e0def4".toList),
     ("textSecondary".toList, "#908caa".toList),
     ("textTertiary".toList, "#6e6a86".toList),
     ("inputBg".toList, "#1b192e".toList),
     ("codeBg".toList, "#1b192e".toList),
     ("codeInlineBg".toList, "#393552".toList),
     ("glassBg".toList, "rgba(35, 33, 54, .85)".toList),
     ("glassBorder".toList, "rgba(234, 154, 151, .15)".toList),
     ("glassShadow".toList, "0 8px 32px rgba(15, 13, 34, .5)".toList),
     ("accentGlow".toList, "rgba(234, 154, 151, .15)".toList),
     ("accentGlowStrong".toList, "rgba(234, 154, 151, .3)".toList),
     ("bodyGradientFrom".toList, "#1c1a2e".toList),
     ("bodyGradientTo".toList, "#232136".toList),
     ("accentText".toList, "#232136".toList),
     ("muted".toList, "#555169".toList),
     ("success".toList, "#9ccfd8".toList),
     ("error".toList, "#eb6f92".toList),
     ("warning".toList, "#f6c177".toList)]⟩

/-- The palette `nord`, entry 10 of `PALETTES`. -/
def palette10 : Palette :=
  ⟨"nord".toList, "Nord".toList, "Arctic Ice Studio".toList, "dark".toList, true,
    primaryScale "#88c0d0".toList ++
    texts
    [("bg".toList, "#2e3440".toList),
     ("surface".toList, "#3b4252".toList),
     ("surfaceElevated".toList, "#434c5e".toList),
     ("border".toList, "rgba(216, 222, 233, .12)".toList),
     ("borderSubtle".toList, "rgba(216, 222, 233, .06)".toList),
     ("hover".toList, "#4c566a".toList),
     ("textPrimary".toList, "#eceff4".toList),
     ("textSecondary".toList, "#d8dee9".toList),
     ("textTertiary".toList, "#a3b1c2".toList),
     ("inputBg".toList, "#272d38".toList),
     ("codeBg".toList, "#272d38".toList),
     ("codeInlineBg".toList, "#434c5e".toList),
     ("glassBg".toList, "rgba(46, 52, 64, .85)".toList),
     ("glassBorder".toList, "rgba(136, 192, 208, .15)".toList),
     ("glassShadow".toList, "0 8px 32px rgba(26, 32, 44, .5)".toList),
     ("accentGlow".toList, "rgba(136, 192, 208, .15)".toList),
     ("accentGlowStrong".toList, "rgba(136, 192, 208, .3)".toList),
     ("bodyGradientFrom".toList, "#272d38".toList),
     ("bodyGradientTo".toList, "#2e3440".toList),
     ("accentText".toList, "#2e3440".toList),
     ("muted".toList, "#7b8da0".toList),
     ("success".toList, "#a3be8c".toList),
     ("error".toList, "#bf616a".toList),
     ("warning".toList, "#ebcb8b".toList)]⟩

/-- The palette `dracula`, entry 11 of `PALETTES`. -/
def palette11 : Palette :=
  ⟨"dracula".toList, "Dracula".toList, "Zeno Rocha".toList, "dark".toList, true,
    primaryScale "#bd93f9".toList ++
    texts
    [("bg".toList, "#282a36".toList),
     ("surface".toList, "#21222c".toList),
     ("surfaceElevated".toList, "#44475a".toList),
     ("border".toList, "rgba(248, 248, 242, .12)".toList),
     ("borderSubtle".toList, "rgba(248, 248, 242, .06)".toList),
     ("hover".toList, "#4d5068".toList),
     ("textPrimary".toList, "#f8f8f2".toList),
     ("textSecondary".toList, "#c0c0d0".toList),
     ("textTertiary".toList, "#6272a4".toList),
     ("inputBg".toList, "#1e1f29".toList),
     ("codeBg".toList, "#1e1f29".toList),
     ("codeInlineBg".toList, "#44475a".toList),
     ("glassBg".toList, "rgba(40, 42, 54, .85)".toList),
     ("glassBorder".toList, "rgba(189, 147, 249, .15)".toList),
     ("glassShadow".toList, "0 8px 32px rgba(20, 22, 34, .5)".toList),
     ("accentGlow".toList, "rgba(189, 147, 249, .15)".toList),
     ("accentGlowStrong".toList, "rgba(189, 147, 249, .3)".toList),
     ("bodyGradientFrom".toList, "#21222c".toList),
     ("bodyGradientTo".toList, "#282a36".toList),
     ("accentText".toList, "#282a36".toList),
     ("muted".toList, "#6272a4".toList),
     ("success".toList, "#50fa7b".toList),
     ("error".toList, "#ff5555".toList),
     ("warning".toList, "#f1fa8c".toList)]⟩

/-- The palette `rose-pine-dawn`, entry 12 of `PALETTES`. -/
def palette12 : Palette :=
  ⟨"rose-pine-dawn".toList, "Ros\u00e9 Pine Dawn".toList, "Ros\u00e9 Pine".toList, "light".toList, true,
    primaryScale "#d7827e".toList ++
    texts
    [("bg".toList, "#faf4ed".toList),
     ("surface".toList, "#fffaf3".toList),
     ("surfaceElevated".toList, "#f2e9e1".toList),
     ("border".toList, "rgba(87, 82, 121, .12)".toList),
     ("borderSubtle".toList, "rgba(87, 82, 121, .06)".toList),
     ("hover".toList, "#ebe4dc".toList),
     ("textPrimary".toList, "#575279".toList),
     ("textSecondary".toList, "#797593".toList),
     ("textTertiary".toList, "#9893a5".toList),
     ("inputBg".toList, "#f4ede5".toList),
     ("codeBg".toList, "#f4ede5".toList),
     ("codeInlineBg".toList, "#f2e9e1".toList),
     ("glassBg".toList, "rgba(250, 244, 237, .9)".toList),
     ("glassBorder".toList, "rgba(215, 130, 126, .15)".toList),
     ("glassShadow".toList, "0 8px 32px rgba(200, 190, 175, .3)".toList),
     ("accentGlow".toList, "rgba(215, 130, 126, .12)".toList),
     ("accentGlowStrong".toList, "rgba(215, 130, 126, .25)".toList),
     ("bodyGradientFrom".toList, "#f4ede5".toList),
     ("bodyGradientTo".toList, "#faf4ed".toList),
     ("accentText".toList, "#fffaf3".toList),
     ("muted".toList, "#b4b0c8".toList),
     ("success".toList, "#56949f".toList),
     ("error".toList, "#b4637a".toList),
     ("warning".toList, "#ea9d34".toList)]⟩

/-- The palette `catppuccin-latte`, entry 13 of `PALETTES`. -/
def palette13 : Palette :=
  ⟨"catppuccin-latte".toList, "Catppuccin Latte".toList, "Catppuccin".toList, "light".toList, true,
    primaryScale "#7287fd".toList ++
    texts
    [("bg".toList, "#eff1f5".toList),
     ("surface".toList, "#e6e9ef".toList),
     ("surfaceElevated".toList, "#ccd0da".toList),
     ("border".toList, "rgba(92, 95, 119, .12)".toList),
     ("borderSubtle".toList, "rgba(92, 95, 119, .06)".toList),
     ("hover".toList, "#c4c8d4".toList),
     ("textPrimary".toList, "#4c4f69".toList),
     ("textSecondary".toList, "#5c5f77".toList),
     ("textTertiary".toList, "#6c6f85".toList),
     ("inputBg".toList, "#dce0e8".toList),
     ("codeBg".toList, "#dce0e8".toList),
     ("codeInlineBg".toList, "#ccd0da".toList),
     ("glassBg".toList, "rgba(239, 241, 245, .9)".toList),
     ("glassBorder".toList, "rgba(114, 135, 253, .15)".toList),
     ("glassShadow".toList, "0 8px 32px rgba(172, 176, 190, .3)".toList),
     ("accentGlow".toList, "rgba(114, 135, 253, .12)".toList),
     ("accentGlowStrong".toList, "rgba(114, 135, 253, .25)".toList),
     ("bodyGradientFrom".toList, "#e6e9ef".toList),
     ("bodyGradientTo".toList, "#eff1f5".toList),
     ("accentText".toList, "#eff1f5".toList),
     ("muted".toList, "#9ca0b0".toList),
     ("success".toList, "#40a02b".toList),
     ("error".toList, "#d20f39".toList),
     ("warning".toList, "#df8e1d".toList)]⟩

/-- The list `PALETTES`. -/
def PALETTES : List Palette :=
  [palette1, palette2, palette3, palette4, palette5, palette6, palette7, palette8, palette9, palette10, palette11, palette12, palette13]

/-- The value `object[key]` of an own property: the entry written last. -/
def get (object : List (Text × Colour)) (key : Text) : Option Colour :=
  object.reverse.lookup key

/-- The statement `Object.assign(__paletteCache,pal.colors)` of `__applyPalette`,
as a function of the cache. -/
def applyPalette (paletteCache : List (Text × Colour)) (pal : Palette) : List (Text × Colour) :=
  paletteCache ++ pal.colors

/-- The function `__resolveColor`: `__paletteCache[role]||null`, with `none` for
`null`. -/
def resolveColor (paletteCache : List (Text × Colour)) (role : Text) : Option Colour :=
  match get paletteCache role with
  | some value => if value.truthy then some value else none
  | none => none

/-- The roles a replacement text asks `__resolveColor` for. -/
def rolesOf : Text → List Text
  | [] => []
  | c :: rest =>
    if "__resolveColor(\"".toList.isPrefixOf (c :: rest) then
      ((c :: rest).drop 16).takeWhile (fun d => d != '"') :: rolesOf rest
    else rolesOf rest

/-- The roles of the inline-style, hover-handler and border replacements, in
the order of the lists. -/
def roles : List Text :=
  (inlineReplacements ++ hoverReplacements ++ borderReplacements).flatMap fun r => rolesOf r.2

/-- The eleven roles by name. -/
def roleNames : List Text :=
  ["textPrimary".toList, "textSecondary".toList, "textTertiary".toList, "surface".toList,
   "inputBg".toList, "border".toList, "accent".toList, "accentText".toList, "muted".toList,
   "hover".toList, "surfaceElevated".toList]

end PaletteSystem

/-! ## The handlers inserted before `shell:openExternal` -/

namespace ModelHub

/-- The anchor of PART 2. -/
def shellHandler : Text :=
  "c.ipcMain.handle(\"shell:openExternal\"".toList

/-- The handlers `ollama:show-model`, `ollama:delete-model` and
`ollama:running-models`. -/
def newHandlers : Text :=
  "c.ipcMain.handle(\"ollama:show-model\",async(ev,modelName)=>\x7btry\x7bconst http=require(\"http\");".toList ++
  "return new Promise((resolve,reject)=>\x7bconst body=JSON.stringify(\x7bname:modelName\x7d);const re".toList ++
  "q=http.request(\x7bhostname:\"localhost\",port:11434,path:\"/api/show\",method:\"POST\",headers:\x7b\"C".toList ++
  "ontent-Type\":\"application/json\",\"Content-Length\":Buffer.byteLength(body)\x7d\x7d,res=>\x7blet data=".toList ++
  "\"\";res.on(\"data\",chunk=>data+=chunk);res.on(\"end\",()=>\x7btry\x7bresolve(\x7bsuccess:true,model:JSO".toList ++
  "N.parse(data)\x7d)\x7dcatch(e)\x7bresolve(\x7bsuccess:false,error:\"Invalid response\"\x7d)\x7d\x7d)\x7d);req.on(\"er".toList ++
  "ror\",e=>resolve(\x7bsuccess:false,error:e.message\x7d));req.write(body);req.end()\x7d)\x7dcatch(e)\x7bret".toList ++
  "urn\x7bsuccess:false,error:e.message\x7d\x7d\x7d),c.ipcMain.handle(\"ollama:delete-model\",async(ev,mode".toList ++
  "lName)=>\x7btry\x7bconst http=require(\"http\");return new Promise((resolve)=>\x7bconst body=JSON.str".toList ++
  "ingify(\x7bname:modelName\x7d);const req=http.request(\x7bhostname:\"localhost\",port:11434,path:\"/ap".toList ++
  "i/delete\",method:\"DELETE\",headers:\x7b\"Content-Type\":\"application/json\",\"Content-Length\":Buff".toList ++
  "er.byteLength(body)\x7d\x7d,res=>\x7blet data=\"\";res.on(\"data\",chunk=>data+=chunk);res.on(\"end\",()=".toList ++
  ">resolve(\x7bsuccess:res.statusCode===200\x7d))\x7d);req.on(\"error\",e=>resolve(\x7bsuccess:false,error".toList ++
  ":e.message\x7d));req.write(body);req.end()\x7d)\x7dcatch(e)\x7breturn\x7bsuccess:false,error:e.message\x7d\x7d\x7d".toList ++
  "),c.ipcMain.handle(\"ollama:running-models\",async()=>\x7btry\x7bconst http=require(\"http\");return".toList ++
  " new Promise((resolve)=>\x7bconst req=http.request(\x7bhostname:\"localhost\",port:11434,path:\"/ap".toList ++
  "i/ps\",method:\"GET\"\x7d,res=>\x7blet data=\"\";res.on(\"data\",chunk=>data+=chunk);res.on(\"end\",()=>\x7b".toList ++
  "try\x7bresolve(\x7bsuccess:true,models:JSON.parse(data).models||[]\x7d)\x7dcatch(e)\x7bresolve(\x7bsuccess:t".toList ++
  "rue,models:[]\x7d)\x7d\x7d)\x7d);req.on(\"error\",e=>resolve(\x7bsuccess:false,error:e.message\x7d));req.end()".toList ++
  "\x7d)\x7dcatch(e)\x7breturn\x7bsuccess:false,error:e.message\x7d\x7d\x7d),".toList

/-- PART 2 on the main text: the handlers are inserted before the first
`shell:openExternal` handler. -/
def patchMain (mainCode : Text) : Text :=
  let shellIdx := indexOf mainCode shellHandler
  if shellIdx = -1 then mainCode
  else substring mainCode 0 shellIdx ++ newHandlers ++ substringFrom mainCode shellIdx

end ModelHub

namespace ConversationExport

/-- The anchor of PART 1. -/
def shellHandler : Text :=
  "c.ipcMain.handle(\"shell:openExternal\"".toList

/-- The handler `conversation:export`. -/
def exportHandler : Text :=
  "c.ipcMain.handle(\"conversation:export\",async(ev,content,defaultName)=>\x7btry\x7bconst\x7bdialog:dl".toList ++
  "g\x7d=require(\"electron\");const result=await dlg.showSaveDialog(\x7btitle:\"Export Conversation\",".toList ++
  "defaultPath:defaultName||\"conversation.md\",filters:[\x7bname:\"Markdown\",extensions:[\"md\"]\x7d,\x7bn".toList ++
  "ame:\"JSON\",extensions:[\"json\"]\x7d,\x7bname:\"Text\",extensions:[\"txt\"]\x7d]\x7d);if(!result.canceled&&r".toList ++
  "esult.filePath)\x7brequire(\"fs\").writeFileSync(result.filePath,content,\"utf-8\");return\x7bsucces".toList ++
  "s:true,path:result.filePath\x7d\x7dreturn\x7bsuccess:false,canceled:true\x7d\x7dcatch(e)\x7breturn\x7bsuccess:f".toList ++
  "alse,error:e.message\x7d\x7d\x7d),".toList

/-- PART 1 on the main text: the handler is inserted before the first
`shell:openExternal` handler. -/
def patchMain (mainCode : Text) : Text :=
  let shellIdx := indexOf mainCode shellHandler
  if shellIdx = -1 then mainCode
  else substring mainCode 0 shellIdx ++ exportHandler ++ substringFrom mainCode shellIdx

end ConversationExport

namespace PaletteSystem

/-- The anchor of PART 1 with the comma before it. -/
def mainAnchorFull : Text :=
  ",c.ipcMain.handle(\"shell:openExternal\"".toList

end PaletteSystem

/-- A main text whose `shell:openExternal` handler follows a comma, as the
handlers of a comma-chained expression do. -/
def chainedMain : Text :=
  "if(k)\x7bc.ipcMain.handle(\"app:quit\",()=>c.app.quit()),c.ipcMain.handle(\"shell:openExternal\",async(e,u)=>\x7b\x7d)\x7d".toList

/-! ## `patch-path-normalization.js`, the other patches and the verification -/

namespace PathNormalization

/-- The text before which PATCH 1 inserts the helpers. -/
def helperTarget : Text :=
  "const oe=[\"".toList

/-- The helpers `__normPath` and `__normFileMap`. -/
def normalizer : Text :=
  "function __normPath(p)\x7breturn typeof p===\"string\"?p.replace(/\\\\/g,\"/\"):p\x7dfunction __normFi".toList ++
  "leMap(fm)\x7bif(!fm)return fm;if(fm.files)\x7bconst nf=fm.files.map(([k,v])=>[__normPath(k),v]);".toList ++
  "fm.files=nf\x7dif(fm.agentActivity)\x7bconst na=fm.agentActivity.map(([k,v])=>[k,v.map(a=>(\x7b...a".toList ++
  ",filePath:__normPath(a.filePath)\x7d))]);fm.agentActivity=na\x7dif(fm.activeFiles)\x7bconst af=fm.a".toList ++
  "ctiveFiles.map(([k,v])=>[__normPath(k),v]);fm.activeFiles=af\x7dif(fm.projectPath)fm.projectP".toList ++
  "ath=__normPath(fm.projectPath);return fm\x7d".toList

/-- PATCH 1: the helpers are inserted before the first `helperTarget`; without
one the text stays as it is. -/
def patch1 (code : Text) : Text :=
  let helperIdx := indexOf code helperTarget
  if helperIdx = -1 then code
  else substring code 0 helperIdx ++ normalizer ++ substringFrom code helperIdx

/-- The `safeSend` of a file activity as shipped. -/
def oldActivity : Text :=
  "this.safeSend(\"project:file-activity\",\x7bprojectId:n,agentId:s.agentId,filePath:m,".toList

/-- The `safeSend` of a file activity with the normalized path. -/
def newActivity : Text :=
  "this.safeSend(\"project:file-activity\",\x7bprojectId:n,agentId:s.agentId,filePath:__normPath(m".toList ++
  "),".toList

/-- PATCH 2. -/
def patch2 (code : Text) : Text :=
  if includes code oldActivity then replace code oldActivity newActivity else code

/-- The answer of `project-file-map:get` as shipped. -/
def oldGetMap : Text :=
  "const n=e.getSerializableFileMap(s);return n?\x7bsuccess:!0,fileMap:n\x7d".toList

/-- The answer of `project-file-map:get` with the normalized map. -/
def newGetMap : Text :=
  "const n=e.getSerializableFileMap(s);return n?\x7bsuccess:!0,fileMap:__normFileMap(n)\x7d".toList

/-- PATCH 4. -/
def patch4 (code : Text) : Text :=
  if includes code oldGetMap then replace code oldGetMap newGetMap else code

/-- The text the script writes to `out/main/index.js`. -/
def run (code : Text) : Text :=
  patch4 (patch3 (patch2 (patch1 code)))

/-- The list `checks` of the verification: name and pattern. -/
def checks : List (String × Text) :=
  [("__normPath helper", "function __normPath(p)".toList),
   ("__normFileMap helper", "function __normFileMap(fm)".toList),
   ("file-activity normalization", "filePath:__normPath(m)".toList),
   ("file-map:load normalization", "__normFileMap(".toList),
   ("file-map:get normalization", "fileMap:__normFileMap(n)".toList)]

/-- The verification on the text read back: for every check its name and
`found`, which is logged as `PASS` or `FAIL`. -/
def results (verifyCode : Text) : List (String × Bool) :=
  checks.map fun chk => (chk.1, includes verifyCode chk.2)

/-- The flag `allPass` after the verification. -/
def allPass (verifyCode : Text) : Bool :=
  (results verifyCode).all fun r => r.2

/-- A main text with the target of PATCH 1 and without the handler PATCH 3 looks
for. -/
def noLoadHandler : Text :=
  "const x=1;const oe=[\"a\"];".toList

end PathNormalization

/-- Whether putting `new` where `old` stood removes no occurrence of `pat`: none
begins inside `old`, and one that begins before and reaches into `old` reaches
into `new` as well. -/
def keeps (pat old new : Text) : Bool :=
  reachOK pat new old && noStart pat old

/-! ## `patch-rebrand.js`, PART 1 and its verification -/

namespace Rebrand

/-- The text step 1b looks for. -/
def oauthOld : Text := "roro://auth/callback".toList

/-- The text step 1b writes. -/
def oauthNew : Text := "evero://auth/callback".toList

/-- The text step 1c looks for. -/
def nameOld : Text := "name:\"roro\"".toList

/-- The text step 1c writes. -/
def nameNew : Text := "name:\"EveRo\"".toList

/-- The text step 1d looks for. -/
def avatarOld : Text := "avatar:\"/roro_icon.png\"".toList

/-- The text step 1d writes. -/
def avatarNew : Text := "avatar:\"/evero_icon.png\"".toList

/-- The text step 1e looks for. -/
def protocolOld : Text := "setAsDefaultProtocolClient(\"roro\")".toList

/-- The text step 1e writes. -/
def protocolNew : Text := "setAsDefaultProtocolClient(\"evero\")".toList

/-- The text step 1f looks for. -/
def urlOld : Text := "startsWith(\"roro://".toList

/-- The text step 1f writes. -/
def urlNew : Text := "startsWith(\"evero://".toList

/-- The text step 1g looks for. -/
def titleOld : Text := "title:\"roro\"".toList

/-- The text step 1g writes. -/
def titleNew : Text := "title:\"EveRo\"".toList

/-- A replacement of the first occurrence behind an `includes` test, as in steps
1c, 1d and 1g. -/
def replaceFirst (mainCode old new : Text) : Text :=
  if includes mainCode old then replace mainCode old new else mainCode

/-- PART 1 on the main text: steps 1a to 1g in turn; the result is written to
`out/main/index.js`. -/
def part1 (mainCode : Text) : Text :=
  let mainCode := (step1a mainCode).1
  let mainCode := replaceAll mainCode oauthOld oauthNew
  let mainCode := replaceFirst mainCode nameOld nameNew
  let mainCode := replaceFirst mainCode avatarOld avatarNew
  let mainCode := replaceAll mainCode protocolOld protocolNew
  let mainCode := replaceAll mainCode urlOld urlNew
  replaceFirst mainCode titleOld titleNew

/-- The list `mainChecks` of the verification; `none` is the `null` of the
special check. -/
def mainChecks : List (String × Option Text) :=
  [("userData evero-dev", some "evero-dev".toList),
   ("OAuth evero://auth/callback", some "evero://auth/callback".toList),
   ("Bot name EveRo", some "name:\"EveRo\"".toList),
   ("Bot avatar evero_icon", some "avatar:\"/evero_icon.png\"".toList),
   ("Protocol evero", some "setAsDefaultProtocolClient(\"evero\")".toList),
   ("Window title EveRo", some "title:\"EveRo\"".toList),
   ("No remaining roro-dev", none)]

/-- The verification of the main text read back: for every check its name and
`found`, which is logged as `PASS` or `FAIL`.  The special check asks that
`roro-dev` is not found. -/
def mainResults (verifyMain : Text) : List (String × Bool) :=
  mainChecks.map fun chk =>
    match chk.2 with
    | none => (chk.1, !includes verifyMain "roro-dev".toList)
    | some pattern => (chk.1, includes verifyMain pattern)

/-- The six replacements of steps 1b to 1g. -/
def laterSteps : List (Text × Text) :=
  [(oauthOld, oauthNew), (nameOld, nameNew), (avatarOld, avatarNew),
   (protocolOld, protocolNew), (urlOld, urlNew), (titleOld, titleNew)]

end Rebrand

/-! ## Lemmas on the string primitives -/

theorem indexOfAux_spec (pat : Text) : ∀ (s : Text) (k : Nat),
    (indexOfAux pat s k = -1 ∧ ¬ pat <:+: s) ∨
    (∃ a b, s = a ++ (pat ++ b) ∧ indexOfAux pat s k = ((k + a.length : Nat) : Int)
      ∧ ∀ i, i < a.length → ¬ pat <+: s.drop i) := by
  intro s
  induction s with
  | nil =>
    intro k
    by_cases h : pat.isPrefixOf [] = true
    · right
      have hp : pat = [] := List.prefix_nil.mp (List.isPrefixOf_iff_prefix.mp h)
      exact ⟨[], [], by simp [hp], by simp [indexOfAux, h], by simp⟩
    · left
      refine ⟨by simp [indexOfAux, h], fun hin => h ?_⟩
      have hp : pat = [] := List.infix_nil.mp hin
      simp [hp]
  | cons c rest ih =>
    intro k
    by_cases h : pat.isPrefixOf (c :: rest) = true
    · right
      obtain ⟨b, hb⟩ := List.isPrefixOf_iff_prefix.mp h
      exact ⟨[], b, by simp [hb], by simp [indexOfAux, h], by simp⟩
    · have hnp : ¬ pat <+: c :: rest := fun hp => h (List.isPrefixOf_iff_prefix.mpr hp)
      rcases ih (k + 1) with ⟨h1, h2⟩ | ⟨a, b, hs, hi, hmin⟩
      · left
        refine ⟨by simp [indexOfAux, h, h1], fun hin => ?_⟩
        rcases List.infix_cons_iff.mp hin with hp | hr
        · exact hnp hp
        · exact h2 hr
      · right
        refine ⟨c :: a, b, by simp [hs], ?_, ?_⟩
        · simp only [indexOfAux, h, hi, List.length_cons]
          simp only [Bool.false_eq_true, if_false]
          congr 1; omega
        · intro i hi2
          cases i with
          | zero => simpa using hnp
          | succ j =>
            have hj : j < a.length := by simpa using hi2
            simpa using hmin j hj

theorem indexOf_eq_neg_one_iff (s pat : Text) : indexOf s pat = -1 ↔ ¬ pat <:+: s := by
  rcases indexOfAux_spec pat s 0 with ⟨h1, h2⟩ | ⟨a, b, hs, hi, _⟩
  · simp [indexOf, h1, h2]
  · have hin : pat <:+: s := ⟨a, b, by simp [hs]⟩
    have hne : indexOf s pat ≠ -1 := by
      unfold indexOf; rw [hi]; omega
    simp [hne, hin]

theorem includes_eq_true_iff (s pat : Text) : includes s pat = true ↔ pat <:+: s := by
  simp [includes, indexOf_eq_neg_one_iff]

theorem includes_eq_false_iff (s pat : Text) : includes s pat = false ↔ ¬ pat <:+: s := by
  rw [← includes_eq_true_iff]; simp

theorem indexOf_of_includes (s pat : Text) (h : includes s pat = true) :
    ∃ a b, s = a ++ (pat ++ b) ∧ indexOf s pat = (a.length : Int) := by
  rcases indexOfAux_spec pat s 0 with ⟨h1, h2⟩ | ⟨a, b, hs, hi, _⟩
  · exact absurd ((includes_eq_true_iff s pat).mp h) h2
  · exact ⟨a, b, hs, by simpa [indexOf] using hi⟩

theorem indexOfAux_of_infix (pat s : Text) (k : Nat) (h : pat <:+: s) :
    ∃ j, indexOfAux pat s k = ((k + j : Nat) : Int) ∧ pat <+: s.drop j
      ∧ j + pat.length ≤ s.length := by
  rcases indexOfAux_spec pat s k with ⟨_, h2⟩ | ⟨a, b, hs, hi, _⟩
  · exact absurd h h2
  · refine ⟨a.length, hi, ?_, ?_⟩
    · rw [hs, List.drop_left]; exact List.prefix_append pat b
    · rw [hs]; simp only [List.length_append]; omega

theorem substring_zero (s : Text) (n : Nat) : substring s 0 (n : Int) = s.take n := by
  simp only [substring, Int.toNat_zero, Int.toNat_ofNat, Nat.zero_min, Nat.zero_le, min_eq_left,
    max_eq_right, Nat.sub_zero, List.drop_zero, List.take_eq_take, List.length_take]
  simp

theorem substringFrom_natCast (s : Text) (n : Nat) : substringFrom s (n : Int) = s.drop n := by
  simp only [substringFrom, Int.toNat_ofNat]
  rcases Nat.le_total n s.length with h | h
  · rw [Nat.min_eq_left h]
  · rw [Nat.min_eq_right h, List.drop_length, List.drop_eq_nil_of_le h]

theorem substring_natCast (s : Text) (a b : Nat) (hab : a ≤ b) (hb : b ≤ s.length) :
    substring s (a : Int) (b : Int) = (s.drop a).take (b - a) := by
  simp only [substring, Int.toNat_ofNat]
  rw [Nat.min_eq_left (Nat.le_trans hab hb), Nat.min_eq_left hb, Nat.min_eq_left hab,
    Nat.max_eq_right hab]

theorem getSubstitution_of_plain (matched str : Text) (position : Nat) :
    ∀ repl : Text, plainReplacement repl = true →
      getSubstitution matched str position repl = repl := by
  intro repl
  induction repl with
  | nil => intro _; rfl
  | cons c rest ih =>
    intro h
    cases rest with
    | nil => rfl
    | cons d rest2 =>
      simp only [plainReplacement, Bool.and_eq_true, Bool.not_eq_true', Bool.and_eq_false_iff,
        Bool.or_eq_false_iff, decide_eq_false_iff_not, decide_eq_true_eq] at h
      obtain ⟨h1, h2⟩ := h
      have ih2 := ih h2
      have e1 : ¬ (c = '$' ∧ d = '$') := by tauto
      have e2 : ¬ (c = '$' ∧ d = '&') := by tauto
      have e3 : ¬ (c = '$' ∧ d = '\x60') := by tauto
      have e4 : ¬ (c = '$' ∧ d = '\x27') := by tauto
      simp only [getSubstitution, e1, e2, e3, e4, if_false, ih2]

theorem replace_of_includes (s pat repl : Text) (h : includes s pat = true)
    (hrepl : plainReplacement repl = true) :
    ∃ a b, s = a ++ (pat ++ b) ∧ replace s pat repl = a ++ (repl ++ b) := by
  obtain ⟨a, b, hs, hi⟩ := indexOf_of_includes s pat h
  refine ⟨a, b, hs, ?_⟩
  have hne : indexOf s pat ≠ -1 := by rw [hi]; omega
  have hdrop : s.drop (a.length + pat.length) = b := by
    rw [hs, List.drop_append, List.drop_left]
  have htake : s.take a.length = a := by rw [hs, List.take_left]
  unfold replace
  rw [if_neg hne, hi, Int.toNat_ofNat, getSubstitution_of_plain _ _ _ repl hrepl,
    hdrop, htake, List.append_assoc]

theorem length_replace (s pat repl : Text) (h : includes s pat = true) (hrepl : plainReplacement repl = true) :
    (replace s pat repl).length + pat.length = s.length + repl.length := by
  obtain ⟨a, b, hs, hr⟩ := replace_of_includes s pat repl h hrepl
  rw [hr, hs]
  simp only [List.length_append]
  omega

/-! ## Lemmas on the scans -/

theorem scanLoop_cons (op cl c : Char) (rest : Text) (pos depth : Nat) (hd : depth ≠ 0) :
    scanLoop op cl (c :: rest) pos depth
      = scanLoop op cl rest (pos + 1)
          (if c = op then depth + 1 else if c = cl then depth - 1 else depth) := by
  simp [scanLoop, hd]

theorem scanLoop_zero (op cl : Char) (rest : Text) (pos : Nat) :
    scanLoop op cl rest pos 0 = (pos, 0) := by
  cases rest <;> simp [scanLoop]

theorem netDepth_cons (op cl c : Char) (rest : Text) :
    netDepth op cl (c :: rest)
      = (if c = op then 1 else if c = cl then -1 else 0) + netDepth op cl rest := rfl

theorem scanLoop_append (op cl : Char) (inner rest : Text) :
    ∀ (pos depth : Nat), (∀ m, 0 < (depth : Int) + netDepth op cl (inner.take m)) →
      scanLoop op cl (inner ++ rest) pos depth
        = scanLoop op cl rest (pos + inner.length)
            ((depth : Int) + netDepth op cl inner).toNat := by
  induction inner with
  | nil => intro pos depth _; simp [netDepth]
  | cons c inner ih =>
    intro pos depth h
    have h0 : 0 < (depth : Int) := by simpa [netDepth] using h 0
    have hd : depth ≠ 0 := by omega
    have hval : (((if c = op then depth + 1 else if c = cl then depth - 1 else depth : Nat)) : Int)
        = (depth : Int) + (if c = op then 1 else if c = cl then -1 else 0) := by
      split_ifs <;> omega
    have hstep : ∀ m, 0 < (((if c = op then depth + 1 else if c = cl then depth - 1 else depth : Nat)) : Int)
        + netDepth op cl (inner.take m) := by
      intro m
      have hm := h (m + 1)
      rw [List.take_succ_cons, netDepth_cons] at hm
      rw [hval]; omega
    rw [List.cons_append, scanLoop_cons op cl c _ pos depth hd, ih _ _ hstep, hval,
      netDepth_cons, List.length_cons]
    have e1 : pos + 1 + inner.length = pos + (inner.length + 1) := by omega
    have e2 : (depth : Int) + (if c = op then 1 else if c = cl then -1 else 0)
          + netDepth op cl inner
        = (depth : Int) + ((if c = op then 1 else if c = cl then -1 else 0)
          + netDepth op cl inner) := by omega
    rw [e1, e2]

theorem scanLoop_fst_bounds (op cl : Char) :
    ∀ (rest : Text) (pos depth : Nat),
      pos ≤ (scanLoop op cl rest pos depth).1
        ∧ (scanLoop op cl rest pos depth).1 ≤ pos + rest.length := by
  intro rest
  induction rest with
  | nil => intro pos depth; simp [scanLoop]
  | cons c rest ih =>
    intro pos depth
    by_cases hd : depth = 0
    · simp [scanLoop, hd]
    · rw [scanLoop_cons op cl c rest pos depth hd]
      have := ih (pos + 1) (if c = op then depth + 1 else if c = cl then depth - 1 else depth)
      simp only [List.length_cons]
      omega

/-! ## Lemmas on the build steps -/

theorem tryRequire_of_exited {σ : Type} (scripts : String → σ → Outcome σ) (script : String)
    (onError : Message → String) (b : BuildWin.Build σ) (code : Nat) (h : b.exitCode = some code) :
    BuildWin.tryRequire scripts script onError b = b := by
  simp [BuildWin.tryRequire, h]

theorem foldl_tryRequire_of_exited {σ : Type} (scripts : String → σ → Outcome σ)
    (l : List (String × (Message → String))) :
    ∀ (b : BuildWin.Build σ) (code : Nat), b.exitCode = some code →
      l.foldl (fun b p => BuildWin.tryRequire scripts p.1 p.2 b) b = b := by
  induction l with
  | nil => intro b code _; rfl
  | cons p rest ih =>
    intro b code h
    rw [List.foldl_cons, tryRequire_of_exited scripts p.1 p.2 b code h]
    exact ih b code h

theorem run_of_not_includes (code : Text) (h : includes code ProcessDetection.searchPattern = false) :
    ProcessDetection.run code = Outcome.exited code 0 := by
  have : indexOf code ProcessDetection.searchPattern = -1 := by simpa [includes] using h
  simp [ProcessDetection.run, this]

/-- A step whose script lets the build go on. -/
theorem BuildWin.tryRequire_of_goesOn {σ : Type} (scripts : String → σ → Outcome σ)
    (script : String) (onError : Message → String) (b : BuildWin.Build σ)
    (h : b.exitCode = none) (hgo : BuildWin.goesOn (scripts script b.files) = true) :
    BuildWin.tryRequire scripts script onError b
      = ⟨(scripts script b.files).state, b.required ++ [script],
          b.logged ++ BuildWin.linesAfter scripts [(script, onError)] b.files, none⟩ := by
  unfold BuildWin.tryRequire
  rw [h]
  cases hs : scripts script b.files with
  | returned s => simp [BuildWin.linesAfter, hs, Outcome.state]
  | threw s thrown =>
    cases thrown with
    | nullish => rw [hs] at hgo; exact absurd hgo (by simp [BuildWin.goesOn])
    | value isSyntaxError message =>
      simp [BuildWin.linesAfter, hs, Outcome.state, BuildWin.catchLine]
  | exited s code => rw [hs] at hgo; exact absurd hgo (by simp [BuildWin.goesOn])

/-- A step whose script throws `null` or `undefined`, or ends the process. -/
theorem BuildWin.tryRequire_of_stop {σ : Type} (scripts : String → σ → Outcome σ)
    (script : String) (onError : Message → String) (b : BuildWin.Build σ)
    (h : b.exitCode = none) :
    (∀ s, scripts script b.files = Outcome.threw s Thrown.nullish →
      BuildWin.tryRequire scripts script onError b
        = ⟨s, b.required ++ [script], b.logged, some 1⟩) ∧
    (∀ s code, scripts script b.files = Outcome.exited s code →
      BuildWin.tryRequire scripts script onError b
        = ⟨s, b.required ++ [script], b.logged, some code⟩) := by
  constructor
  · intro s hs
    simp [BuildWin.tryRequire, h, hs, BuildWin.catchLine]
  · intro s code hs
    simp [BuildWin.tryRequire, h, hs]

theorem BuildWin.filesAfter_append {σ : Type} (scripts : String → σ → Outcome σ)
    (xs ys : List (String × (Message → String))) (files : σ) :
    BuildWin.filesAfter scripts (xs ++ ys) files
      = BuildWin.filesAfter scripts ys (BuildWin.filesAfter scripts xs files) := by
  simp [BuildWin.filesAfter, List.foldl_append]

/-- While every script lets the build go on, the steps require the scripts in
order, on the files the script before left, and log the lines of those that
threw. -/
theorem BuildWin.foldl_tryRequire_of_allGoOn {σ : Type} (scripts : String → σ → Outcome σ) :
    ∀ (steps : List (String × (Message → String))) (b : BuildWin.Build σ),
      b.exitCode = none → BuildWin.allGoOn scripts steps b.files = true →
      steps.foldl (fun b p => BuildWin.tryRequire scripts p.1 p.2 b) b
        = ⟨BuildWin.filesAfter scripts steps b.files, b.required ++ steps.map Prod.fst,
            b.logged ++ BuildWin.linesAfter scripts steps b.files, none⟩ := by
  intro steps
  induction steps with
  | nil =>
    intro b h _
    cases b with
    | mk files required logged exitCode =>
      simp only at h
      subst h
      simp [BuildWin.filesAfter, BuildWin.linesAfter]
  | cons p rest ih =>
    intro b h hall
    obtain ⟨script, onError⟩ := p
    simp only [BuildWin.allGoOn, Bool.and_eq_true] at hall
    rw [List.foldl_cons, BuildWin.tryRequire_of_goesOn scripts script onError b h hall.1,
      ih _ rfl hall.2]
    simp [BuildWin.filesAfter, BuildWin.linesAfter, List.append_assoc]

/-- The build after the steps `before`, all of which let it go on, and a step
whose script ends the process or throws `null` or `undefined`. -/
theorem BuildWin.foldl_tryRequire_of_stop {σ : Type} (scripts : String → σ → Outcome σ)
    (before after : List (String × (Message → String))) (script : String)
    (onError : Message → String) (files : σ)
    (hall : BuildWin.allGoOn scripts before files = true) :
    (∀ s, scripts script (BuildWin.filesAfter scripts before files)
        = Outcome.threw s Thrown.nullish →
      (before ++ (script, onError) :: after).foldl
          (fun b p => BuildWin.tryRequire scripts p.1 p.2 b) ⟨files, [], [], none⟩
        = ⟨s, before.map Prod.fst ++ [script], BuildWin.linesAfter scripts before files,
            some 1⟩) ∧
    (∀ s code, scripts script (BuildWin.filesAfter scripts before files)
        = Outcome.exited s code →
      (before ++ (script, onError) :: after).foldl
          (fun b p => BuildWin.tryRequire scripts p.1 p.2 b) ⟨files, [], [], none⟩
        = ⟨s, before.map Prod.fst ++ [script], BuildWin.linesAfter scripts before files,
            some code⟩) := by
  have hbefore := BuildWin.foldl_tryRequire_of_allGoOn scripts before ⟨files, [], [], none⟩
    rfl hall
  simp only [List.nil_append] at hbefore
  constructor
  · intro s hs
    rw [List.foldl_append, hbefore, List.foldl_cons,
      (BuildWin.tryRequire_of_stop scripts script onError _ rfl).1 s hs]
    exact foldl_tryRequire_of_exited scripts after _ 1 rfl
  · intro s code hs
    rw [List.foldl_append, hbefore, List.foldl_cons,
      (BuildWin.tryRequire_of_stop scripts script onError _ rfl).2 s code hs]
    exact foldl_tryRequire_of_exited scripts after _ code rfl

/-! ## Lemmas on the patch steps -/

theorem patch1_of_includes (code : Text) (h : includes code "c.app.whenReady()".toList = true) :
    ∃ a b, code = a ++ ("c.app.whenReady()".toList ++ b)
      ∧ WindowsImprovements.patch1 code
          = a ++ (WindowsImprovements.singleInstanceCode ++ ("c.app.whenReady()".toList ++ b)) := by
  obtain ⟨a, b, hs, hi⟩ := indexOf_of_includes code _ h
  refine ⟨a, b, hs, ?_⟩
  have hne : indexOf code "c.app.whenReady()".toList ≠ -1 := by rw [hi]; omega
  have htake : code.take a.length = a := by rw [hs, List.take_left]
  have hdrop : code.drop a.length = "c.app.whenReady()".toList ++ b := by rw [hs, List.drop_left]
  unfold WindowsImprovements.patch1
  simp only [hi, substring_zero, substringFrom_natCast, htake, hdrop]
  rw [if_neg (by omega), List.append_assoc]

theorem polish_fst_of_not_includes (st : UiPolish.PolishStep) (y : Text)
    (h : includes y st.anchor = false) : (UiPolish.polish st y).1 = y := by
  simp only [UiPolish.polish, h, Bool.false_eq_true, if_false]
  split_ifs <;> rfl

theorem polish_length (st : UiPolish.PolishStep) (y : Text)
    (hplain : plainReplacement st.replacement = true)
    (hlen : st.anchor.length < st.replacement.length) (h : includes y st.anchor = true) :
    y.length < (UiPolish.polish st y).1.length := by
  have := length_replace y st.anchor st.replacement h hplain
  simp only [UiPolish.polish, h, if_true]
  omega

theorem polish_length_le (st : UiPolish.PolishStep) (y : Text)
    (hplain : plainReplacement st.replacement = true)
    (hlen : st.anchor.length < st.replacement.length) :
    y.length ≤ (UiPolish.polish st y).1.length := by
  cases h : includes y st.anchor with
  | true => exact Nat.le_of_lt (polish_length st y hplain hlen h)
  | false => rw [polish_fst_of_not_includes st y h]

theorem foldl_polish_length_le (l : List UiPolish.PolishStep)
    (hl : ∀ st ∈ l, plainReplacement st.replacement = true
      ∧ st.anchor.length < st.replacement.length) :
    ∀ y : Text, y.length ≤ (l.foldl (fun buf st => (UiPolish.polish st buf).1) y).length := by
  induction l with
  | nil => intro y; exact Nat.le_refl _
  | cons st rest ih =>
    intro y
    rw [List.foldl_cons]
    have h1 := polish_length_le st y (hl st (List.mem_cons_self _ _)).1
      (hl st (List.mem_cons_self _ _)).2
    have h2 := ih (fun s hs => hl s (List.mem_cons_of_mem _ hs)) (UiPolish.polish st y).1
    omega

theorem foldl_polish_eq_iff (l : List UiPolish.PolishStep)
    (hl : ∀ st ∈ l, plainReplacement st.replacement = true
      ∧ st.anchor.length < st.replacement.length) :
    ∀ y : Text, l.foldl (fun buf st => (UiPolish.polish st buf).1) y = y
      ↔ ∀ st ∈ l, includes y st.anchor = false := by
  induction l with
  | nil => intro y; simp
  | cons st rest ih =>
    intro y
    have hst := hl st (List.mem_cons_self _ _)
    have hrest : ∀ s ∈ rest, plainReplacement s.replacement = true
        ∧ s.anchor.length < s.replacement.length :=
      fun s hs => hl s (List.mem_cons_of_mem _ hs)
    rw [List.foldl_cons]
    cases h : includes y st.anchor with
    | true =>
      have h1 := polish_length st y hst.1 hst.2 h
      have h2 := foldl_polish_length_le rest hrest (UiPolish.polish st y).1
      constructor
      · intro heq
        rw [heq] at h2
        omega
      · intro hall
        have := hall st (List.mem_cons_self _ _)
        rw [h] at this
        cases this
    | false =>
      rw [polish_fst_of_not_includes st y h, ih hrest y]
      constructor
      · intro hall s hs
        rcases List.mem_cons.mp hs with rfl | hs
        · exact h
        · exact hall s hs
      · intro hall s hs
        exact hall s (List.mem_cons_of_mem _ hs)

/-! ## Occurrences of an anchor before and after a replacement -/

theorem occurrences_pos_iff (pat : Text) (hp : pat ≠ []) :
    ∀ s : Text, 0 < occurrences pat s ↔ pat <:+: s := by
  intro s
  induction s with
  | nil => simp [occurrences, hp]
  | cons c rest ih =>
    rw [List.infix_cons_iff, ← ih, ← List.isPrefixOf_iff_prefix]
    simp only [occurrences]
    split_ifs with h
    · simp [h]
    · simp [h]

theorem occurrences_eq_zero_iff (pat : Text) (hp : pat ≠ []) (s : Text) :
    occurrences pat s = 0 ↔ includes s pat = false := by
  rw [includes_eq_false_iff, ← occurrences_pos_iff pat hp s]
  omega

theorem prefix_append_cases (pat u r : Text) (h : pat <+: u ++ r) : pat <+: u ∨ u <+: pat :=
  List.prefix_or_prefix_of_prefix h (List.prefix_append u r)

theorem occurrences_append_of_noStart (pat b : Text) :
    ∀ m : Text, noStart pat m = true → occurrences pat (m ++ b) = occurrences pat b := by
  intro m
  induction m with
  | nil => intro _; rfl
  | cons c rest ih =>
    intro h
    simp only [noStart, Bool.and_eq_true, Bool.not_eq_true'] at h
    obtain ⟨⟨h1, h2⟩, h3⟩ := h
    have hnot : pat.isPrefixOf (c :: (rest ++ b)) = false := by
      cases hx : pat.isPrefixOf (c :: (rest ++ b)) with
      | false => rfl
      | true =>
        have hx2 : pat <+: (c :: rest) ++ b := List.isPrefixOf_iff_prefix.mp hx
        rcases prefix_append_cases pat (c :: rest) b hx2 with hp | hp
        · rw [List.isPrefixOf_iff_prefix.mpr hp] at h1; cases h1
        · rw [List.isPrefixOf_iff_prefix.mpr hp] at h2; cases h2
    rw [List.cons_append]
    simp only [occurrences, hnot, ih h3]
    simp

theorem prefix_append_of_reachOK (pat old new b : Text) (h : reachOK pat old new = true)
    (c : Char) (a : Text) (hp : pat <+: (c :: a) ++ (new ++ b)) :
    pat <+: (c :: a) ++ (old ++ b) := by
  rcases prefix_append_cases pat (c :: a) (new ++ b) hp with hq | hq
  · exact hq.trans (List.prefix_append (c :: a) (old ++ b))
  · obtain ⟨t, ht⟩ := hq
    have ht2 : t <+: new ++ b := by
      rw [← ht] at hp
      exact (List.prefix_append_right_inj (c :: a)).mp hp
    have hlen : pat.length = (c :: a).length + t.length := by
      rw [← ht, List.length_append]
    have hdrop : pat.drop (c :: a).length = t := by rw [← ht, List.drop_left]
    by_cases hte : t = []
    · rw [hte, List.append_nil] at ht
      rw [← ht]
      exact List.prefix_append (c :: a) (old ++ b)
    · have htl : 0 < t.length := List.length_pos.mpr hte
      have hk := (List.all_eq_true.mp h) (c :: a).length (List.mem_range.mpr (by omega))
      rw [hdrop] at hk
      have hk0 : ((c :: a).length == 0) = false := by simp
      rw [hk0, Bool.false_or, Bool.or_eq_true] at hk
      have hold : t <+: old := by
        rcases hk with hk | hk
        · rw [Bool.and_eq_true, Bool.not_eq_true', Bool.not_eq_true'] at hk
          rcases prefix_append_cases t new b ht2 with hr | hr
          · rw [List.isPrefixOf_iff_prefix.mpr hr] at hk; exact absurd hk.1 (by simp)
          · rw [List.isPrefixOf_iff_prefix.mpr hr] at hk; exact absurd hk.2 (by simp)
        · exact List.isPrefixOf_iff_prefix.mp hk
      rw [← ht]
      exact (List.prefix_append_right_inj (c :: a)).mpr (hold.trans (List.prefix_append old b))

theorem occurrences_append_of_reachOK (pat old new b : Text) (h : reachOK pat old new = true) :
    ∀ a : Text, occurrences pat (a ++ (new ++ b)) + occurrences pat (old ++ b)
      ≤ occurrences pat (a ++ (old ++ b)) + occurrences pat (new ++ b) := by
  intro a
  induction a with
  | nil => simp [Nat.add_comm]
  | cons c rest ih =>
    have hmono : (if pat.isPrefixOf (c :: (rest ++ (new ++ b))) = true then 1 else 0)
        ≤ (if pat.isPrefixOf (c :: (rest ++ (old ++ b))) = true then 1 else 0) := by
      by_cases hx : pat.isPrefixOf (c :: (rest ++ (new ++ b))) = true
      · have hy : pat.isPrefixOf (c :: (rest ++ (old ++ b))) = true :=
          List.isPrefixOf_iff_prefix.mpr
            (prefix_append_of_reachOK pat old new b h c rest (List.isPrefixOf_iff_prefix.mp hx))
        simp [hx, hy]
      · simp [hx]
    rw [List.cons_append, List.cons_append]
    simp only [occurrences]
    omega

theorem occurrences_le_append_left (pat b : Text) :
    ∀ u : Text, occurrences pat b ≤ occurrences pat (u ++ b) := by
  intro u
  induction u with
  | nil => exact Nat.le_refl _
  | cons c rest ih =>
    rw [List.cons_append]
    simp only [occurrences]
    omega

theorem occurrences_self_append (pat b : Text) (hp : pat ≠ []) :
    occurrences pat b + 1 ≤ occurrences pat (pat ++ b) := by
  cases pat with
  | nil => exact absurd rfl hp
  | cons c rest =>
    have h1 : (c :: rest).isPrefixOf (c :: (rest ++ b)) = true :=
      List.isPrefixOf_iff_prefix.mpr (List.prefix_append (c :: rest) b)
    have h2 := occurrences_le_append_left (c :: rest) b rest
    rw [List.cons_append]
    simp only [occurrences, h1, if_true]
    omega


theorem occurrences_polish_le (st : UiPolish.PolishStep) (y p : Text)
    (hplain : plainReplacement st.replacement = true)
    (hr : reachOK p st.anchor st.replacement = true) (hs : noStart p st.replacement = true) :
    occurrences p (UiPolish.polish st y).1 ≤ occurrences p y := by
  cases h : includes y st.anchor with
  | false => rw [polish_fst_of_not_includes st y h]
  | true =>
    obtain ⟨a, b, hy, hrep⟩ := replace_of_includes y st.anchor st.replacement h hplain
    have e : (UiPolish.polish st y).1 = a ++ (st.replacement ++ b) := by
      simp only [UiPolish.polish, h, if_true]; exact hrep
    have h1 := occurrences_append_of_reachOK p st.anchor st.replacement b hr a
    have h2 := occurrences_le_append_left p b st.anchor
    rw [occurrences_append_of_noStart p b _ hs] at h1
    rw [e, hy]
    omega

theorem occurrences_polish_anchor (st : UiPolish.PolishStep) (y : Text)
    (hplain : plainReplacement st.replacement = true) (hne : st.anchor ≠ [])
    (hr : reachOK st.anchor st.anchor st.replacement = true)
    (hs : noStart st.anchor st.replacement = true)
    (hle : occurrences st.anchor y ≤ 1) :
    occurrences st.anchor (UiPolish.polish st y).1 = 0 := by
  cases h : includes y st.anchor with
  | false =>
    rw [polish_fst_of_not_includes st y h]
    exact (occurrences_eq_zero_iff st.anchor hne y).mpr h
  | true =>
    obtain ⟨a, b, hy, hrep⟩ := replace_of_includes y st.anchor st.replacement h hplain
    have e : (UiPolish.polish st y).1 = a ++ (st.replacement ++ b) := by
      simp only [UiPolish.polish, h, if_true]; exact hrep
    have h1 := occurrences_append_of_reachOK st.anchor st.anchor st.replacement b hr a
    have h2 := occurrences_self_append st.anchor b hne
    rw [occurrences_append_of_noStart st.anchor b _ hs] at h1
    rw [hy] at hle
    rw [e]
    omega

theorem occurrences_foldl_polish_le (big : List UiPolish.PolishStep) (hbig : Separated big)
    (p : UiPolish.PolishStep) (hp : p ∈ big) :
    ∀ l : List UiPolish.PolishStep, (∀ st ∈ l, st ∈ big) → ∀ y : Text,
      occurrences p.anchor (l.foldl (fun buf st => (UiPolish.polish st buf).1) y)
        ≤ occurrences p.anchor y := by
  intro l
  induction l with
  | nil => intro _ y; exact Nat.le_refl _
  | cons st rest ih =>
    intro hsub y
    have hst := hbig st (hsub st (List.mem_cons_self _ _))
    have h1 := occurrences_polish_le st y p.anchor hst.1 (hst.2.2 p hp).1 (hst.2.2 p hp).2
    have h2 := ih (fun s hs => hsub s (List.mem_cons_of_mem _ hs)) (UiPolish.polish st y).1
    rw [List.foldl_cons]
    omega

theorem occurrences_foldl_polish_eq_zero (big : List UiPolish.PolishStep) (hbig : Separated big) :
    ∀ l : List UiPolish.PolishStep, (∀ st ∈ l, st ∈ big) → ∀ y : Text,
      (∀ st ∈ l, occurrences st.anchor y ≤ 1) →
      ∀ st ∈ l, occurrences st.anchor (l.foldl (fun buf st => (UiPolish.polish st buf).1) y) = 0 := by
  intro l
  induction l with
  | nil => intro _ _ _ st hst; cases hst
  | cons s rest ih =>
    intro hsub y hy st hst
    have hs := hbig s (hsub s (List.mem_cons_self _ _))
    have hsubr : ∀ t ∈ rest, t ∈ big := fun t ht => hsub t (List.mem_cons_of_mem _ ht)
    have hzero : occurrences s.anchor (UiPolish.polish s y).1 = 0 :=
      occurrences_polish_anchor s y hs.1 hs.2.1
        (hs.2.2 s (hsub s (List.mem_cons_self _ _))).1
        (hs.2.2 s (hsub s (List.mem_cons_self _ _))).2 (hy s (List.mem_cons_self _ _))
    have hy2 : ∀ t ∈ rest, occurrences t.anchor (UiPolish.polish s y).1 ≤ 1 := by
      intro t ht
      have := occurrences_polish_le s y t.anchor hs.1 (hs.2.2 t (hsubr t ht)).1
        (hs.2.2 t (hsubr t ht)).2
      have := hy t (List.mem_cons_of_mem _ ht)
      omega
    rw [List.foldl_cons]
    rcases List.mem_cons.mp hst with rfl | hst
    · have := occurrences_foldl_polish_le big hbig st (hsub st (List.mem_cons_self _ _)) rest hsubr
        (UiPolish.polish st y).1
      omega
    · exact ih hsubr _ hy2 st hst

set_option maxRecDepth 1000000 in
theorem separated_rendererSteps : Separated UiPolish.rendererSteps := by
  unfold Separated
  decide!

/-! ## Lemmas on PATCH 3 of `patch-path-normalization.js` -/

set_option maxRecDepth 1000000 in
theorem patch3_of_includes (code : Text) (h : includes code PathNormalization.oldLoadMap = true) :
    ∃ f pos : Nat, f < pos ∧ pos ≤ code.length
      ∧ code.drop (f - 8) = "fileMap:\x7b".toList ++ code.drop (f + 1)
      ∧ braceScan code (f + 1) = (pos, (braceScan code (f + 1)).2)
      ∧ PathNormalization.patch3 code
        = code.take f ++ ("__normFileMap(".toList ++ (code.drop f).take (pos - f) ++ ")".toList)
            ++ code.drop pos := by
  obtain ⟨a, b, hs, hi⟩ := indexOf_of_includes code _ h
  -- the `return` of the handler is found at or after `loadIdx`
  have hin1 : "return\x7bsuccess:!0,fileMap:\x7b".toList <:+: code.drop a.length := by
    rw [hs, List.drop_left]
    have : "return\x7bsuccess:!0,fileMap:\x7b".toList <:+: PathNormalization.oldLoadMap :=
      (includes_eq_true_iff _ _).mp (by decide!)
    exact this.trans (List.infix_append' [] _ b)
  have hal : a.length ≤ code.length := by rw [hs]; simp
  obtain ⟨j, hj, hjp, hjl⟩ := indexOfAux_of_infix _ _ a.length hin1
  have hret : indexOfFrom code "return\x7bsuccess:!0,fileMap:\x7b".toList (a.length : Int)
      = ((a.length + j : Nat) : Int) := by
    simp only [indexOfFrom, Int.toNat_ofNat, Nat.min_eq_left hal]; exact hj
  rw [List.drop_drop, List.length_drop] at *
  -- `fileMap:{` is found at or after `retStart`
  have hin2 : "fileMap:\x7b".toList <:+: code.drop (a.length + j) := by
    obtain ⟨t, ht⟩ := hjp
    rw [← ht]
    have : "fileMap:\x7b".toList <:+: "return\x7bsuccess:!0,fileMap:\x7b".toList :=
      (includes_eq_true_iff _ _).mp (by decide!)
    exact this.trans (List.infix_append' [] _ t)
  have hrl : a.length + j ≤ code.length := by omega
  obtain ⟨i, hi2, hip, hil⟩ := indexOfAux_of_infix _ _ (a.length + j) hin2
  have hfm : indexOfFrom code "fileMap:\x7b".toList ((a.length + j : Nat) : Int)
      = ((a.length + j + i : Nat) : Int) := by
    simp only [indexOfFrom, Int.toNat_ofNat, Nat.min_eq_left hrl]; exact hi2
  rw [List.drop_drop, List.length_drop] at *
  have h9 : "fileMap:\x7b".toList.length = 9 := by decide
  rw [h9] at hil
  obtain ⟨hp1, hp2⟩ := scanLoop_fst_bounds '{' '}' (code.drop (a.length + j + i + 8 + 1))
    (a.length + j + i + 8 + 1) 1
  rw [List.length_drop] at hp2
  refine ⟨a.length + j + i + 8, (braceScan code (a.length + j + i + 8 + 1)).1, ?_, ?_, ?_, rfl, ?_⟩
  · unfold braceScan; omega
  · unfold braceScan; omega
  · obtain ⟨t, ht⟩ := hip
    have e1 : a.length + j + i + 8 - 8 = a.length + j + i := by omega
    have e2 : a.length + j + i + 8 + 1 = a.length + j + i + 9 := by omega
    have hd : (code.drop (a.length + j + i)).drop "fileMap:\x7b".toList.length = t := by
      rw [← ht, List.drop_left]
    rw [List.drop_drop, h9] at hd
    rw [e1, e2, hd, ht]
  · have hne : ((a.length + j : Nat) : Int) ≠ -1 := by omega
    have hcast : ((a.length + j + i : Nat) : Int) + 8 = ((a.length + j + i + 8 : Nat) : Int) := by
      omega
    have hcast1 : ((a.length + j + i + 8 : Nat) : Int) + 1
        = ((a.length + j + i + 8 + 1 : Nat) : Int) := by omega
    have hpos : a.length + j + i + 8 ≤ (braceScan code (a.length + j + i + 8 + 1)).1 := by
      unfold braceScan; omega
    have hposl : (braceScan code (a.length + j + i + 8 + 1)).1 ≤ code.length := by
      unfold braceScan; omega
    unfold PathNormalization.patch3
    simp only [h, if_true, hi, hret, hne, ne_eq, not_false_eq_true, hfm, hcast, hcast1,
      Int.toNat_ofNat, substring_zero, substringFrom_natCast, substring_natCast _ _ _ hpos hposl]

/-! ## Lemmas on the bisection loop -/

theorem FindBrokenPatch.applied_append {σ : Type} (scripts : String → σ → Outcome σ)
    (xs ys : List (String × String)) (file : σ) :
    FindBrokenPatch.applied scripts (xs ++ ys) file
      = (FindBrokenPatch.applied scripts xs file).bind (FindBrokenPatch.applied scripts ys) := by
  induction xs generalizing file with
  | nil => rfl
  | cons x xs ih =>
    obtain ⟨script, label⟩ := x
    simp only [List.cons_append, FindBrokenPatch.applied]
    cases scripts script file with
    | returned s => exact ih s
    | threw s m => exact ih s
    | exited s code => rfl

/-- The state after one script when it does not end the process. -/
theorem FindBrokenPatch.applied_singleton {σ : Type} (scripts : String → σ → Outcome σ)
    (script label : String) (file st : σ)
    (h : FindBrokenPatch.applied scripts [(script, label)] file = some st) :
    (∀ rest, FindBrokenPatch.applied scripts ((script, label) :: rest) file
      = FindBrokenPatch.applied scripts rest st) ∧
    ∀ (load : σ → FindBrokenPatch.Load) rest (b : FindBrokenPatch.Bisection σ), b.file = file →
      FindBrokenPatch.loop scripts load ((script, label) :: rest) b
        = match FindBrokenPatch.check load st with
          | some true =>
            FindBrokenPatch.loop scripts load rest ⟨st, b.attempted ++ [script], none, none⟩
          | some false => ⟨st, b.attempted ++ [script], some script, none⟩
          | none => ⟨st, b.attempted ++ [script], none, some 1⟩ := by
  simp only [FindBrokenPatch.applied] at h
  cases ho : scripts script file with
  | returned s =>
    rw [ho] at h
    obtain rfl : s = st := by simpa using h
    refine ⟨fun rest => by simp only [FindBrokenPatch.applied, ho], fun load rest b hb => ?_⟩
    subst hb
    simp only [FindBrokenPatch.loop, ho]
  | threw s m =>
    rw [ho] at h
    obtain rfl : s = st := by simpa using h
    refine ⟨fun rest => by simp only [FindBrokenPatch.applied, ho], fun load rest b hb => ?_⟩
    subst hb
    simp only [FindBrokenPatch.loop, ho]
  | exited s code =>
    rw [ho] at h
    exact absurd h (by simp)

/-- A script that ends the process ends the loop without a marker. -/
theorem FindBrokenPatch.loop_of_exit {σ : Type} (scripts : String → σ → Outcome σ)
    (load : σ → FindBrokenPatch.Load) (script label : String) (file : σ)
    (rest : List (String × String)) (attempted : List String)
    (h : FindBrokenPatch.applied scripts [(script, label)] file = none) :
    (FindBrokenPatch.loop scripts load ((script, label) :: rest)
        ⟨file, attempted, none, none⟩).brokenBy = none ∧
    (FindBrokenPatch.loop scripts load ((script, label) :: rest)
        ⟨file, attempted, none, none⟩).exitCode ≠ none ∧
    ∀ more, FindBrokenPatch.applied scripts ((script, label) :: more) file = none := by
  simp only [FindBrokenPatch.applied] at h
  cases ho : scripts script file with
  | returned s => rw [ho] at h; exact absurd h (by simp)
  | threw s m => rw [ho] at h; exact absurd h (by simp)
  | exited s code =>
    simp only [FindBrokenPatch.loop, FindBrokenPatch.applied, ho]
    simp

/-- While every check passes, the loop walks on. -/
theorem FindBrokenPatch.loop_append_of_checks {σ : Type} (scripts : String → σ → Outcome σ)
    (load : σ → FindBrokenPatch.Load)
    (before rest : List (String × String)) (file : σ) (attempted : List String)
    (hok : ∀ k, 0 < k → k ≤ before.length →
      ∃ st, FindBrokenPatch.applied scripts (before.take k) file = some st ∧
        FindBrokenPatch.check load st = some true) :
    ∃ st, FindBrokenPatch.applied scripts before file = some st ∧
      FindBrokenPatch.loop scripts load (before ++ rest) ⟨file, attempted, none, none⟩
        = FindBrokenPatch.loop scripts load rest
            ⟨st, attempted ++ before.map Prod.fst, none, none⟩ := by
  induction before generalizing file attempted with
  | nil => exact ⟨file, rfl, by simp⟩
  | cons x xs ih =>
    obtain ⟨script, label⟩ := x
    obtain ⟨st1, h1, hc1⟩ := hok 1 (by decide) (by simp)
    simp only [List.take_succ_cons, List.take_zero] at h1
    obtain ⟨happ, hloop⟩ := FindBrokenPatch.applied_singleton scripts script label file st1 h1
    obtain ⟨st, hst, hrest⟩ := ih st1 (attempted ++ [script]) (by
      intro k hk hle
      obtain ⟨st2, h2, hc2⟩ := hok (k + 1) (Nat.succ_pos k) (by simpa using hle)
      rw [List.take_succ_cons, happ] at h2
      exact ⟨st2, h2, hc2⟩)
    refine ⟨st, by rw [happ]; exact hst, ?_⟩
    rw [List.cons_append, hloop load _ _ rfl, hc1]
    simp only
    rw [hrest]
    simp [List.append_assoc]

/-- The ways the loop can end: every check after a script passed and no marker
is printed; the marker names the script after which the first check failed; or
the process ended before any check failed, because a script ended it or
because the check after a script threw. -/
theorem FindBrokenPatch.loop_cases {σ : Type} (scripts : String → σ → Outcome σ)
    (load : σ → FindBrokenPatch.Load)
    (patches : List (String × String)) (file : σ) (attempted : List String) :
    ((∀ k, 0 < k → k ≤ patches.length →
        ∃ st, FindBrokenPatch.applied scripts (patches.take k) file = some st ∧
          FindBrokenPatch.check load st = some true) ∧
      (FindBrokenPatch.loop scripts load patches ⟨file, attempted, none, none⟩).brokenBy = none ∧
      (FindBrokenPatch.loop scripts load patches ⟨file, attempted, none, none⟩).exitCode = none)
    ∨ (∃ before script label rest st, patches = before ++ (script, label) :: rest ∧
        (∀ k, 0 < k → k ≤ before.length →
          ∃ st1, FindBrokenPatch.applied scripts (before.take k) file = some st1 ∧
            FindBrokenPatch.check load st1 = some true) ∧
        FindBrokenPatch.applied scripts (before ++ [(script, label)]) file = some st ∧
        FindBrokenPatch.check load st = some false ∧
        (FindBrokenPatch.loop scripts load patches ⟨file, attempted, none, none⟩).brokenBy
          = some script)
    ∨ (∃ before script label rest, patches = before ++ (script, label) :: rest ∧
        (FindBrokenPatch.applied scripts (before ++ [(script, label)]) file = none ∨
          ∃ st, FindBrokenPatch.applied scripts (before ++ [(script, label)]) file = some st ∧
            FindBrokenPatch.check load st = none) ∧
        (FindBrokenPatch.loop scripts load patches ⟨file, attempted, none, none⟩).brokenBy
          = none ∧
        (FindBrokenPatch.loop scripts load patches ⟨file, attempted, none, none⟩).exitCode
          ≠ none) := by
  induction patches generalizing file attempted with
  | nil =>
    left
    refine ⟨?_, rfl, rfl⟩
    intro k hk hle
    simp at hle
    omega
  | cons x xs ih =>
    obtain ⟨script, label⟩ := x
    cases h1 : FindBrokenPatch.applied scripts [(script, label)] file with
    | none =>
      obtain ⟨hb, he, hmore⟩ :=
        FindBrokenPatch.loop_of_exit scripts load script label file xs attempted h1
      right; right
      exact ⟨[], script, label, xs, rfl, Or.inl h1, hb, he⟩
    | some st1 =>
      obtain ⟨happ, hloop⟩ := FindBrokenPatch.applied_singleton scripts script label file st1 h1
      rw [hloop load xs _ rfl]
      cases hc : FindBrokenPatch.check load st1 with
      | none =>
        right; right
        exact ⟨[], script, label, xs, rfl, Or.inr ⟨st1, h1, hc⟩, rfl, by simp⟩
      | some passed =>
        cases passed with
        | true =>
          simp only
          have hstep : ∀ (ys : List (String × String)) (P : Option σ → Prop),
              (∀ k, 0 < k → k ≤ ys.length →
                P (FindBrokenPatch.applied scripts (ys.take k) st1)) →
              P (some st1) →
              ∀ k, 0 < k → k ≤ ((script, label) :: ys).length →
                P (FindBrokenPatch.applied scripts (((script, label) :: ys).take k) file) := by
            intro ys P hall h0 k hk hle
            obtain ⟨j, rfl⟩ : ∃ j, k = j + 1 := ⟨k - 1, by omega⟩
            rw [List.take_succ_cons, happ]
            by_cases hj : j = 0
            · subst hj
              simpa [FindBrokenPatch.applied] using h0
            · exact hall j (Nat.pos_of_ne_zero hj) (by simpa using hle)
          rcases ih st1 (attempted ++ [script]) with ⟨hall, hnone, hexit⟩ | hex | hex
          · left
            exact ⟨hstep xs
              (fun o => ∃ st, o = some st ∧ FindBrokenPatch.check load st = some true)
              hall ⟨st1, rfl, hc⟩, hnone, hexit⟩
          · right; left
            obtain ⟨before, s, l, rest, st, hsplit, hpre, hbad, hcb, hres⟩ := hex
            refine ⟨(script, label) :: before, s, l, rest, st, by simp [hsplit], ?_, ?_, hcb,
              hres⟩
            · exact hstep before
                (fun o => ∃ st, o = some st ∧ FindBrokenPatch.check load st = some true)
                hpre ⟨st1, rfl, hc⟩
            · rw [List.cons_append, happ]
              exact hbad
          · right; right
            obtain ⟨before, s, l, rest, hsplit, hbad, hres, hexit⟩ := hex
            refine ⟨(script, label) :: before, s, l, rest, by simp [hsplit], ?_, hres, hexit⟩
            rw [List.cons_append, happ]
            exact hbad
        | false =>
          right; left
          refine ⟨[], script, label, xs, st1, rfl, ?_, h1, hc, rfl⟩
          intro k hk hle
          simp at hle
          omega

/-- With a fresh check that returns, the script is the loop from the pristine
artifact. -/
theorem FindBrokenPatch.run_of_fresh {σ : Type} (scripts : String → σ → Outcome σ)
    (load : σ → FindBrokenPatch.Load) (patches : List (String × String)) (pristine : σ)
    (h : FindBrokenPatch.check load pristine ≠ none) :
    FindBrokenPatch.run scripts load patches pristine
      = FindBrokenPatch.loop scripts load patches ⟨pristine, [], none, none⟩ := by
  unfold FindBrokenPatch.run
  cases hc : FindBrokenPatch.check load pristine with
  | none => exact absurd hc h
  | some passed => rfl

/-! ## Lemmas on step 1a of `patch-rebrand.js` -/

theorem Rebrand.userDataOld_prefix_cons (c : Char) (rest : Text) :
    Rebrand.userDataOld.isPrefixOf (c :: rest)
      = ('r' == c && ['o', 'r', 'o', '-', 'd', 'e', 'v'].isPrefixOf rest) := by
  have h : Rebrand.userDataOld = ['r', 'o', 'r', 'o', '-', 'd', 'e', 'v'] := by decide
  rw [h]
  rfl

theorem Rebrand.scan_of_not_prefix (str : Text) (c : Char) (rest : Text) (position : Nat)
    (h : Rebrand.userDataOld.isPrefixOf (c :: rest) = false) :
    replaceAllAux Rebrand.userDataOld Rebrand.userDataNew str (c :: rest) position 0
      = c :: replaceAllAux Rebrand.userDataOld Rebrand.userDataNew str rest (position + 1) 0 := by
  simp [replaceAllAux, h]

theorem Rebrand.scan_of_prefix (str : Text) (c : Char) (rest : Text) (position : Nat)
    (h : Rebrand.userDataOld.isPrefixOf (c :: rest) = true) :
    replaceAllAux Rebrand.userDataOld Rebrand.userDataNew str (c :: rest) position 0
      = ['e', 'v', 'e', 'r', 'o', '-', 'd', 'e', 'v']
          ++ replaceAllAux Rebrand.userDataOld Rebrand.userDataNew str rest (position + 1) 7 := by
  have hplain : plainReplacement Rebrand.userDataNew = true := by decide
  have hnew : Rebrand.userDataNew = ['e', 'v', 'e', 'r', 'o', '-', 'd', 'e', 'v'] := by decide
  have hlen : Rebrand.userDataOld.length - 1 = 7 := by decide
  simp only [replaceAllAux, h, if_true, getSubstitution_of_plain _ _ _ _ hplain, hlen]
  rw [hnew]

theorem Rebrand.eq_append_of_prefix (s : Text)
    (h : Rebrand.userDataOld.isPrefixOf s = true) :
    ∃ tail, s = ['r', 'o', 'r', 'o', '-', 'd', 'e', 'v'] ++ tail := by
  have hold : Rebrand.userDataOld = ['r', 'o', 'r', 'o', '-', 'd', 'e', 'v'] := by decide
  obtain ⟨tail, ht⟩ := List.isPrefixOf_iff_prefix.mp h
  exact ⟨tail, by rw [← ht, hold]⟩

theorem Rebrand.prefix7 (str s : Text) (position : Nat) :
    ['v'].isPrefixOf
        (replaceAllAux Rebrand.userDataOld Rebrand.userDataNew str s position 0)
      = ['v'].isPrefixOf s := by
  cases s with
  | nil => simp [replaceAllAux, Rebrand.userDataOld]
  | cons c rest =>
    cases h : Rebrand.userDataOld.isPrefixOf (c :: rest) with
    | false =>
      rw [Rebrand.scan_of_not_prefix str c rest position h]
      rw [Rebrand.userDataOld_prefix_cons] at h
      by_cases hc : c = 'r'
      · subst hc
        simp only [beq_self_eq_true, Bool.true_and] at h
        simp [List.isPrefixOf, h]
      · have hc2 : ¬ 'r' = c := fun e => hc e.symm
        simp [List.isPrefixOf, hc, hc2, Bool.and_or_distrib_left]
    | true =>
      rw [Rebrand.scan_of_prefix str c rest position h]
      obtain ⟨tail, ht⟩ := Rebrand.eq_append_of_prefix (c :: rest) h
      simp only [List.cons_append, List.nil_append, List.cons.injEq] at ht
      obtain ⟨rfl, rfl⟩ := ht
      simp [List.isPrefixOf, Rebrand.userDataOld]

theorem Rebrand.prefix6 (str s : Text) (position : Nat) :
    ['e', 'v'].isPrefixOf
        (replaceAllAux Rebrand.userDataOld Rebrand.userDataNew str s position 0)
      = (['e', 'v'].isPrefixOf s || ['r', 'o', 'r', 'o', '-', 'd', 'e', 'v'].isPrefixOf s) := by
  cases s with
  | nil => simp [replaceAllAux, Rebrand.userDataOld]
  | cons c rest =>
    cases h : Rebrand.userDataOld.isPrefixOf (c :: rest) with
    | false =>
      rw [Rebrand.scan_of_not_prefix str c rest position h]
      rw [Rebrand.userDataOld_prefix_cons] at h
      by_cases hc : c = 'r'
      · subst hc
        simp only [beq_self_eq_true, Bool.true_and] at h
        simp [List.isPrefixOf, Rebrand.prefix7, h]
      · have hc2 : ¬ 'r' = c := fun e => hc e.symm
        simp [List.isPrefixOf, Rebrand.prefix7, hc, hc2, Bool.and_or_distrib_left]
    | true =>
      rw [Rebrand.scan_of_prefix str c rest position h]
      obtain ⟨tail, ht⟩ := Rebrand.eq_append_of_prefix (c :: rest) h
      simp only [List.cons_append, List.nil_append, List.cons.injEq] at ht
      obtain ⟨rfl, rfl⟩ := ht
      simp [List.isPrefixOf, Rebrand.userDataOld]

theorem Rebrand.prefix5 (str s : Text) (position : Nat) :
    ['d', 'e', 'v'].isPrefixOf
        (replaceAllAux Rebrand.userDataOld Rebrand.userDataNew str s position 0)
      = (['d', 'e', 'v'].isPrefixOf s
          || ['d', 'r', 'o', 'r', 'o', '-', 'd', 'e', 'v'].isPrefixOf s) := by
  cases s with
  | nil => simp [replaceAllAux, Rebrand.userDataOld]
  | cons c rest =>
    cases h : Rebrand.userDataOld.isPrefixOf (c :: rest) with
    | false =>
      rw [Rebrand.scan_of_not_prefix str c rest position h]
      rw [Rebrand.userDataOld_prefix_cons] at h
      by_cases hc : c = 'r'
      · subst hc
        simp only [beq_self_eq_true, Bool.true_and] at h
        simp [List.isPrefixOf, Rebrand.prefix6, h]
      · have hc2 : ¬ 'r' = c := fun e => hc e.symm
        simp [List.isPrefixOf, Rebrand.prefix6, hc, hc2, Bool.and_or_distrib_left]
    | true =>
      rw [Rebrand.scan_of_prefix str c rest position h]
      obtain ⟨tail, ht⟩ := Rebrand.eq_append_of_prefix (c :: rest) h
      simp only [List.cons_append, List.nil_append, List.cons.injEq] at ht
      obtain ⟨rfl, rfl⟩ := ht
      simp [List.isPrefixOf, Rebrand.userDataOld]

theorem Rebrand.prefix4 (str s : Text) (position : Nat) :
    ['-', 'd', 'e', 'v'].isPrefixOf
        (replaceAllAux Rebrand.userDataOld Rebrand.userDataNew str s position 0)
      = (['-', 'd', 'e', 'v'].isPrefixOf s
          || ['-', 'd', 'r', 'o', 'r', 'o', '-', 'd', 'e', 'v'].isPrefixOf s) := by
  cases s with
  | nil => simp [replaceAllAux, Rebrand.userDataOld]
  | cons c rest =>
    cases h : Rebrand.userDataOld.isPrefixOf (c :: rest) with
    | false =>
      rw [Rebrand.scan_of_not_prefix str c rest position h]
      rw [Rebrand.userDataOld_prefix_cons] at h
      by_cases hc : c = 'r'
      · subst hc
        simp only [beq_self_eq_true, Bool.true_and] at h
        simp [List.isPrefixOf, Rebrand.prefix5, h]
      · have hc2 : ¬ 'r' = c := fun e => hc e.symm
        simp [List.isPrefixOf, Rebrand.prefix5, hc, hc2, Bool.and_or_distrib_left]
    | true =>
      rw [Rebrand.scan_of_prefix str c rest position h]
      obtain ⟨tail, ht⟩ := Rebrand.eq_append_of_prefix (c :: rest) h
      simp only [List.cons_append, List.nil_append, List.cons.injEq] at ht
      obtain ⟨rfl, rfl⟩ := ht
      simp [List.isPrefixOf, Rebrand.userDataOld]

theorem Rebrand.prefix3 (str s : Text) (position : Nat) :
    ['o', '-', 'd', 'e', 'v'].isPrefixOf
        (replaceAllAux Rebrand.userDataOld Rebrand.userDataNew str s position 0)
      = (['o', '-', 'd', 'e', 'v'].isPrefixOf s
          || ['o', '-', 'd', 'r', 'o', 'r', 'o', '-', 'd', 'e', 'v'].isPrefixOf s) := by
  cases s with
  | nil => simp [replaceAllAux, Rebrand.userDataOld]
  | cons c rest =>
    cases h : Rebrand.userDataOld.isPrefixOf (c :: rest) with
    | false =>
      rw [Rebrand.scan_of_not_prefix str c rest position h]
      rw [Rebrand.userDataOld_prefix_cons] at h
      by_cases hc : c = 'r'
      · subst hc
        simp only [beq_self_eq_true, Bool.true_and] at h
        simp [List.isPrefixOf, Rebrand.prefix4, h]
      · have hc2 : ¬ 'r' = c := fun e => hc e.symm
        simp [List.isPrefixOf, Rebrand.prefix4, hc, hc2, Bool.and_or_distrib_left]
    | true =>
      rw [Rebrand.scan_of_prefix str c rest position h]
      obtain ⟨tail, ht⟩ := Rebrand.eq_append_of_prefix (c :: rest) h
      simp only [List.cons_append, List.nil_append, List.cons.injEq] at ht
      obtain ⟨rfl, rfl⟩ := ht
      simp [List.isPrefixOf, Rebrand.userDataOld]

theorem Rebrand.prefix2 (str s : Text) (position : Nat) :
    ['r', 'o', '-', 'd', 'e', 'v'].isPrefixOf
        (replaceAllAux Rebrand.userDataOld Rebrand.userDataNew str s position 0)
      = (['r', 'o', '-', 'd', 'e', 'v'].isPrefixOf s
          || ['r', 'o', '-', 'd', 'r', 'o', 'r', 'o', '-', 'd', 'e', 'v'].isPrefixOf s) := by
  cases s with
  | nil => simp [replaceAllAux, Rebrand.userDataOld]
  | cons c rest =>
    cases h : Rebrand.userDataOld.isPrefixOf (c :: rest) with
    | false =>
      rw [Rebrand.scan_of_not_prefix str c rest position h]
      rw [Rebrand.userDataOld_prefix_cons] at h
      by_cases hc : c = 'r'
      · subst hc
        simp only [beq_self_eq_true, Bool.true_and] at h
        simp [List.isPrefixOf, Rebrand.prefix3, h]
      · have hc2 : ¬ 'r' = c := fun e => hc e.symm
        simp [List.isPrefixOf, Rebrand.prefix3, hc, hc2, Bool.and_or_distrib_left]
    | true =>
      rw [Rebrand.scan_of_prefix str c rest position h]
      obtain ⟨tail, ht⟩ := Rebrand.eq_append_of_prefix (c :: rest) h
      simp only [List.cons_append, List.nil_append, List.cons.injEq] at ht
      obtain ⟨rfl, rfl⟩ := ht
      simp [List.isPrefixOf, Rebrand.userDataOld]

theorem Rebrand.prefix1 (str s : Text) (position : Nat) :
    ['o', 'r', 'o', '-', 'd', 'e', 'v'].isPrefixOf
        (replaceAllAux Rebrand.userDataOld Rebrand.userDataNew str s position 0)
      = (['o', 'r', 'o', '-', 'd', 'e', 'v'].isPrefixOf s
          || ['o', 'r', 'o', '-', 'd', 'r', 'o', 'r', 'o', '-', 'd', 'e', 'v'].isPrefixOf s) := by
  cases s with
  | nil => simp [replaceAllAux, Rebrand.userDataOld]
  | cons c rest =>
    cases h : Rebrand.userDataOld.isPrefixOf (c :: rest) with
    | false =>
      rw [Rebrand.scan_of_not_prefix str c rest position h]
      rw [Rebrand.userDataOld_prefix_cons] at h
      by_cases hc : c = 'r'
      · subst hc
        simp only [beq_self_eq_true, Bool.true_and] at h
        simp [List.isPrefixOf, Rebrand.prefix2, h]
      · have hc2 : ¬ 'r' = c := fun e => hc e.symm
        simp [List.isPrefixOf, Rebrand.prefix2, hc, hc2, Bool.and_or_distrib_left]
    | true =>
      rw [Rebrand.scan_of_prefix str c rest position h]
      obtain ⟨tail, ht⟩ := Rebrand.eq_append_of_prefix (c :: rest) h
      simp only [List.cons_append, List.nil_append, List.cons.injEq] at ht
      obtain ⟨rfl, rfl⟩ := ht
      simp [List.isPrefixOf, Rebrand.userDataOld]

theorem Rebrand.prefix0 (str s : Text) (position : Nat) :
    ['r', 'o', 'r', 'o', '-', 'd', 'e', 'v'].isPrefixOf
        (replaceAllAux Rebrand.userDataOld Rebrand.userDataNew str s position 0)
      = ['r', 'o', 'r', 'o', '-', 'd', 'r', 'o', 'r', 'o', '-', 'd', 'e', 'v'].isPrefixOf s := by
  cases s with
  | nil => simp [replaceAllAux, Rebrand.userDataOld]
  | cons c rest =>
    cases h : Rebrand.userDataOld.isPrefixOf (c :: rest) with
    | false =>
      rw [Rebrand.scan_of_not_prefix str c rest position h]
      rw [Rebrand.userDataOld_prefix_cons] at h
      by_cases hc : c = 'r'
      · subst hc
        simp only [beq_self_eq_true, Bool.true_and] at h
        simp [List.isPrefixOf, Rebrand.prefix1, h]
      · have hc2 : ¬ 'r' = c := fun e => hc e.symm
        simp [List.isPrefixOf, Rebrand.prefix1, hc, hc2, Bool.and_or_distrib_left]
    | true =>
      rw [Rebrand.scan_of_prefix str c rest position h]
      obtain ⟨tail, ht⟩ := Rebrand.eq_append_of_prefix (c :: rest) h
      simp only [List.cons_append, List.nil_append, List.cons.injEq] at ht
      obtain ⟨rfl, rfl⟩ := ht
      simp [List.isPrefixOf, Rebrand.userDataOld]

theorem Rebrand.occurrences_scan (str : Text) :
    ∀ (s : Text) (position skip : Nat),
      occurrences Rebrand.userDataOld
          (replaceAllAux Rebrand.userDataOld Rebrand.userDataNew str s position skip)
        = occurrences ("roro-d".toList ++ Rebrand.userDataOld) (s.drop skip) := by
  have hold : Rebrand.userDataOld = ['r', 'o', 'r', 'o', '-', 'd', 'e', 'v'] := by decide
  have hlong : "roro-d".toList ++ Rebrand.userDataOld
      = ['r', 'o', 'r', 'o', '-', 'd', 'r', 'o', 'r', 'o', '-', 'd', 'e', 'v'] := by decide
  intro s
  induction s with
  | nil => intro position skip; simp [replaceAllAux, occurrences]
  | cons c rest ih =>
    intro position skip
    cases skip with
    | succ j => simpa [replaceAllAux] using ih (position + 1) j
    | zero =>
      cases h : Rebrand.userDataOld.isPrefixOf (c :: rest) with
      | false =>
        have h0 := Rebrand.prefix0 str (c :: rest) position
        rw [Rebrand.scan_of_not_prefix str c rest position h] at h0 ⊢
        rw [← hlong, ← hold] at h0
        simp only [List.drop_zero, occurrences, ih (position + 1) 0, h0]
      | true =>
        rw [Rebrand.scan_of_prefix str c rest position h]
        obtain ⟨tail, ht⟩ := Rebrand.eq_append_of_prefix (c :: rest) h
        have hrest : rest.drop 7 = tail := by
          simp only [List.cons_append, List.nil_append, List.cons.injEq] at ht
          rw [ht.2]
          rfl
        rw [occurrences_append_of_noStart _ _ _ (by rw [hold]; decide), ih (position + 1) 7,
          hrest, List.drop_zero, ht, hlong]
        exact (occurrences_append_of_noStart _ tail _ (by decide)).symm

theorem Rebrand.matchCountAux_eq (s : Text) :
    ∀ skip : Nat,
      matchCountAux Rebrand.userDataOld s skip = occurrences Rebrand.userDataOld (s.drop skip) := by
  have hold : Rebrand.userDataOld = ['r', 'o', 'r', 'o', '-', 'd', 'e', 'v'] := by decide
  induction s with
  | nil => intro skip; simp [matchCountAux, occurrences]
  | cons c rest ih =>
    intro skip
    cases skip with
    | succ j => simpa [matchCountAux] using ih j
    | zero =>
      cases h : Rebrand.userDataOld.isPrefixOf (c :: rest) with
      | false => simp [matchCountAux, occurrences, h, ih 0]
      | true =>
        obtain ⟨tail, ht⟩ := Rebrand.eq_append_of_prefix (c :: rest) h
        have hrest : rest.drop 7 = tail := by
          simp only [List.cons_append, List.nil_append, List.cons.injEq] at ht
          rw [ht.2]
          rfl
        have hlen : Rebrand.userDataOld.length - 1 = 7 := by decide
        have htail : occurrences Rebrand.userDataOld rest = occurrences Rebrand.userDataOld tail := by
          have h2 : rest = ['o', 'r', 'o', '-', 'd', 'e', 'v'] ++ tail := by
            simp only [List.cons_append, List.nil_append, List.cons.injEq] at ht
            rw [ht.2]
            rfl
          rw [h2]
          exact occurrences_append_of_noStart _ tail _ (by rw [hold]; decide)
        simp only [matchCountAux, h, if_true, hlen, ih 7, hrest, List.drop_zero, occurrences, htail]

/-! ## Lemmas on `verify-all.js` -/

theorem VerifyAll.tally_eq (results : List Bool) :
    ∀ start : VerifyAll.Tally,
      VerifyAll.tally results start
        = ⟨start.pass + results.count true, start.fail + results.count false⟩ := by
  induction results with
  | nil => intro start; rfl
  | cons r rest ih =>
    intro start
    have h : VerifyAll.tally (r :: rest) start = VerifyAll.tally rest (start.count r) := rfl
    rw [h, ih]
    cases r <;> simp [VerifyAll.Tally.count] <;> omega

theorem VerifyAll.count_true_add_count_false (results : List Bool) :
    results.count true + results.count false = results.length := by
  induction results with
  | nil => rfl
  | cons r rest ih => cases r <;> simp <;> omega

theorem VerifyAll.length_mainResults (mainCode : Text) :
    (VerifyAll.mainResults mainCode).length = 36 := by
  simp [VerifyAll.mainResults, VerifyAll.mainChecks]

theorem VerifyAll.length_renderResults (renderCode : Text) :
    (VerifyAll.renderResults renderCode).length = 25 := by
  simp [VerifyAll.renderResults, VerifyAll.renderChecks]

theorem VerifyAll.length_fileResults (existsSync : String → Bool) :
    (VerifyAll.fileResults existsSync).length = 14 := by
  simp [VerifyAll.fileResults, VerifyAll.fileChecks, VerifyAll.oldFiles]

theorem VerifyAll.length_cfgChecks (pkg : VerifyAll.Json) (checks : List (String × Bool))
    (h : VerifyAll.cfgChecks pkg = Except.ok checks) : checks.length = 8 := by
  unfold VerifyAll.cfgChecks at h
  simp only [bind, Except.bind, pure, Except.pure] at h
  repeat' split at h
  all_goals first
    | (cases h; rfl)
    | cases h

theorem VerifyAll.length_auChecks (appUpdate : Text) :
    (VerifyAll.auChecks appUpdate).length = 2 := rfl

theorem VerifyAll.length_colorChecks (cssCode : Text) :
    (VerifyAll.colorChecks cssCode).length = 15 := rfl

/-- A run in which no statement throws reaches the summary. -/
theorem VerifyAll.run_of_reads (env : VerifyAll.Env) (mainCode renderCode appUpdate cssCode : Text)
    (pkg : VerifyAll.Json) (checks : List (String × Bool))
    (hmain : env.readFileSync "out/main/index.js" = some mainCode)
    (hrender : env.readFileSync "out/renderer/assets/index-BFJPEAID.js" = some renderCode)
    (hpkg : env.packageJson = some pkg)
    (hcfg : VerifyAll.cfgChecks pkg = Except.ok checks)
    (hupdate : env.readFileSync "resources/app-update.yml" = some appUpdate)
    (hcss : env.readFileSync "out/renderer/assets/index-CDjYEUtK.css" = some cssCode) :
    VerifyAll.run env
      = VerifyAll.summary (VerifyAll.tally (VerifyAll.mainResults mainCode) ⟨0, 0⟩)
          (VerifyAll.tally (VerifyAll.renderResults renderCode) ⟨0, 0⟩)
          (VerifyAll.tally (VerifyAll.fileResults env.existsSync) ⟨0, 0⟩)
          (VerifyAll.tally ((VerifyAll.auChecks appUpdate).map Prod.snd)
            (VerifyAll.tally (checks.map Prod.snd) ⟨0, 0⟩))
          (VerifyAll.tally ((VerifyAll.colorChecks cssCode).map Prod.snd) ⟨0, 0⟩) := by
  simp only [VerifyAll.run, hmain, hrender, hpkg, hcfg, hupdate, hcss]

/-! ## Lemmas on replacements that bring no new occurrence -/

theorem prefix_append_of_reachOK_tail (pat old new b tail : Text)
    (h : reachOK pat old new = true)
    (c : Char) (a : Text) (hp : pat <+: (c :: a) ++ (new ++ tail)) :
    pat <+: (c :: a) ++ (old ++ b) := by
  rcases prefix_append_cases pat (c :: a) (new ++ tail) hp with hq | hq
  · exact hq.trans (List.prefix_append (c :: a) (old ++ b))
  · obtain ⟨t, ht⟩ := hq
    have ht2 : t <+: new ++ tail := by
      rw [← ht] at hp
      exact (List.prefix_append_right_inj (c :: a)).mp hp
    have hlen : pat.length = (c :: a).length + t.length := by
      rw [← ht, List.length_append]
    have hdrop : pat.drop (c :: a).length = t := by rw [← ht, List.drop_left]
    by_cases hte : t = []
    · rw [hte, List.append_nil] at ht
      rw [← ht]
      exact List.prefix_append (c :: a) (old ++ b)
    · have htl : 0 < t.length := List.length_pos.mpr hte
      have hk := (List.all_eq_true.mp h) (c :: a).length (List.mem_range.mpr (by omega))
      rw [hdrop] at hk
      have hk0 : ((c :: a).length == 0) = false := by simp
      rw [hk0, Bool.false_or, Bool.or_eq_true] at hk
      have hold : t <+: old := by
        rcases hk with hk | hk
        · rw [Bool.and_eq_true, Bool.not_eq_true', Bool.not_eq_true'] at hk
          rcases prefix_append_cases t new tail ht2 with hr | hr
          · rw [List.isPrefixOf_iff_prefix.mpr hr] at hk; exact absurd hk.1 (by simp)
          · rw [List.isPrefixOf_iff_prefix.mpr hr] at hk; exact absurd hk.2 (by simp)
        · exact List.isPrefixOf_iff_prefix.mp hk
      rw [← ht]
      exact (List.prefix_append_right_inj (c :: a)).mpr (hold.trans (List.prefix_append old b))

theorem occurrences_swap_le (pat old new b tail : Text) (h : reachOK pat old new = true) :
    ∀ a : Text, occurrences pat (a ++ (new ++ tail))
      ≤ occurrences pat (a ++ (old ++ b)) + occurrences pat (new ++ tail) := by
  intro a
  induction a with
  | nil => simp
  | cons c rest ih =>
    have hmono : (if pat.isPrefixOf (c :: (rest ++ (new ++ tail))) = true then 1 else 0)
        ≤ (if pat.isPrefixOf (c :: (rest ++ (old ++ b))) = true then 1 else 0) := by
      by_cases hx : pat.isPrefixOf (c :: (rest ++ (new ++ tail))) = true
      · have hy : pat.isPrefixOf (c :: (rest ++ (old ++ b))) = true :=
          List.isPrefixOf_iff_prefix.mpr
            (prefix_append_of_reachOK_tail pat old new b tail h c rest
              (List.isPrefixOf_iff_prefix.mp hx))
        simp [hx, hy]
      · simp [hx]
    rw [List.cons_append, List.cons_append]
    simp only [occurrences]
    omega

/-- The master step: when `pat` occurs neither in `a ++ old ++ b` nor in `tail`
and the pair is safe, it does not occur in `a ++ new ++ tail`. -/
theorem occurrences_swap_eq_zero (pat old new a b tail : Text)
    (h : safePair pat old new = true)
    (h0 : occurrences pat (a ++ (old ++ b)) = 0) (ht : occurrences pat tail = 0) :
    occurrences pat (a ++ (new ++ tail)) = 0 := by
  simp only [safePair, Bool.and_eq_true] at h
  have h1 := occurrences_swap_le pat old new b tail h.1 a
  have h2 := occurrences_append_of_noStart pat tail new h.2
  omega

theorem occurrences_suffix_eq_zero (pat a b : Text) (h : occurrences pat (a ++ b) = 0) :
    occurrences pat b = 0 := by
  have := occurrences_le_append_left pat b a
  omega

theorem replace_of_not_includes (s pat repl : Text) (h : includes s pat = false) :
    replace s pat repl = s := by
  have hi : indexOf s pat = -1 := by
    simpa [includes] using h
  simp [replace, hi]

theorem occurrences_replace_eq_zero (pat s old new : Text)
    (h : safePair pat old new = true) (hplain : plainReplacement new = true)
    (h0 : occurrences pat s = 0) : occurrences pat (replace s old new) = 0 := by
  cases hi : includes s old with
  | false => rw [replace_of_not_includes s old new hi]; exact h0
  | true =>
    obtain ⟨a, b, hs, hr⟩ := replace_of_includes s old new hi hplain
    rw [hr]
    rw [hs] at h0
    have hb : occurrences pat b = 0 :=
      occurrences_suffix_eq_zero pat old b (occurrences_suffix_eq_zero pat a (old ++ b) h0)
    exact occurrences_swap_eq_zero pat old new a b b h h0 hb

theorem occurrences_applyStep_eq_zero (pat : Text) (st : Step) (code : Text)
    (h : safePair pat st.anchor st.replacement = true)
    (hplain : plainReplacement st.replacement = true)
    (h0 : occurrences pat code = 0) : occurrences pat (applyStep st code) = 0 := by
  unfold applyStep
  split_ifs
  · exact occurrences_replace_eq_zero pat code st.anchor st.replacement h hplain h0
  · exact h0

/-- An insertion at any index. -/
theorem occurrences_insert_eq_zero (pat new s : Text) (n : Nat)
    (h : safePair pat [] new = true) (h0 : occurrences pat s = 0) :
    occurrences pat (s.take n ++ (new ++ s.drop n)) = 0 := by
  have hs : s.take n ++ ([] ++ s.drop n) = s := by simp
  have hb : occurrences pat (s.drop n) = 0 := by
    have := occurrences_le_append_left pat (s.drop n) (s.take n)
    rw [List.take_append_drop] at this
    omega
  exact occurrences_swap_eq_zero pat [] new (s.take n) (s.drop n) (s.drop n) h
    (by rw [hs]; exact h0) hb

/-- An insertion in front of the first occurrence of an anchor, written with
`substring` as the scripts do. -/
theorem occurrences_insertBefore_eq_zero (pat new s anchor : Text)
    (h : safePair pat [] new = true) (h0 : occurrences pat s = 0) (hi : indexOf s anchor ≠ -1) :
    occurrences pat (substring s 0 (indexOf s anchor) ++ new
      ++ substringFrom s (indexOf s anchor)) = 0 := by
  have hinc : includes s anchor = true := by simpa [includes] using hi
  obtain ⟨a, b, hs, hidx⟩ := indexOf_of_includes s anchor hinc
  rw [hidx, substring_zero, substringFrom_natCast, List.append_assoc]
  exact occurrences_insert_eq_zero pat new s a.length h h0

theorem replaceAllAux_skip (old new str : Text) :
    ∀ (u t : Text) (position : Nat),
      replaceAllAux old new str (u ++ t) position u.length
        = replaceAllAux old new str t (position + u.length) 0 := by
  intro u
  induction u with
  | nil => intro t position; rfl
  | cons c rest ih =>
    intro t position
    rw [List.cons_append, List.length_cons]
    simp only [replaceAllAux]
    rw [ih t (position + 1)]
    congr 1
    omega

theorem replaceAllAux_of_no_match (old new str : Text) :
    ∀ (a t : Text) (position : Nat), (∀ i, i < a.length → ¬ old <+: (a ++ t).drop i) →
      replaceAllAux old new str (a ++ t) position 0
        = a ++ replaceAllAux old new str t (position + a.length) 0 := by
  intro a
  induction a with
  | nil => intro t position _; rfl
  | cons c rest ih =>
    intro t position hfirst
    have h0 : old.isPrefixOf (c :: (rest ++ t)) = false := by
      cases hx : old.isPrefixOf (c :: (rest ++ t)) with
      | false => rfl
      | true =>
        exact absurd (List.isPrefixOf_iff_prefix.mp hx) (by simpa using hfirst 0 (by simp))
    have hrest := ih t (position + 1) (fun i hi => by
      have := hfirst (i + 1) (by simpa using hi)
      simpa using this)
    have e : position + 1 + rest.length = position + (c :: rest).length := by
      rw [List.length_cons]
      omega
    rw [e] at hrest
    rw [List.cons_append]
    simp only [replaceAllAux, h0, hrest, Bool.false_eq_true, if_false, List.cons_append]

theorem replaceAllAux_of_match (old new str b : Text) (position : Nat) (hold : old ≠ []) :
    replaceAllAux old new str (old ++ b) position 0
      = getSubstitution old str position new
          ++ replaceAllAux old new str b (position + old.length) 0 := by
  cases old with
  | nil => exact absurd rfl hold
  | cons o os =>
    have hp : (o :: os).isPrefixOf (o :: (os ++ b)) = true :=
      List.isPrefixOf_iff_prefix.mpr (List.prefix_append (o :: os) b)
    have hskip := replaceAllAux_skip (o :: os) new str os b (position + 1)
    have e : position + 1 + os.length = position + (o :: os).length := by
      rw [List.length_cons]
      omega
    rw [e] at hskip
    rw [List.cons_append]
    simp only [replaceAllAux, hp, if_true, List.length_cons, Nat.add_sub_cancel]
    rw [hskip, List.length_cons]

theorem occurrences_replaceAllAux_eq_zero (pat old new str : Text)
    (h : safePair pat old new = true) (hplain : plainReplacement new = true) (hold : old ≠ []) :
    ∀ (n : Nat) (s : Text) (position : Nat), s.length ≤ n → occurrences pat s = 0 →
      occurrences pat (replaceAllAux old new str s position 0) = 0 := by
  intro n
  induction n with
  | zero =>
    intro s position hlen h0
    have : s = [] := List.length_eq_zero.mp (Nat.le_zero.mp hlen)
    subst this
    rfl
  | succ n ih =>
    intro s position hlen h0
    rcases indexOfAux_spec old s 0 with ⟨-, hno⟩ | ⟨a, b, hs, -, hfirst⟩
    · have hall : ∀ i, i < s.length → ¬ old <+: (s ++ []).drop i := by
        intro i _ hp
        rw [List.append_nil] at hp
        exact hno (hp.isInfix.trans (List.drop_suffix i s).isInfix)
      have := replaceAllAux_of_no_match old new str s [] position hall
      rw [List.append_nil] at this
      rw [this]
      simpa [replaceAllAux] using h0
    · have hfirst2 : ∀ i, i < a.length → ¬ old <+: (a ++ (old ++ b)).drop i := by
        intro i hi
        rw [← hs]
        exact hfirst i hi
      rw [hs, replaceAllAux_of_no_match old new str a (old ++ b) position hfirst2,
        replaceAllAux_of_match old new str b (position + a.length) hold,
        getSubstitution_of_plain _ _ _ _ hplain]
      rw [hs] at h0
      have hb : occurrences pat b = 0 :=
        occurrences_suffix_eq_zero pat old b (occurrences_suffix_eq_zero pat a (old ++ b) h0)
      have hlenb : b.length ≤ n := by
        have hl : s.length = a.length + (old.length + b.length) := by
          rw [hs, List.length_append, List.length_append]
        have : 0 < old.length := List.length_pos.mpr hold
        omega
      exact occurrences_swap_eq_zero pat old new a b _ h h0 (ih b _ hlenb hb)

theorem occurrences_replaceAll_eq_zero (pat s old new : Text)
    (h : safePair pat old new = true) (hplain : plainReplacement new = true) (hold : old ≠ [])
    (h0 : occurrences pat s = 0) : occurrences pat (replaceAll s old new) = 0 :=
  occurrences_replaceAllAux_eq_zero pat old new s h hplain hold s.length s 0 (Nat.le_refl _) h0

theorem safePairs_mem (pat : Text) (pairs : List (Text × Text)) (h : safePairs pat pairs = true)
    (old new : Text) (hm : (old, new) ∈ pairs) : safePair pat old new = true :=
  (List.all_eq_true.mp h) (old, new) hm

/-! ## The steps of the two main-process scripts bring no new occurrence -/

theorem WindowsImprovements.occurrences_patch1 (pat code : Text)
    (h : safePairs pat WindowsImprovements.pairs = true) (h0 : occurrences pat code = 0) :
    occurrences pat (WindowsImprovements.patch1 code) = 0 := by
  have hs := safePairs_mem pat _ h [] WindowsImprovements.singleInstanceCode
    (by simp [WindowsImprovements.pairs])
  unfold WindowsImprovements.patch1
  simp only []
  split_ifs with hi
  · exact h0
  · exact occurrences_insertBefore_eq_zero pat _ code _ hs h0 hi

set_option maxRecDepth 100000 in
theorem WindowsImprovements.occurrences_patch2 (pat code : Text)
    (h : safePairs pat WindowsImprovements.pairs = true) (h0 : occurrences pat code = 0) :
    occurrences pat (WindowsImprovements.patch2 code) = 0 := by
  have hs1 := safePairs_mem pat _ h WindowsImprovements.oldProtocol
    WindowsImprovements.newProtocol (by simp [WindowsImprovements.pairs])
  have hs2 := safePairs_mem pat _ h "setAsDefaultProtocolClient(\"roro\")".toList
    "setAsDefaultProtocolClient(\"evero\")".toList (by simp [WindowsImprovements.pairs])
  unfold WindowsImprovements.patch2
  split_ifs
  · exact occurrences_replace_eq_zero pat code _ _ hs1 (by decide!) h0
  · exact h0
  · exact occurrences_replace_eq_zero pat code _ _ hs2 (by decide!) h0
  · exact h0

theorem WindowsImprovements.occurrences_patch3 (pat code : Text)
    (h : safePairs pat WindowsImprovements.pairs = true) (h0 : occurrences pat code = 0) :
    occurrences pat (WindowsImprovements.patch3 code) = 0 := by
  have hs := safePairs_mem pat _ h [] WindowsImprovements.autoLaunchCode
    (by simp [WindowsImprovements.pairs])
  have hins : ∀ n : Nat, occurrences pat (substring code 0 ((n : Int) + 1)
      ++ WindowsImprovements.autoLaunchCode ++ substringFrom code ((n : Int) + 1)) = 0 := by
    intro n
    have e : ((n : Int) + 1) = ((n + 1 : Nat) : Int) := by push_cast; rfl
    rw [e, substring_zero, substringFrom_natCast, List.append_assoc]
    exact occurrences_insert_eq_zero pat _ code (n + 1) hs h0
  unfold WindowsImprovements.patch3
  simp only []
  split_ifs
  · exact h0
  · exact h0
  · exact hins _
  · exact h0

theorem WindowsImprovements.occurrences_patch4 (pat code : Text)
    (h : safePairs pat WindowsImprovements.pairs = true) (h0 : occurrences pat code = 0) :
    occurrences pat (WindowsImprovements.patch4 code) = 0 := by
  have hs := safePairs_mem pat _ h [] (WindowsImprovements.configHandlers ++ ",".toList)
    (by simp [WindowsImprovements.pairs])
  unfold WindowsImprovements.patch4
  simp only []
  split_ifs with hi
  · exact h0
  · have := occurrences_insertBefore_eq_zero pat _ code _ hs h0 hi
    simpa [List.append_assoc] using this

/-- No step of `patch-windows-improvements.js` brings an occurrence of a
pattern for which its pairs are safe. -/
theorem WindowsImprovements.occurrences_run (pat code : Text)
    (h : safePairs pat WindowsImprovements.pairs = true) (h0 : occurrences pat code = 0) :
    occurrences pat (WindowsImprovements.run code) = 0 :=
  WindowsImprovements.occurrences_patch4 pat _ h
    (WindowsImprovements.occurrences_patch3 pat _ h
      (WindowsImprovements.occurrences_patch2 pat _ h
        (WindowsImprovements.occurrences_patch1 pat _ h h0)))

theorem OllamaIntegration.occurrences_classInserted (pat code : Text)
    (h : safePairs pat OllamaIntegration.pairs = true) (h0 : occurrences pat code = 0) :
    occurrences pat (OllamaIntegration.patch1 code) = 0 := by
  have hs := safePairs_mem pat _ h [] OllamaIntegration.ollamaServiceClass
    (by simp [OllamaIntegration.pairs])
  unfold OllamaIntegration.patch1
  simp only []
  split_ifs with hi
  · exact h0
  · have hinc : includes code OllamaIntegration.insertTarget = true := by
      simpa [includes] using hi
    obtain ⟨a, b, hcode, hidx⟩ := indexOf_of_includes code _ hinc
    have e : ((a.length : Int) + (OllamaIntegration.insertTarget.length : Int))
        = ((a.length + OllamaIntegration.insertTarget.length : Nat) : Int) := by push_cast; rfl
    have htake : code.take a.length = a := by rw [hcode, List.take_left]
    have hdrop : code.drop a.length = OllamaIntegration.insertTarget ++ b := by
      rw [hcode, List.drop_left]
    have hdrop2 : code.drop (a.length + OllamaIntegration.insertTarget.length) = b := by
      rw [← List.drop_drop, hdrop, List.drop_left]
    rw [hidx, e, substring_zero, substringFrom_natCast, htake, hdrop2]
    have := occurrences_insert_eq_zero pat _ code a.length hs h0
    rw [htake, hdrop] at this
    simpa [List.append_assoc] using this

set_option maxRecDepth 100000 in
theorem OllamaIntegration.occurrences_steps (pat code : Text)
    (h : safePairs pat OllamaIntegration.pairs = true) (h0 : occurrences pat code = 0) :
    occurrences pat (applySteps OllamaIntegration.steps code) = 0 := by
  have hs1 := safePairs_mem pat _ h OllamaIntegration.oldCreateLogo
    OllamaIntegration.newCreateLogo (by simp [OllamaIntegration.pairs])
  have hs2 := safePairs_mem pat _ h OllamaIntegration.oldCreateService
    OllamaIntegration.newCreateService (by simp [OllamaIntegration.pairs])
  have hs3 := safePairs_mem pat _ h OllamaIntegration.oldRestore
    OllamaIntegration.newRestore (by simp [OllamaIntegration.pairs])
  simp only [applySteps, OllamaIntegration.steps, List.foldl_cons, List.foldl_nil]
  exact occurrences_applyStep_eq_zero pat _ _ hs3 (by decide!)
    (occurrences_applyStep_eq_zero pat _ _ hs2 (by decide!)
      (occurrences_applyStep_eq_zero pat _ _ hs1 (by decide!) h0))

theorem OllamaIntegration.occurrences_handlersInserted (pat code : Text)
    (h : safePairs pat OllamaIntegration.pairs = true) (h0 : occurrences pat code = 0) :
    occurrences pat (OllamaIntegration.patch4 code) = 0 := by
  have hs := safePairs_mem pat _ h [] OllamaIntegration.ollamaHandlers
    (by simp [OllamaIntegration.pairs])
  unfold OllamaIntegration.patch4
  simp only []
  split_ifs with hi
  · exact h0
  · exact occurrences_insertBefore_eq_zero pat _ code _ hs h0 hi

/-- PATCH 5 changes nothing when its anchor does not occur. -/
theorem OllamaIntegration.patch5_of_not_includes (code : Text)
    (h : includes code OllamaIntegration.oldDefaults = false) :
    OllamaIntegration.patch5 code = code := by
  simp [OllamaIntegration.patch5, applyStep, h]

/-- No step of PATCH 1 to PATCH 4 of `patch-ollama-integration.js` brings an
occurrence of a pattern for which its pairs are safe. -/
theorem OllamaIntegration.occurrences_beforePatch5 (pat code : Text)
    (h : safePairs pat OllamaIntegration.pairs = true) (h0 : occurrences pat code = 0) :
    occurrences pat (OllamaIntegration.patch4
      (applySteps OllamaIntegration.steps (OllamaIntegration.patch1 code))) = 0 :=
  OllamaIntegration.occurrences_handlersInserted pat _ h
    (OllamaIntegration.occurrences_steps pat _ h
      (OllamaIntegration.occurrences_classInserted pat _ h h0))

/-! ## The renderer steps of the export and palette scripts bring no new occurrence -/

set_option maxRecDepth 1000000 in
theorem ConversationExport.occurrences_patchRenderer (pat renderCode : Text)
    (h : safePairs pat PaletteSystem.pairs = true) (h0 : occurrences pat renderCode = 0) :
    occurrences pat (ConversationExport.patchRenderer renderCode) = 0 := by
  have hs := safePairs_mem pat _ h ConversationExport.oldHeader ConversationExport.newHeader
    (by simp [PaletteSystem.pairs])
  unfold ConversationExport.patchRenderer
  split_ifs
  · exact h0
  · exact occurrences_replace_eq_zero pat renderCode _ _ hs (by decide!) h0

theorem PaletteSystem.occurrences_countedReplaceAll (pat buf : Text) (p : Text × Text)
    (hs : safePair pat p.1 p.2 = true) (hplain : plainReplacement p.2 = true) (hne : p.1 ≠ [])
    (h0 : occurrences pat buf = 0) :
    occurrences pat (PaletteSystem.countedReplaceAll buf p) = 0 := by
  unfold PaletteSystem.countedReplaceAll
  split_ifs
  · exact occurrences_replaceAll_eq_zero pat buf p.1 p.2 hs hplain hne h0
  · exact h0

theorem PaletteSystem.occurrences_foldl (pat : Text) :
    ∀ (pairs : List (Text × Text)),
      (∀ p ∈ pairs, safePair pat p.1 p.2 = true ∧ plainReplacement p.2 = true ∧ p.1 ≠ []) →
      ∀ buf : Text, occurrences pat buf = 0 →
        occurrences pat (pairs.foldl PaletteSystem.countedReplaceAll buf) = 0 ∧
        occurrences pat (pairs.foldl
          (fun buf r => if r.1 = r.2 then buf else PaletteSystem.countedReplaceAll buf r) buf)
          = 0 := by
  intro pairs
  induction pairs with
  | nil => intro _ buf h0; exact ⟨h0, h0⟩
  | cons p rest ih =>
    intro hall buf h0
    obtain ⟨hs, hplain, hne⟩ := hall p (List.mem_cons_self p rest)
    have hrest := ih (fun q hq => hall q (List.mem_cons_of_mem p hq))
    have hstep := PaletteSystem.occurrences_countedReplaceAll pat buf p hs hplain hne h0
    refine ⟨(hrest _ hstep).1, ?_⟩
    rw [List.foldl_cons]
    split_ifs
    · exact (hrest _ h0).2
    · exact (hrest _ hstep).2

set_option maxRecDepth 1000000 in
theorem PaletteSystem.occurrences_part4 (pat renderer : Text)
    (h : safePairs pat PaletteSystem.pairs = true) (h0 : occurrences pat renderer = 0) :
    occurrences pat (PaletteSystem.part4 renderer) = 0 := by
  have hmem : ∀ p ∈ PaletteSystem.pairs, safePair pat p.1 p.2 = true :=
    fun p hp => List.all_eq_true.mp h p hp
  have h1 : ∀ p ∈ PaletteSystem.inlineReplacements,
      safePair pat p.1 p.2 = true ∧ plainReplacement p.2 = true ∧ p.1 ≠ [] := by
    have hc : ∀ p ∈ PaletteSystem.inlineReplacements,
        plainReplacement p.2 = true ∧ p.1 ≠ [] := by decide!
    exact fun p hp => ⟨hmem p (by simp [PaletteSystem.pairs, hp]), hc p hp⟩
  have h2 : ∀ p ∈ PaletteSystem.hoverReplacements,
      safePair pat p.1 p.2 = true ∧ plainReplacement p.2 = true ∧ p.1 ≠ [] := by
    have hc : ∀ p ∈ PaletteSystem.hoverReplacements,
        plainReplacement p.2 = true ∧ p.1 ≠ [] := by decide!
    exact fun p hp => ⟨hmem p (by simp [PaletteSystem.pairs, hp]), hc p hp⟩
  have h3 : ∀ p ∈ PaletteSystem.borderReplacements,
      safePair pat p.1 p.2 = true ∧ plainReplacement p.2 = true ∧ p.1 ≠ [] := by
    have hc : ∀ p ∈ PaletteSystem.borderReplacements,
        plainReplacement p.2 = true ∧ p.1 ≠ [] := by decide!
    exact fun p hp => ⟨hmem p (by simp [PaletteSystem.pairs, hp]), hc p hp⟩
  have h4 : safePair pat PaletteSystem.shadowOld PaletteSystem.shadowNew = true :=
    hmem (PaletteSystem.shadowOld, PaletteSystem.shadowNew) (by simp [PaletteSystem.pairs])
  have ha := (PaletteSystem.occurrences_foldl pat _ h1 renderer h0).1
  have hb := (PaletteSystem.occurrences_foldl pat _ h2 _ ha).2
  have hc := (PaletteSystem.occurrences_foldl pat _ h3 _ hb).1
  unfold PaletteSystem.part4
  simp only []
  split_ifs
  · exact occurrences_replaceAll_eq_zero pat _ _ _ h4 (by decide!) (by decide!) hc
  · exact hc

theorem PaletteSystem.occurrences_engine (pat renderer : Text)
    (h : safePairs pat PaletteSystem.pairs = true) (h0 : occurrences pat renderer = 0) :
    occurrences pat (PaletteSystem.engineCode ++ renderer) = 0 := by
  have hs := safePairs_mem pat _ h [] PaletteSystem.engineCode (by simp [PaletteSystem.pairs])
  simpa using occurrences_insert_eq_zero pat PaletteSystem.engineCode renderer 0 hs h0

/-- PART 5 changes nothing when the start of the export button is not found. -/
theorem PaletteSystem.part5_of_not_found (renderer : Text)
    (h : indexOf renderer PaletteSystem.exportIifeStart = -1) :
    PaletteSystem.part5 renderer = renderer := by
  simp [PaletteSystem.part5, h]

/-! ## Lemmas on replacements that keep the occurrences of a pattern -/

theorem occurrences_swap_add_le (pat old new b tail : Text) (h : reachOK pat old new = true) :
    ∀ a : Text, occurrences pat (a ++ (new ++ tail)) + occurrences pat (old ++ b)
      ≤ occurrences pat (a ++ (old ++ b)) + occurrences pat (new ++ tail) := by
  intro a
  induction a with
  | nil => simp [Nat.add_comm]
  | cons c rest ih =>
    have hmono : (if pat.isPrefixOf (c :: (rest ++ (new ++ tail))) = true then 1 else 0)
        ≤ (if pat.isPrefixOf (c :: (rest ++ (old ++ b))) = true then 1 else 0) := by
      by_cases hx : pat.isPrefixOf (c :: (rest ++ (new ++ tail))) = true
      · have hy : pat.isPrefixOf (c :: (rest ++ (old ++ b))) = true :=
          List.isPrefixOf_iff_prefix.mpr
            (prefix_append_of_reachOK_tail pat old new b tail h c rest
              (List.isPrefixOf_iff_prefix.mp hx))
        simp [hx, hy]
      · simp [hx]
    rw [List.cons_append, List.cons_append]
    simp only [occurrences]
    omega

/-- The occurrences of `pat` are the same before and after, when the pair is
independent of `pat` and the tails have the same number of them. -/
theorem occurrences_swap_eq (pat old new a b tail : Text)
    (h : independent pat old new = true) (ht : occurrences pat tail = occurrences pat b) :
    occurrences pat (a ++ (new ++ tail)) = occurrences pat (a ++ (old ++ b)) := by
  simp only [independent, Bool.and_eq_true] at h
  obtain ⟨⟨⟨h1, h2⟩, h3⟩, h4⟩ := h
  have e1 := occurrences_swap_add_le pat old new b tail h1 a
  have e2 := occurrences_swap_add_le pat new old tail b h2 a
  have e3 := occurrences_append_of_noStart pat b old h3
  have e4 := occurrences_append_of_noStart pat tail new h4
  omega

theorem occurrences_append_of_no_start (pat x : Text) :
    ∀ a : Text, (∀ i, i < a.length → ¬ pat <+: (a ++ x).drop i) →
      occurrences pat (a ++ x) = occurrences pat x := by
  intro a
  induction a with
  | nil => intro _; rfl
  | cons c rest ih =>
    intro hno
    have h0 : pat.isPrefixOf (c :: (rest ++ x)) = false := by
      cases hx : pat.isPrefixOf (c :: (rest ++ x)) with
      | false => rfl
      | true =>
        exact absurd (List.isPrefixOf_iff_prefix.mp hx) (by simpa using hno 0 (by simp))
    rw [List.cons_append]
    simp only [occurrences, h0, Bool.false_eq_true, if_false, Nat.zero_add]
    exact ih (fun i hi => by
      have := hno (i + 1) (by simpa using hi)
      simpa using this)

theorem replaceAllAux_of_absent (old new str s : Text) (position : Nat)
    (hno : ¬ old <:+: s) : replaceAllAux old new str s position 0 = s := by
  have hall : ∀ i, i < s.length → ¬ old <+: (s ++ []).drop i := by
    intro i _ hp
    rw [List.append_nil] at hp
    exact hno (hp.isInfix.trans (List.drop_suffix i s).isInfix)
  have := replaceAllAux_of_no_match old new str s [] position hall
  rw [List.append_nil] at this
  rw [this]
  simp [replaceAllAux]

theorem occurrences_replaceAllAux_eq (pat old new str : Text)
    (h : independent pat old new = true) (hplain : plainReplacement new = true) (hold : old ≠ []) :
    ∀ (n : Nat) (s : Text) (position : Nat), s.length ≤ n →
      occurrences pat (replaceAllAux old new str s position 0) = occurrences pat s := by
  intro n
  induction n with
  | zero =>
    intro s position hlen
    have : s = [] := List.length_eq_zero.mp (Nat.le_zero.mp hlen)
    subst this
    rfl
  | succ n ih =>
    intro s position hlen
    rcases indexOfAux_spec old s 0 with ⟨-, hno⟩ | ⟨a, b, hs, -, hfirst⟩
    · rw [replaceAllAux_of_absent old new str s position hno]
    · have hfirst2 : ∀ i, i < a.length → ¬ old <+: (a ++ (old ++ b)).drop i := by
        intro i hi
        rw [← hs]
        exact hfirst i hi
      have hlenb : b.length ≤ n := by
        have hl : s.length = a.length + (old.length + b.length) := by
          rw [hs, List.length_append, List.length_append]
        have : 0 < old.length := List.length_pos.mpr hold
        omega
      rw [hs, replaceAllAux_of_no_match old new str a (old ++ b) position hfirst2,
        replaceAllAux_of_match old new str b (position + a.length) hold,
        getSubstitution_of_plain _ _ _ _ hplain]
      exact occurrences_swap_eq pat old new a b _ h (ih b _ hlenb)

theorem occurrences_replaceAll_eq (pat s old new : Text)
    (h : independent pat old new = true) (hplain : plainReplacement new = true) (hold : old ≠ []) :
    occurrences pat (replaceAll s old new) = occurrences pat s :=
  occurrences_replaceAllAux_eq pat old new s h hplain hold s.length s 0 (Nat.le_refl _)

theorem occurrences_replaceAllAux_self (old new str : Text)
    (h : safePair old old new = true) (hplain : plainReplacement new = true) (hold : old ≠ []) :
    ∀ (n : Nat) (s : Text) (position : Nat), s.length ≤ n →
      occurrences old (replaceAllAux old new str s position 0) = 0 := by
  have h' := h
  simp only [safePair, Bool.and_eq_true] at h'
  obtain ⟨hreach, hstart⟩ := h'
  intro n
  induction n with
  | zero =>
    intro s position hlen
    have : s = [] := List.length_eq_zero.mp (Nat.le_zero.mp hlen)
    subst this
    rfl
  | succ n ih =>
    intro s position hlen
    rcases indexOfAux_spec old s 0 with ⟨-, hno⟩ | ⟨a, b, hs, -, hfirst⟩
    · rw [replaceAllAux_of_absent old new str s position hno]
      have := (occurrences_pos_iff old hold s).not.mpr hno
      omega
    · have hfirst2 : ∀ i, i < a.length → ¬ old <+: (a ++ (old ++ b)).drop i := by
        intro i hi
        rw [← hs]
        exact hfirst i hi
      have hlenb : b.length ≤ n := by
        have hl : s.length = a.length + (old.length + b.length) := by
          rw [hs, List.length_append, List.length_append]
        have : 0 < old.length := List.length_pos.mpr hold
        omega
      rw [hs, replaceAllAux_of_no_match old new str a (old ++ b) position hfirst2,
        replaceAllAux_of_match old new str b (position + a.length) hold,
        getSubstitution_of_plain _ _ _ _ hplain]
      have hnone : ∀ i, i < a.length →
          ¬ old <+: (a ++ (new ++ replaceAllAux old new str b
            (position + a.length + old.length) 0)).drop i := by
        intro i hi hp
        have hsplit : a.drop i ≠ [] := by
          intro he
          have := congrArg List.length he
          simp at this
          omega
        obtain ⟨c, rest, hcr⟩ := List.exists_cons_of_ne_nil hsplit
        rw [List.drop_append_of_le_length (Nat.le_of_lt hi), hcr] at hp
        have hq := prefix_append_of_reachOK_tail old old new b _ hreach c rest hp
        apply hfirst2 i hi
        rw [List.drop_append_of_le_length (Nat.le_of_lt hi), hcr]
        exact hq
      rw [occurrences_append_of_no_start old _ a hnone,
        occurrences_append_of_noStart old _ new hstart]
      exact ih b _ hlenb

theorem occurrences_replaceAll_self (s old new : Text)
    (h : safePair old old new = true) (hplain : plainReplacement new = true) (hold : old ≠ []) :
    occurrences old (replaceAll s old new) = 0 :=
  occurrences_replaceAllAux_self old new s h hplain hold s.length s 0 (Nat.le_refl _)

/-- The scan counts every occurrence of a pattern whose occurrences do not
overlap. -/
theorem matchCountAux_eq_occurrences (pat : Text) (hne : pat ≠ [])
    (h : noStart pat pat.tail = true) :
    ∀ (s : Text) (skip : Nat), matchCountAux pat s skip = occurrences pat (s.drop skip) := by
  intro s
  induction s with
  | nil => intro skip; simp [matchCountAux, occurrences]
  | cons c rest ih =>
    intro skip
    cases skip with
    | succ j => simpa [matchCountAux] using ih j
    | zero =>
      cases hp : pat.isPrefixOf (c :: rest) with
      | false => simp [matchCountAux, occurrences, hp, ih 0]
      | true =>
        obtain ⟨tail, ht⟩ := List.isPrefixOf_iff_prefix.mp hp
        cases pat with
        | nil => exact absurd rfl hne
        | cons p ps =>
          have hrest : rest = ps ++ tail := by
            rw [List.cons_append] at ht
            exact (List.cons.inj ht).2.symm
          have hdrop : rest.drop ps.length = tail := by rw [hrest, List.drop_left]
          have htail : occurrences (p :: ps) rest = occurrences (p :: ps) tail := by
            rw [hrest]
            exact occurrences_append_of_noStart _ tail ps h
          simp only [matchCountAux, hp, if_true, List.length_cons, Nat.add_sub_cancel, ih ps.length,
            hdrop, List.drop_zero, occurrences, htail]

theorem matchCount_eq_occurrences (pat s : Text) (hne : pat ≠ [])
    (h : noStart pat pat.tail = true) : matchCount s pat = occurrences pat s := by
  simpa [matchCount] using matchCountAux_eq_occurrences pat hne h s 0

/-- One counted global replacement: the count is the number of occurrences, none
of them is left, and the patterns independent of the pair keep theirs. -/
theorem ColorPalette.jsStep_spec (state : Text × Nat) (r : Text × Text) (h : stepOK r = true) :
    (ColorPalette.jsStep state r).2 = state.2 + occurrences r.1 state.1 ∧
    occurrences r.1 (ColorPalette.jsStep state r).1 = 0 ∧
    ∀ pat, independent pat r.1 r.2 = true →
      occurrences pat (ColorPalette.jsStep state r).1 = occurrences pat state.1 := by
  simp only [stepOK, Bool.and_eq_true, Bool.not_eq_true', List.isEmpty_eq_false] at h
  obtain ⟨⟨⟨hne, hplain⟩, hself⟩, hsafe⟩ := h
  have hcount := matchCount_eq_occurrences r.1 state.1 hne hself
  unfold ColorPalette.jsStep
  split_ifs with hc
  · exact ⟨by rw [hcount], occurrences_replaceAll_self _ _ _ hsafe hplain hne,
      fun pat hp => occurrences_replaceAll_eq pat _ _ _ hp hplain hne⟩
  · refine ⟨by omega, by omega, fun _ _ => rfl⟩

theorem ColorPalette.foldl_jsStep_spec :
    ∀ (steps : List (Text × Text)) (state : Text × Nat), chainOK steps = true →
      (steps.foldl ColorPalette.jsStep state).2
          = state.2 + (steps.map fun r => occurrences r.1 state.1).sum ∧
      (∀ r ∈ steps, occurrences r.1 (steps.foldl ColorPalette.jsStep state).1 = 0) ∧
      ∀ pat, (∀ r ∈ steps, independent pat r.1 r.2 = true) →
        occurrences pat (steps.foldl ColorPalette.jsStep state).1 = occurrences pat state.1 := by
  intro steps
  induction steps with
  | nil => intro state _; simp
  | cons r rest ih =>
    intro state h
    simp only [chainOK, Bool.and_eq_true, List.all_eq_true] at h
    obtain ⟨⟨hstep, hpair⟩, hrest⟩ := h
    obtain ⟨hcount, hzero, hkeep⟩ := ColorPalette.jsStep_spec state r hstep
    obtain ⟨icount, izero, ikeep⟩ := ih (ColorPalette.jsStep state r) hrest
    have hsame : ∀ q ∈ rest, occurrences q.1 (ColorPalette.jsStep state r).1
        = occurrences q.1 state.1 := fun q hq => hkeep q.1 (hpair q hq).1
    have hsum : (rest.map fun q => occurrences q.1 (ColorPalette.jsStep state r).1).sum
        = (rest.map fun q => occurrences q.1 state.1).sum := by
      congr 1
      exact List.map_congr_left hsame
    rw [List.foldl_cons]
    refine ⟨?_, ?_, ?_⟩
    · rw [icount, hcount, hsum, List.map_cons, List.sum_cons]
      omega
    · intro q hq
      rcases List.mem_cons.mp hq with rfl | hq
      · rw [ikeep q.1 (fun q2 hq2 => (hpair q2 hq2).2)]
        exact hzero
      · exact izero q hq
    · intro pat hp
      rw [ikeep pat (fun q hq => hp q (List.mem_cons_of_mem r hq))]
      exact hkeep pat (hp r (List.mem_cons_self r rest))

set_option maxRecDepth 1000000 in
theorem ColorPalette.chainOK_jsColorReplacements :
    chainOK ColorPalette.jsColorReplacements = true := by decide!

set_option maxRecDepth 1000000 in
theorem ColorPalette.safePair_accent_button :
    (ColorPalette.jsColorReplacements.all fun r =>
      !r.1.isEmpty && safePair r.1 ColorPalette.accentOld ColorPalette.accentNew
        && safePair r.1 ColorPalette.buttonOld ColorPalette.buttonNew) = true := by decide!

theorem ColorPalette.part2_eq (render : Text) :
    ColorPalette.part2 render
      = (replaceAll (replaceAll
            (ColorPalette.jsColorReplacements.foldl ColorPalette.jsStep (render, 0)).1
            ColorPalette.accentOld ColorPalette.accentNew)
          ColorPalette.buttonOld ColorPalette.buttonNew,
        (ColorPalette.jsColorReplacements.foldl ColorPalette.jsStep (render, 0)).2) := rfl

/-! ## Lemmas on the colour cache of `patch-palette-system.js` -/

theorem PaletteSystem.get_append (a b : List (Text × PaletteSystem.Colour)) (key : Text) :
    PaletteSystem.get (a ++ b) key = (PaletteSystem.get b key).or (PaletteSystem.get a key) := by
  simp only [PaletteSystem.get, List.reverse_append, List.lookup_append]

theorem PaletteSystem.get_foldl_none (role : Text) :
    ∀ (pals : List PaletteSystem.Palette) (paletteCache : List (Text × PaletteSystem.Colour)),
      PaletteSystem.get paletteCache role = none →
      (∀ pal ∈ pals, PaletteSystem.get pal.colors role = none) →
      PaletteSystem.get (pals.foldl PaletteSystem.applyPalette paletteCache) role = none := by
  intro pals
  induction pals with
  | nil => intro paletteCache h _; exact h
  | cons pal rest ih =>
    intro paletteCache h hall
    rw [List.foldl_cons]
    apply ih
    · rw [PaletteSystem.applyPalette, PaletteSystem.get_append,
        hall pal (List.mem_cons_self pal rest), h]
      rfl
    · exact fun q hq => hall q (List.mem_cons_of_mem pal hq)

theorem PaletteSystem.get_foldl_concat (role : Text) (pals : List PaletteSystem.Palette)
    (last : PaletteSystem.Palette) (value : PaletteSystem.Colour)
    (h : PaletteSystem.get last.colors role = some value) :
    PaletteSystem.get ((pals ++ [last]).foldl PaletteSystem.applyPalette []) role
      = some value := by
  rw [List.foldl_concat, PaletteSystem.applyPalette, PaletteSystem.get_append, h]
  rfl

set_option maxRecDepth 1000000 in
theorem PaletteSystem.roles_defined_but_accent :
    ∀ pal ∈ PaletteSystem.PALETTES, ∀ role ∈ PaletteSystem.roles,
      (match PaletteSystem.get pal.colors role with
        | some value => value.truthy
        | none => false) = (role != "accent".toList) := by
  decide!

set_option maxRecDepth 1000000 in
theorem PaletteSystem.accent_not_key :
    ∀ pal ∈ PaletteSystem.PALETTES,
      (PaletteSystem.get pal.colors "accent".toList).isSome = false := by
  decide!

/-! ## Lemmas on the insertions before `shell:openExternal` -/

theorem take_succ_of_getElem? (s : Text) (k : Nat) (c : Char) (h : s[k]? = some c) :
    s.take (k + 1) = s.take k ++ [c] := by
  rw [List.take_succ, h]
  rfl

/-- A block put right before the first occurrence of an anchor. -/
theorem insertBefore_of_indexOf (code anchor block : Text) (k : Nat)
    (hidx : indexOf code anchor = ((k + 1 : Nat) : Int)) (hcomma : code[k]? = some ',') :
    (if indexOf code anchor = -1 then code
      else substring code 0 (indexOf code anchor) ++ block
        ++ substringFrom code (indexOf code anchor))
      = code.take k ++ (",".toList ++ block ++ code.drop (k + 1)) := by
  have hne : indexOf code anchor ≠ -1 := by rw [hidx]; omega
  rw [if_neg hne, hidx, substring_zero, substringFrom_natCast,
    take_succ_of_getElem? code k ',' hcomma]
  simp

theorem drop_of_indexOf (code anchor : Text) (n : Nat)
    (hidx : indexOf code anchor = (n : Int)) :
    ∃ b, code.drop n = anchor ++ b := by
  have hinc : includes code anchor = true := by
    simp only [includes, decide_eq_true_eq]
    rw [hidx]
    omega
  obtain ⟨a, b, hs, hi⟩ := indexOf_of_includes code anchor hinc
  have hn : a.length = n := by
    rw [hidx] at hi
    exact (Int.ofNat_inj.mp hi).symm
  refine ⟨b, ?_⟩
  rw [← hn]
  nth_rewrite 1 [hs]
  rw [List.drop_left]

/-- A block that neither begins with a comma nor holds two in a row brings no
`,,` when it is put before the anchor. -/
theorem no_double_comma_of_insert (code anchor block : Text) (k : Nat)
    (hidx : indexOf code anchor = ((k + 1 : Nat) : Int)) (hcomma : code[k]? = some ',')
    (hsafe : safePair ",,".toList anchor (block ++ anchor) = true)
    (h0 : includes code ",,".toList = false) :
    includes (code.take k ++ (",".toList ++ block ++ code.drop (k + 1))) ",,".toList = false := by
  have hne : ",,".toList ≠ [] := by decide
  obtain ⟨b, hb⟩ := drop_of_indexOf code anchor (k + 1) hidx
  have hcode : code = (code.take k ++ ",".toList) ++ (anchor ++ b) := by
    have h1 : code.take (k + 1) = code.take k ++ ",".toList :=
      take_succ_of_getElem? code k ',' hcomma
    rw [← h1, ← hb, List.take_append_drop]
  have hocc : occurrences ",,".toList ((code.take k ++ ",".toList) ++ (anchor ++ b)) = 0 := by
    rw [← hcode]
    exact (occurrences_eq_zero_iff _ hne code).mpr h0
  have hres := occurrences_swap_eq_zero ",,".toList anchor (block ++ anchor)
    (code.take k ++ ",".toList) b b hsafe hocc
    (occurrences_suffix_eq_zero _ _ _ (occurrences_suffix_eq_zero _ _ _ hocc))
  rw [← occurrences_eq_zero_iff _ hne, hb]
  simpa [List.append_assoc] using hres

set_option maxRecDepth 1000000 in
theorem blocks_without_leading_comma :
    (safePair ",,".toList OllamaIntegration.shellHandler
        (OllamaIntegration.ollamaHandlers ++ OllamaIntegration.shellHandler)
      && safePair ",,".toList ModelHub.shellHandler (ModelHub.newHandlers ++ ModelHub.shellHandler)
      && safePair ",,".toList ConversationExport.shellHandler
        (ConversationExport.exportHandler ++ ConversationExport.shellHandler)) = true := by
  decide!

set_option maxRecDepth 1000000 in
theorem blocks_first_and_last :
    ",\nc.ipcMain.handle(\"launch-config:set\"".toList <+: WindowsImprovements.configHandlers ∧
    (OllamaIntegration.ollamaHandlers.head? ≠ some ',' ∧
      OllamaIntegration.ollamaHandlers.getLast? = some ',') ∧
    (ModelHub.newHandlers.head? ≠ some ',' ∧ ModelHub.newHandlers.getLast? = some ',') ∧
    (ConversationExport.exportHandler.head? ≠ some ',' ∧
      ConversationExport.exportHandler.getLast? = some ',') := by
  refine ⟨?_, ?_, ?_, ?_⟩
  · rw [← List.isPrefixOf_iff_prefix]
    decide!
  · decide!
  · decide!
  · decide!

/-! ## Lemmas on the verification of `patch-path-normalization.js` -/

theorem occurrences_le_swap (pat old new a b : Text) (h : keeps pat old new = true) :
    occurrences pat (a ++ (old ++ b)) ≤ occurrences pat (a ++ (new ++ b)) := by
  simp only [keeps, Bool.and_eq_true] at h
  have e1 := occurrences_append_of_reachOK pat new old b h.1 a
  have e2 := occurrences_append_of_noStart pat b old h.2
  have e3 := occurrences_le_append_left pat b new
  omega

theorem occurrences_le_replace (pat s old new : Text) (h : keeps pat old new = true)
    (hplain : plainReplacement new = true) :
    occurrences pat s ≤ occurrences pat (replace s old new) := by
  cases hi : includes s old with
  | false => rw [replace_of_not_includes s old new hi]
  | true =>
    obtain ⟨a, b, hs, hr⟩ := replace_of_includes s old new hi hplain
    rw [hr]
    nth_rewrite 1 [hs]
    exact occurrences_le_swap pat old new a b h

theorem includes_of_infix_of_includes (s mid pat : Text) (hp : pat <:+: mid)
    (hm : includes s mid = true) : includes s pat = true :=
  (includes_eq_true_iff s pat).mpr (hp.trans ((includes_eq_true_iff s mid).mp hm))

theorem PathNormalization.helpers_inserted_of_includes (code : Text)
    (h : includes code PathNormalization.helperTarget = true) :
    ∃ a b, code = a ++ b ∧
      PathNormalization.patch1 code = a ++ (PathNormalization.normalizer ++ b) := by
  obtain ⟨a, b, hs, hidx⟩ := indexOf_of_includes code _ h
  refine ⟨a, PathNormalization.helperTarget ++ b, hs, ?_⟩
  have hne : indexOf code PathNormalization.helperTarget ≠ -1 := by rw [hidx]; omega
  have htake : code.take a.length = a := by rw [hs, List.take_left]
  have hdrop : code.drop a.length = PathNormalization.helperTarget ++ b := by
    rw [hs, List.drop_left]
  simp only [PathNormalization.patch1, hne, if_false]
  rw [hidx, substring_zero, substringFrom_natCast, htake, hdrop, List.append_assoc]

set_option maxRecDepth 1000000 in
theorem PathNormalization.loadPattern_in_normalizer :
    "__normFileMap(".toList <:+: PathNormalization.normalizer := by
  rw [← includes_eq_true_iff]
  decide!

set_option maxRecDepth 1000000 in
theorem PathNormalization.keeps_loadPattern_patch2 :
    keeps "__normFileMap(".toList PathNormalization.oldActivity PathNormalization.newActivity
      = true := by decide!

set_option maxRecDepth 1000000 in
theorem PathNormalization.safePair_oldLoadMap :
    (safePair PathNormalization.oldLoadMap [] PathNormalization.normalizer
      && safePair PathNormalization.oldLoadMap PathNormalization.oldActivity
        PathNormalization.newActivity) = true := by decide!

theorem PathNormalization.includes_patch2_patch1 (code : Text)
    (h : includes code PathNormalization.helperTarget = true) :
    includes (PathNormalization.patch2 (PathNormalization.patch1 code)) "__normFileMap(".toList
      = true := by
  have hne : "__normFileMap(".toList ≠ [] := by decide
  obtain ⟨a, b, -, h1⟩ := PathNormalization.helpers_inserted_of_includes code h
  have hin : "__normFileMap(".toList <:+: PathNormalization.patch1 code := by
    rw [h1]
    exact PathNormalization.loadPattern_in_normalizer.trans ⟨a, b, by simp⟩
  have hpos := (occurrences_pos_iff _ hne _).mpr hin
  rw [includes_eq_true_iff, ← occurrences_pos_iff _ hne]
  unfold PathNormalization.patch2
  split_ifs
  · exact Nat.lt_of_lt_of_le hpos (occurrences_le_replace _ _ _ _
      PathNormalization.keeps_loadPattern_patch2 (by decide))
  · exact hpos

theorem PathNormalization.includes_patch3 (code : Text)
    (h : includes code "__normFileMap(".toList = true) :
    includes (PathNormalization.patch3 code) "__normFileMap(".toList = true := by
  cases hi : includes code PathNormalization.oldLoadMap with
  | false => simpa [PathNormalization.patch3, hi] using h
  | true =>
    obtain ⟨f, pos, -, -, -, -, hp⟩ := patch3_of_includes code hi
    rw [hp, includes_eq_true_iff]
    exact ⟨code.take f, (code.drop f).take (pos - f) ++ ")".toList ++ code.drop pos, by simp⟩

theorem PathNormalization.includes_patch4 (code : Text)
    (h : includes code "__normFileMap(".toList = true) :
    includes (PathNormalization.patch4 code) "__normFileMap(".toList = true := by
  unfold PathNormalization.patch4
  split_ifs with hi
  · obtain ⟨a, b, -, hr⟩ := replace_of_includes code _ PathNormalization.newGetMap hi (by decide)
    have hin : "__normFileMap(".toList <:+: PathNormalization.newGetMap := by
      rw [← includes_eq_true_iff]
      decide
    rw [hr, includes_eq_true_iff]
    exact hin.trans ⟨a, b, by simp⟩
  · exact h

theorem PathNormalization.patch3_not_applied (code : Text)
    (h : includes code PathNormalization.oldLoadMap = false) :
    PathNormalization.patch3 (PathNormalization.patch2 (PathNormalization.patch1 code))
      = PathNormalization.patch2 (PathNormalization.patch1 code) := by
  have hne : PathNormalization.oldLoadMap ≠ [] := by decide
  have hsafe := PathNormalization.safePair_oldLoadMap
  rw [Bool.and_eq_true] at hsafe
  have h0 : occurrences PathNormalization.oldLoadMap code = 0 :=
    (occurrences_eq_zero_iff _ hne code).mpr h
  have h1 : occurrences PathNormalization.oldLoadMap (PathNormalization.patch1 code) = 0 := by
    unfold PathNormalization.patch1
    dsimp only
    split_ifs with hidx
    · exact h0
    · exact occurrences_insertBefore_eq_zero _ _ _ _ hsafe.1 h0 hidx
  have h2 : occurrences PathNormalization.oldLoadMap
      (PathNormalization.patch2 (PathNormalization.patch1 code)) = 0 := by
    unfold PathNormalization.patch2
    split_ifs
    · exact occurrences_replace_eq_zero _ _ _ _ hsafe.2 (by decide) h1
    · exact h1
  have h3 := (occurrences_eq_zero_iff _ hne _).mp h2
  simp [PathNormalization.patch3, h3]

theorem PathNormalization.mem_results_load (verifyCode : Text) (found : Bool) :
    ("file-map:load normalization", found) ∈ PathNormalization.results verifyCode ↔
      includes verifyCode "__normFileMap(".toList = found := by
  simp only [PathNormalization.results, PathNormalization.checks, List.map_cons, List.map_nil,
    List.mem_cons, Prod.mk.injEq, List.mem_singleton, List.not_mem_nil, or_false]
  constructor
  · rintro (⟨h, -⟩ | ⟨h, -⟩ | ⟨h, -⟩ | ⟨-, h⟩ | ⟨h, -⟩)
    · exact absurd h (by decide)
    · exact absurd h (by decide)
    · exact absurd h (by decide)
    · exact h.symm
    · exact absurd h (by decide)
  · intro h
    exact Or.inr (Or.inr (Or.inr (Or.inl ⟨trivial, h.symm⟩)))

theorem PathNormalization.mem_results_helper (verifyCode : Text) (found : Bool) :
    ("__normFileMap helper", found) ∈ PathNormalization.results verifyCode ↔
      includes verifyCode "function __normFileMap(fm)".toList = found := by
  simp only [PathNormalization.results, PathNormalization.checks, List.map_cons, List.map_nil,
    List.mem_cons, Prod.mk.injEq, List.mem_singleton, List.not_mem_nil, or_false]
  constructor
  · rintro (⟨h, -⟩ | ⟨-, h⟩ | ⟨h, -⟩ | ⟨h, -⟩ | ⟨h, -⟩)
    · exact absurd h (by decide)
    · exact h.symm
    · exact absurd h (by decide)
    · exact absurd h (by decide)
    · exact absurd h (by decide)
  · intro h
    exact Or.inr (Or.inl ⟨trivial, h.symm⟩)

/-! ## Lemmas on PART 1 of `patch-rebrand.js` -/

theorem occurrences_le_swap_tail (pat old new a b tail : Text) (h : keeps pat old new = true)
    (ht : occurrences pat b ≤ occurrences pat tail) :
    occurrences pat (a ++ (old ++ b)) ≤ occurrences pat (a ++ (new ++ tail)) := by
  simp only [keeps, Bool.and_eq_true] at h
  have e1 := occurrences_swap_add_le pat new old tail b h.1 a
  have e2 := occurrences_append_of_noStart pat b old h.2
  have e3 := occurrences_le_append_left pat tail new
  omega

theorem occurrences_le_replaceAllAux (pat old new str : Text)
    (h : keeps pat old new = true) (hplain : plainReplacement new = true) (hold : old ≠ []) :
    ∀ (n : Nat) (s : Text) (position : Nat), s.length ≤ n →
      occurrences pat s ≤ occurrences pat (replaceAllAux old new str s position 0) := by
  intro n
  induction n with
  | zero =>
    intro s position hlen
    have : s = [] := List.length_eq_zero.mp (Nat.le_zero.mp hlen)
    subst this
    exact Nat.le_refl _
  | succ n ih =>
    intro s position hlen
    rcases indexOfAux_spec old s 0 with ⟨-, hno⟩ | ⟨a, b, hs, -, hfirst⟩
    · rw [replaceAllAux_of_absent old new str s position hno]
    · have hfirst2 : ∀ i, i < a.length → ¬ old <+: (a ++ (old ++ b)).drop i := by
        intro i hi
        rw [← hs]
        exact hfirst i hi
      have hlenb : b.length ≤ n := by
        have hl : s.length = a.length + (old.length + b.length) := by
          rw [hs, List.length_append, List.length_append]
        have : 0 < old.length := List.length_pos.mpr hold
        omega
      rw [hs, replaceAllAux_of_no_match old new str a (old ++ b) position hfirst2,
        replaceAllAux_of_match old new str b (position + a.length) hold,
        getSubstitution_of_plain _ _ _ _ hplain]
      exact occurrences_le_swap_tail pat old new a b _ h (ih b _ hlenb)

theorem occurrences_le_replaceAll (pat s old new : Text)
    (h : keeps pat old new = true) (hplain : plainReplacement new = true) (hold : old ≠ []) :
    occurrences pat s ≤ occurrences pat (replaceAll s old new) :=
  occurrences_le_replaceAllAux pat old new s h hplain hold s.length s 0 (Nat.le_refl _)

theorem Rebrand.occurrences_le_replaceFirst (pat s old new : Text)
    (h : keeps pat old new = true) (hplain : plainReplacement new = true) :
    occurrences pat s ≤ occurrences pat (Rebrand.replaceFirst s old new) := by
  unfold Rebrand.replaceFirst
  split_ifs
  · exact occurrences_le_replace pat s old new h hplain
  · exact Nat.le_refl _

theorem Rebrand.keeps_laterSteps :
    (Rebrand.laterSteps.all fun p =>
      keeps "roro-dev".toList p.1 p.2 && plainReplacement p.2 && !p.1.isEmpty) = true := by
  decide

/-- Steps 1b to 1g remove no occurrence of `roro-dev`. -/
theorem Rebrand.occurrences_le_part1 (mainCode : Text) :
    occurrences "roro-dev".toList (Rebrand.step1a mainCode).1
      ≤ occurrences "roro-dev".toList (Rebrand.part1 mainCode) := by
  have hall := List.all_eq_true.mp Rebrand.keeps_laterSteps
  have hstep : ∀ p ∈ Rebrand.laterSteps,
      keeps "roro-dev".toList p.1 p.2 = true ∧ plainReplacement p.2 = true ∧ p.1 ≠ [] := by
    intro p hp
    have := hall p hp
    simp only [Bool.and_eq_true, Bool.not_eq_true', List.isEmpty_eq_false] at this
    exact ⟨this.1.1, this.1.2, this.2⟩
  have h1 := hstep (Rebrand.oauthOld, Rebrand.oauthNew) (by simp [Rebrand.laterSteps])
  have h2 := hstep (Rebrand.nameOld, Rebrand.nameNew) (by simp [Rebrand.laterSteps])
  have h3 := hstep (Rebrand.avatarOld, Rebrand.avatarNew) (by simp [Rebrand.laterSteps])
  have h4 := hstep (Rebrand.protocolOld, Rebrand.protocolNew) (by simp [Rebrand.laterSteps])
  have h5 := hstep (Rebrand.urlOld, Rebrand.urlNew) (by simp [Rebrand.laterSteps])
  have h6 := hstep (Rebrand.titleOld, Rebrand.titleNew) (by simp [Rebrand.laterSteps])
  unfold Rebrand.part1
  dsimp only
  exact (occurrences_le_replaceAll _ _ _ _ h1.1 h1.2.1 h1.2.2).trans
    ((Rebrand.occurrences_le_replaceFirst _ _ _ _ h2.1 h2.2.1).trans
    ((Rebrand.occurrences_le_replaceFirst _ _ _ _ h3.1 h3.2.1).trans
    ((occurrences_le_replaceAll _ _ _ _ h4.1 h4.2.1 h4.2.2).trans
    ((occurrences_le_replaceAll _ _ _ _ h5.1 h5.2.1 h5.2.2).trans
    (Rebrand.occurrences_le_replaceFirst _ _ _ _ h6.1 h6.2.1)))))

theorem Rebrand.mem_mainResults_remaining (verifyMain : Text) :
    ("No remaining roro-dev", !includes verifyMain "roro-dev".toList)
      ∈ Rebrand.mainResults verifyMain := by
  simp [Rebrand.mainResults, Rebrand.mainChecks]

/-! ## Claims -/

/-- C1: when the opening brace at index `pre.length` has a matching closing
brace (the text `inner` between them is balanced: its net depth is zero and no
prefix of it closes more braces than it opens), the brace scan of PATCH 3
started just after the opening brace stops with depth 0 just after that
matching brace, whose index is `pre.length + 1 + inner.length`; and on
`f(x,{a:{b:1},c:2})` scanned from index 5 the end found is index 16, the outer
closing brace right before the final parenthesis, not index 11, the first
closing brace met. -/
theorem braceScan_ends_at_matching_brace (pre inner post : Text)
    (hbal : netDepth '{' '}' inner = 0)
    (hpre : ∀ m, 0 ≤ netDepth '{' '}' (inner.take m)) :
    braceScan (pre ++ '{' :: (inner ++ '}' :: post)) (pre.length + 1)
        = (pre.length + 1 + inner.length + 1, 0)
      ∧ (pre ++ '{' :: (inner ++ '}' :: post))[pre.length + 1 + inner.length]? = some '}'
      ∧ braceScan "f(x,\x7ba:\x7bb:1\x7d,c:2\x7d)".toList 5 = (16 + 1, 0)
      ∧ indexOf "f(x,\x7ba:\x7bb:1\x7d,c:2\x7d)".toList "\x7d".toList = 11
      ∧ "f(x,\x7ba:\x7bb:1\x7d,c:2\x7d)".toList.drop 16 = "\x7d)".toList := by
  refine ⟨?_, ?_, by decide, by decide, by decide⟩
  · have hdrop : (pre ++ '{' :: (inner ++ '}' :: post)).drop (pre.length + 1)
        = inner ++ '}' :: post := by
      rw [← List.drop_drop, List.drop_left]
      rfl
    have hscan := scanLoop_append '{' '}' inner ('}' :: post) (pre.length + 1) 1
      (fun m => by have := hpre m; omega)
    simp only [braceScan, hdrop, hscan, hbal]
    have hone : ((1 : Nat) : Int) + 0 = ((1 : Nat) : Int) := by omega
    rw [hone, Int.toNat_ofNat, scanLoop_cons _ _ _ _ _ _ (by decide)]
    have hd : (if '}' = '{' then 1 + 1 else if '}' = '}' then 1 - 1 else 1) = 0 := by decide
    rw [hd, scanLoop_zero]
  · rw [List.getElem?_append_right (by omega)]
    have : pre.length + 1 + inner.length - pre.length = inner.length + 1 := by omega
    rw [this, List.getElem?_cons_succ, List.getElem?_append_right (by omega)]
    simp

/-- Witness for C1 on the text `f(x,{a:{b:1},c:2})`: the brace opened at index 4
is matched at index 16. -/
theorem braceScan_ends_at_matching_brace_witness :
    braceScan "f(x,\x7ba:\x7bb:1\x7d,c:2\x7d)".toList 5 = (17, 0) :=
  (braceScan_ends_at_matching_brace "f(x,".toList "a:\x7bb:1\x7d,c:2".toList ")".toList
    (by decide)
    (by
      intro m
      have hm : m ≤ 11 ∨ 11 < m := by omega
      rcases hm with hm | hm
      · interval_cases m <;> decide
      · have : "a:\x7bb:1\x7d,c:2".toList.take m = "a:\x7bb:1\x7d,c:2".toList :=
          List.take_of_length_le (by simpa using by omega)
        rw [this]; decide)).1

/-- C2 (the code diverges from the claim): PATCH 3 never looks at the depth the
brace scan ends with.  On every main text that contains its anchor, the text
from the opening brace of `fileMap:{` (index `f`) to the position where the
scan stops is wrapped in `__normFileMap(` ... `)`, also when the scan stops at
the end of the text with depth greater than zero: the patched text is 15 code
units longer than the text before, hence never identical to it. -/
theorem patch3_applied_whatever_the_depth (code : Text)
    (h : includes code PathNormalization.oldLoadMap = true) :
    (PathNormalization.patch3 code).length = code.length + 15
      ∧ PathNormalization.patch3 code ≠ code
      ∧ ∃ f : Nat, code.drop (f - 8) = "fileMap:\x7b".toList ++ code.drop (f + 1)
          ∧ PathNormalization.patch3 code
            = code.take f
                ++ ("__normFileMap(".toList
                  ++ (code.drop f).take ((braceScan code (f + 1)).1 - f) ++ ")".toList)
                ++ code.drop (braceScan code (f + 1)).1 := by
  obtain ⟨f, pos, hlt, hle, hf, hscan, hp⟩ := patch3_of_includes code h
  have hpos : (braceScan code (f + 1)).1 = pos := by rw [hscan]
  have hlen : (PathNormalization.patch3 code).length = code.length + 15 := by
    rw [hp]
    simp only [List.length_append, List.length_take, List.length_drop]
    have h14 : "__normFileMap(".toList.length = 14 := by decide
    have h1 : ")".toList.length = 1 := by decide
    rw [h14, h1]
    omega
  refine ⟨hlen, fun heq => ?_, f, hf, ?_⟩
  · rw [heq] at hlen; omega
  · rw [hpos]; exact hp

set_option maxRecDepth 1000000 in
/-- Evaluation for C2 on `unterminatedLoadMap` (302 code units): the brace scan
started at index 120, just after the opening brace of the `fileMap` object,
reaches the end of the text with depth 1, and PATCH 3 still rewrites the text:
everything from index 119 to the end is wrapped in `__normFileMap(` ... `)`. -/
theorem patch3_applied_whatever_the_depth_witness :
    braceScan unterminatedLoadMap 120 = (302, 1)
      ∧ unterminatedLoadMap.length = 302
      ∧ PathNormalization.patch3 unterminatedLoadMap ≠ unterminatedLoadMap
      ∧ PathNormalization.patch3 unterminatedLoadMap
          = unterminatedLoadMap.take 119 ++ "__normFileMap(".toList
              ++ unterminatedLoadMap.drop 119 ++ ")".toList :=
  ⟨by decide!, by decide!,
    (patch3_applied_whatever_the_depth unterminatedLoadMap (by decide!)).2.1, by decide!⟩

/-- C3: a guarded step of `patch-windows-renderer.js` whose anchor does not occur
in the buffer leaves the buffer as it is; a renderer text that contains none of
the anchors is written back unchanged by the whole script; and the single
guarded step of `patch-agent-badges.js` and of `patch-agent-templates.js`
leaves a text without its anchor unchanged. -/
theorem absent_anchor_leaves_buffer (buf : Text) :
    (∀ st ∈ WindowsRenderer.steps, includes buf st.anchor = false → applyStep st buf = buf)
      ∧ ((∀ st ∈ WindowsRenderer.steps, includes buf st.anchor = false) →
          WindowsRenderer.run buf = buf)
      ∧ (includes buf AgentBadges.searchPattern = false → AgentBadges.run buf = buf)
      ∧ (includes buf AgentTemplates.oldButton = false → AgentTemplates.run buf = buf) := by
  refine ⟨fun st _ h => by simp [applyStep, h], fun h => ?_, fun h => by simp [AgentBadges.run, h],
    fun h => by simp [AgentTemplates.run, h]⟩
  unfold WindowsRenderer.run applySteps
  generalize WindowsRenderer.steps = l at h
  induction l with
  | nil => rfl
  | cons st rest ih =>
    have hst : applyStep st buf = buf := by
      simp [applyStep, h st (List.mem_cons_self _ _)]
    rw [List.foldl_cons, hst]
    exact ih (fun s hs => h s (List.mem_cons_of_mem _ hs))

set_option maxRecDepth 1000000 in
/-- Witness for C3: the text `console.log(1)` holds none of the anchors and is
written back unchanged by `patch-windows-renderer.js`. -/
theorem absent_anchor_leaves_buffer_witness :
    WindowsRenderer.run "console.log(1)".toList = "console.log(1)".toList :=
  (absent_anchor_leaves_buffer "console.log(1)".toList).2.1 (by decide!)

/-- C4 (the code diverges from the claim): when the process-detection anchor is
absent from the main text, `patch-process-detection.js` calls
`process.exit(0)`; required from `build-win.js` this ends the build process:
the files are left as they were, the exit code is 0, nothing is logged by a
`catch` block, and the first script is the only one that was required, however
the other scripts would behave. -/
theorem absent_detection_anchor_ends_build
    (others : String → BuildWin.Files → Outcome BuildWin.Files) (files : BuildWin.Files)
    (h : includes files.main ProcessDetection.searchPattern = false) :
    BuildWin.applyPatches (BuildWin.withProcessDetection others) files
      = ⟨files, ["./patch-process-detection.js"], [], some 0⟩ := by
  have hstep : ∀ onError : Message → String,
      BuildWin.tryRequire (BuildWin.withProcessDetection others)
        "./patch-process-detection.js" onError ⟨files, [], [], none⟩
      = ⟨files, ["./patch-process-detection.js"], [], some 0⟩ := by
    intro onError
    simp [BuildWin.tryRequire, BuildWin.withProcessDetection, BuildWin.processDetection,
      run_of_not_includes _ h]
  unfold BuildWin.applyPatches BuildWin.patchScripts
  rw [List.foldl_cons, hstep]
  exact foldl_tryRequire_of_exited _ _ _ 0 rfl

set_option maxRecDepth 1000000 in
/-- Evaluation for C4 on the main text `const a=1;` with every other script
returning normally: only `patch-process-detection.js` is required and the
build ends with exit code 0. -/
theorem absent_detection_anchor_ends_build_witness :
    (BuildWin.applyPatches (BuildWin.withProcessDetection (fun _ f => Outcome.returned f))
        ⟨"const a=1;".toList, [], []⟩).required = ["./patch-process-detection.js"]
      ∧ (BuildWin.applyPatches (BuildWin.withProcessDetection (fun _ f => Outcome.returned f))
        ⟨"const a=1;".toList, [], []⟩).exitCode = some 0 := by
  rw [absent_detection_anchor_ends_build (fun _ f => Outcome.returned f)
    ⟨"const a=1;".toList, [], []⟩ (by decide!)]
  exact ⟨rfl, rfl⟩

/-- C5 (the code diverges from the claim): a thrown value other than `null` and
`undefined` is caught by the `catch` block of its step, which logs a line, and
the build goes on with the files as the script left them.  While every script
lets the build go on, the steps require the scripts in the listed order, each on
the files the one before left, and after step 14 all fourteen have been
required and the process is still running.  But a script that throws `null` or
`undefined` is not caught: `e.message` throws inside the handler, nothing is
logged, the exception leaves `main` and the build ends with exit code 1, none
of the later scripts being required; the same holds, with its exit code, for a
script that calls `process.exit`. -/
theorem thrown_null_escapes_patch_steps {σ : Type} (scripts : String → σ → Outcome σ)
    (files : σ) :
    (∀ (b : BuildWin.Build σ) (script : String) (onError : Message → String) (s : σ)
        (isSyntaxError : Bool) (message : Message), b.exitCode = none →
        scripts script b.files = Outcome.threw s (Thrown.value isSyntaxError message) →
        BuildWin.tryRequire scripts script onError b
          = ⟨s, b.required ++ [script], b.logged ++ [onError message], none⟩) ∧
    (∀ before after, BuildWin.patchScripts = before ++ after →
      BuildWin.allGoOn scripts before files = true →
      before.foldl (fun b p => BuildWin.tryRequire scripts p.1 p.2 b) ⟨files, [], [], none⟩
        = ⟨BuildWin.filesAfter scripts before files, before.map Prod.fst,
            BuildWin.linesAfter scripts before files, none⟩) ∧
    (BuildWin.allGoOn scripts BuildWin.patchScripts files = true →
      BuildWin.applyPatches scripts files
        = ⟨BuildWin.filesAfter scripts BuildWin.patchScripts files,
            ["./patch-process-detection.js", "./patch-windows-improvements.js",
             "./patch-startup-reliability.js", "./patch-ollama-integration.js",
             "./patch-windows-renderer.js", "./patch-path-normalization.js",
             "./patch-model-hub.js", "./patch-agent-model-picker.js",
             "./patch-agent-badges.js", "./patch-agent-templates.js",
             "./patch-conversation-export.js", "./patch-color-palette.js",
             "./patch-rebrand.js", "./patch-ui-polish.js"],
            BuildWin.linesAfter scripts BuildWin.patchScripts files, none⟩) ∧
    (∀ before script onError after s, BuildWin.patchScripts = before ++ (script, onError) :: after →
      BuildWin.allGoOn scripts before files = true →
      (scripts script (BuildWin.filesAfter scripts before files)
          = Outcome.threw s Thrown.nullish →
        BuildWin.applyPatches scripts files
          = ⟨s, before.map Prod.fst ++ [script], BuildWin.linesAfter scripts before files,
              some 1⟩) ∧
      (∀ code, scripts script (BuildWin.filesAfter scripts before files)
          = Outcome.exited s code →
        BuildWin.applyPatches scripts files
          = ⟨s, before.map Prod.fst ++ [script], BuildWin.linesAfter scripts before files,
              some code⟩)) := by
  refine ⟨?_, ?_, ?_, ?_⟩
  · intro b script onError s isSyntaxError message hb hs
    simp [BuildWin.tryRequire, hb, hs, BuildWin.catchLine]
  · intro before after _ hall
    have h := BuildWin.foldl_tryRequire_of_allGoOn scripts before ⟨files, [], [], none⟩ rfl hall
    simpa using h
  · intro hall
    have h := BuildWin.foldl_tryRequire_of_allGoOn scripts BuildWin.patchScripts
      ⟨files, [], [], none⟩ rfl hall
    simp only [List.nil_append] at h
    unfold BuildWin.applyPatches
    rw [h]
    rfl
  · intro before script onError after s hsplit hall
    have h := BuildWin.foldl_tryRequire_of_stop scripts before after script onError files hall
    unfold BuildWin.applyPatches
    rw [hsplit]
    exact ⟨h.1 s, fun code => h.2 s code⟩

set_option maxRecDepth 1000000 in
/-- Witness for C5.  With every script throwing an `Error` all fourteen scripts
are required and fourteen lines are logged; so it is with the script
`patch-process-detection.js` itself on a main text that holds its anchor.  When
`patch-windows-improvements.js` throws `null`, the build ends with exit code 1
after two scripts, nothing is logged and the twelve later scripts are not
required. -/
theorem thrown_null_escapes_patch_steps_witness :
    BuildWin.allGoOn BuildWin.throwingScripts BuildWin.patchScripts 0 = true ∧
    (BuildWin.applyPatches BuildWin.throwingScripts 0).files = 14 ∧
    (BuildWin.applyPatches BuildWin.throwingScripts 0).required.length = 14 ∧
    (BuildWin.applyPatches BuildWin.throwingScripts 0).logged.length = 14 ∧
    (BuildWin.applyPatches BuildWin.throwingScripts 0).exitCode = none ∧
    (BuildWin.applyPatches
      (BuildWin.withProcessDetection fun _ f =>
        Outcome.threw f (Thrown.value false (Message.text "boom")))
      ⟨detectionSample, [], []⟩).required.length = 14 ∧
    BuildWin.nullThrowingScripts "./patch-windows-improvements.js" 1
      = Outcome.threw 2 Thrown.nullish ∧
    BuildWin.applyPatches BuildWin.nullThrowingScripts 0
      = ⟨2, ["./patch-process-detection.js", "./patch-windows-improvements.js"], [],
          some 1⟩ := by
  have hall : BuildWin.allGoOn BuildWin.throwingScripts BuildWin.patchScripts 0 = true := by
    decide
  have hrun := (thrown_null_escapes_patch_steps BuildWin.throwingScripts 0).2.2.1 hall
  have hreal := (thrown_null_escapes_patch_steps
    (BuildWin.withProcessDetection fun _ f =>
      Outcome.threw f (Thrown.value false (Message.text "boom")))
    ⟨detectionSample, [], []⟩).2.2.1 (by decide!)
  have hnull := ((thrown_null_escapes_patch_steps BuildWin.nullThrowingScripts 0).2.2.2
    [("./patch-process-detection.js", fun message =>
      "  Process detection patch: "
        ++ (if message.truthy then message.shown else "applied or skipped"))]
    "./patch-windows-improvements.js"
    (fun message => "  Windows improvements patch error: " ++ message.shown)
    (BuildWin.patchScripts.drop 2) 2 rfl (by decide)).1 (by decide)
  refine ⟨hall, ?_, ?_, ?_, ?_, ?_, by decide, hnull⟩
  · rw [hrun]; decide
  · rw [hrun]; rfl
  · rw [hrun]; decide
  · rw [hrun]
  · rw [hreal]; rfl

/-- C6 (the code diverges from the claim): PATCH 1 of
`patch-windows-improvements.js` has no test for an earlier application.  On
every main text that contains `c.app.whenReady()` the first run inserts the
lock code and keeps the anchor, and the second run inserts the lock code once
more: the text grows again by the length of the lock code, so running the patch
twice does not give the same text as running it once. -/
theorem patch1_inserts_lock_again (code : Text) (h : includes code "c.app.whenReady()".toList = true) :
    (WindowsImprovements.patch1 (WindowsImprovements.patch1 code)).length
        = (WindowsImprovements.patch1 code).length + WindowsImprovements.singleInstanceCode.length
      ∧ WindowsImprovements.patch1 (WindowsImprovements.patch1 code)
        ≠ WindowsImprovements.patch1 code := by
  obtain ⟨a, b, _, h1⟩ := patch1_of_includes code h
  have hin : includes (WindowsImprovements.patch1 code) "c.app.whenReady()".toList = true := by
    rw [includes_eq_true_iff, h1]
    exact ⟨a ++ WindowsImprovements.singleInstanceCode, b, by simp⟩
  obtain ⟨a2, b2, h2, h3⟩ := patch1_of_includes _ hin
  have hlen : (WindowsImprovements.patch1 (WindowsImprovements.patch1 code)).length
        = (WindowsImprovements.patch1 code).length + WindowsImprovements.singleInstanceCode.length := by
    rw [h3, h2]
    simp only [List.length_append]; omega
  refine ⟨hlen, fun heq => ?_⟩
  rw [heq] at hlen
  have : 0 < WindowsImprovements.singleInstanceCode.length := by decide!
  omega

set_option maxRecDepth 1000000 in
/-- Evaluation for C6 on the main text `c.app.whenReady().then(me)`: after two
runs the text starts with two copies of the lock code. -/
theorem patch1_inserts_lock_again_witness :
    WindowsImprovements.patch1 (WindowsImprovements.patch1 "c.app.whenReady().then(me)".toList)
        ≠ WindowsImprovements.patch1 "c.app.whenReady().then(me)".toList
      ∧ WindowsImprovements.patch1 (WindowsImprovements.patch1 "c.app.whenReady().then(me)".toList)
        = WindowsImprovements.singleInstanceCode ++ WindowsImprovements.singleInstanceCode
            ++ "c.app.whenReady().then(me)".toList :=
  ⟨(patch1_inserts_lock_again "c.app.whenReady().then(me)".toList (by decide!)).2, by decide!⟩

set_option maxRecDepth 1000000 in
/-- C7 (the code diverges from the claim): the replacement of PATCH 6 of
`patch-windows-renderer.js` starts with the anchor itself, so the guard
`code.includes(codexButtonEnd)` holds again on the output: for every renderer
text that contains the Codex button end, re-running PATCH 6 on its own output
changes the text again (it grows by one more Ollama button). -/
theorem patch6_appends_button_again (code : Text) (h : includes code WindowsRenderer.codexButtonEnd = true) :
    applyStep WindowsRenderer.patch6 (applyStep WindowsRenderer.patch6 code)
      ≠ applyStep WindowsRenderer.patch6 code := by
  have hplain : plainReplacement (WindowsRenderer.codexButtonEnd ++ WindowsRenderer.ollamaButton) = true := by
    decide!
  have hstep : ∀ x, includes x WindowsRenderer.codexButtonEnd = true →
      includes (applyStep WindowsRenderer.patch6 x) WindowsRenderer.codexButtonEnd = true
      ∧ (applyStep WindowsRenderer.patch6 x).length = x.length + WindowsRenderer.ollamaButton.length := by
    intro x hx
    obtain ⟨a, b, hs, hr⟩ := replace_of_includes x WindowsRenderer.codexButtonEnd
      (WindowsRenderer.codexButtonEnd ++ WindowsRenderer.ollamaButton) hx hplain
    have e : applyStep WindowsRenderer.patch6 x
        = a ++ (WindowsRenderer.codexButtonEnd ++ WindowsRenderer.ollamaButton ++ b) := by
      simp only [applyStep, WindowsRenderer.patch6, hx, if_true]
      exact hr
    refine ⟨?_, ?_⟩
    · rw [includes_eq_true_iff, e]
      exact ⟨a, WindowsRenderer.ollamaButton ++ b, by simp⟩
    · rw [e, hs]
      simp only [List.length_append]; omega
  obtain ⟨h1, _⟩ := hstep code h
  obtain ⟨_, h4⟩ := hstep _ h1
  intro heq
  rw [heq] at h4
  have : 0 < WindowsRenderer.ollamaButton.length := by decide!
  omega

set_option maxRecDepth 1000000 in
/-- Evaluation for C7 on a renderer text made of the Codex button end: after two
runs of PATCH 6 the Ollama button follows it twice. -/
theorem patch6_appends_button_again_witness :
    applyStep WindowsRenderer.patch6
        (applyStep WindowsRenderer.patch6 WindowsRenderer.codexButtonEnd)
        ≠ applyStep WindowsRenderer.patch6 WindowsRenderer.codexButtonEnd
      ∧ applyStep WindowsRenderer.patch6
          (applyStep WindowsRenderer.patch6 WindowsRenderer.codexButtonEnd)
        = WindowsRenderer.codexButtonEnd ++ WindowsRenderer.ollamaButton
            ++ WindowsRenderer.ollamaButton :=
  ⟨patch6_appends_button_again WindowsRenderer.codexButtonEnd (by decide!), by decide!⟩

set_option maxRecDepth 1000000 in
/-- C8 (the code diverges from the claim): on `detectionSample` the first run of
`patch-process-detection.js` rewrites the `G.exec` call into the
`process.platform==="win32"` conditional, whose second branch still holds the
search pattern.  The second run therefore does not take the
`may already be patched` exit: the method replacement no longer matches, the
fallback replaces the pattern inside the already patched call, and the text
written back differs from the result of the first run. -/
theorem second_detection_run_rewrites_again :
    ProcessDetection.run detectionSample = Outcome.returned
        "isClaudeRunningInSession(e)\x7breturn new Promise(r=>\x7bG.exec(process.platform===\"win32\"?\x60wmic process where \"ParentProcessId=$\x7be\x7d\" get CommandLine 2>nul\x60:\x60ps -o args= -p $(pgrep -P $\x7be\x7d) 2>/dev/null\x60,(a,b)=>\x7br(b.includes(\"claude\"))\x7d)\x7d)\x7ddetectMessageFallback()\x7b\x7d".toList
      ∧ includes (ProcessDetection.run detectionSample).state ProcessDetection.searchPattern = true
      ∧ ProcessDetection.run (ProcessDetection.run detectionSample).state = Outcome.returned
        "isClaudeRunningInSession(e)\x7breturn new Promise(r=>\x7bG.exec(process.platform===\"win32\"?\x60wmic process where \"ParentProcessId=$\x7be\x7d\" get CommandLine 2>nul\x60:\x60$\x7bprocess.platform===\"win32\"?\"wmic process where ParentProcessId=\"+e+\" get CommandLine 2>nul\":\"ps -o args= -p $(pgrep -P \"+e+\") 2>/dev/null\"\x7d\x60,(a,b)=>\x7br(b.includes(\"claude\"))\x7d)\x7d)\x7ddetectMessageFallback()\x7b\x7d".toList
      ∧ (ProcessDetection.run (ProcessDetection.run detectionSample).state).state
        ≠ (ProcessDetection.run detectionSample).state := by
  refine ⟨by decide!, by decide!, by decide!, by decide!⟩

set_option maxRecDepth 1000000 in
/-- C9 as stated fails: on the renderer text made of the R1 anchor twice, the
first application of R1 to R4 rewrites the first occurrence only and the second
application rewrites the remaining one. -/
theorem polish_twice_differs_on_repeated_anchor :
    UiPolish.runRenderer (UiPolish.r1old ++ UiPolish.r1old) = UiPolish.r1new ++ UiPolish.r1old
      ∧ UiPolish.runRenderer (UiPolish.runRenderer (UiPolish.r1old ++ UiPolish.r1old))
          = UiPolish.r1new ++ UiPolish.r1new
      ∧ UiPolish.runRenderer (UiPolish.runRenderer (UiPolish.r1old ++ UiPolish.r1old))
          ≠ UiPolish.runRenderer (UiPolish.r1old ++ UiPolish.r1old) := by
  decide!

set_option maxRecDepth 1000000 in
/-- C9, amended: for every renderer text in which each of the four anchors of R1
to R4 starts at most once, the text written back by R1 to R4 contains none of
the four anchors, and applying R1 to R4 to it once more gives the same text. -/
theorem polish_twice_eq_once_on_unique_anchors (renderer : Text)
    (h : ∀ st ∈ UiPolish.rendererSteps, occurrences st.anchor renderer ≤ 1) :
    UiPolish.runRenderer (UiPolish.runRenderer renderer) = UiPolish.runRenderer renderer
      ∧ ∀ st ∈ UiPolish.rendererSteps,
          includes (UiPolish.runRenderer renderer) st.anchor = false := by
  have hgone : ∀ st ∈ UiPolish.rendererSteps,
      includes (UiPolish.runRenderer renderer) st.anchor = false := by
    intro st hst
    have hz := occurrences_foldl_polish_eq_zero UiPolish.rendererSteps separated_rendererSteps
      UiPolish.rendererSteps (fun _ hs => hs) renderer h st hst
    exact (occurrences_eq_zero_iff st.anchor (separated_rendererSteps st hst).2.1 _).mp hz
  exact ⟨(foldl_polish_eq_iff UiPolish.rendererSteps (by decide!)
    (UiPolish.runRenderer renderer)).mpr hgone, hgone⟩

set_option maxRecDepth 1000000 in
/-- Witness for C9 on the four anchors one after the other. -/
theorem polish_twice_eq_once_on_unique_anchors_witness :
    UiPolish.runRenderer (UiPolish.runRenderer
        (UiPolish.r1old ++ UiPolish.r2old ++ UiPolish.r3old ++ UiPolish.r4old))
      = UiPolish.runRenderer
        (UiPolish.r1old ++ UiPolish.r2old ++ UiPolish.r3old ++ UiPolish.r4old) :=
  (polish_twice_eq_once_on_unique_anchors
    (UiPolish.r1old ++ UiPolish.r2old ++ UiPolish.r3old ++ UiPolish.r4old) (by decide!)).1

set_option maxRecDepth 1000000 in
/-- C10: on `preloadSample` the launchConfig bridge end is absent at first and
present after the preload step of `patch-model-hub.js`; running that step and
then the preload step of `patch-conversation-export.js` adds the
`conversation:{export:` bridge, whereas in the other order the export step
finds no anchor (it leaves the text unchanged) and the final preload lacks the
bridge; and `build-win.js` requires `patch-model-hub.js` before
`patch-conversation-export.js`. -/
theorem preload_patch_order_matters :
    ∃ preload : Text,
      includes preload ConversationExport.lcEnd = false
      ∧ includes (applyStep ModelHub.preloadStep preload) ConversationExport.lcEnd = true
      ∧ includes (applyStep ConversationExport.preloadStep (applyStep ModelHub.preloadStep preload))
          "conversation:\x7bexport:".toList = true
      ∧ applyStep ConversationExport.preloadStep preload = preload
      ∧ includes (applyStep ModelHub.preloadStep (applyStep ConversationExport.preloadStep preload))
          "conversation:\x7bexport:".toList = false
      ∧ (BuildWin.patchScripts.map Prod.fst).indexOf "./patch-model-hub.js"
          < (BuildWin.patchScripts.map Prod.fst).indexOf "./patch-conversation-export.js" :=
  ⟨preloadSample, by decide!⟩

/-- C11: when the check passes after each of the scripts before position `i`
and the check run after script `i` reports a syntax error, the bisection loop
names script `i`, has required exactly the scripts `1..i` and none of the later
ones, and leaves the artifact as script `i` left it; and so does the whole
script, in which the loop follows the check of the fresh copy, when that check
returns. -/
theorem bisection_stops_at_first_syntax_error {σ : Type}
    (scripts : String → σ → Outcome σ) (load : σ → FindBrokenPatch.Load)
    (before after : List (String × String)) (script label : String) (pristine broken : σ)
    (hok : ∀ k, 0 < k → k ≤ before.length →
      ∃ st, FindBrokenPatch.applied scripts (before.take k) pristine = some st ∧
        FindBrokenPatch.check load st = some true)
    (hbad : FindBrokenPatch.applied scripts (before ++ [(script, label)]) pristine = some broken)
    (hcheck : FindBrokenPatch.check load broken = some false) :
    FindBrokenPatch.loop scripts load (before ++ (script, label) :: after)
        ⟨pristine, [], none, none⟩
      = ⟨broken, before.map Prod.fst ++ [script], some script, none⟩ ∧
    (FindBrokenPatch.check load pristine ≠ none →
      FindBrokenPatch.run scripts load (before ++ (script, label) :: after) pristine
        = ⟨broken, before.map Prod.fst ++ [script], some script, none⟩) := by
  have hloop0 : FindBrokenPatch.loop scripts load (before ++ (script, label) :: after)
      ⟨pristine, [], none, none⟩
      = ⟨broken, before.map Prod.fst ++ [script], some script, none⟩ := by
    obtain ⟨st, hst, hloop⟩ := FindBrokenPatch.loop_append_of_checks scripts load before
      ((script, label) :: after) pristine [] hok
    rw [FindBrokenPatch.applied_append, hst] at hbad
    obtain ⟨-, hstep⟩ := FindBrokenPatch.applied_singleton scripts script label st broken hbad
    rw [hloop, hstep load after _ rfl, hcheck]
    simp
  exact ⟨hloop0, fun hfresh => by
    rw [FindBrokenPatch.run_of_fresh scripts load _ pristine hfresh, hloop0]⟩

/-- Witness for C11: on the list of the script, with an artifact that counts the
scripts applied and stops parsing after the third, the marker names
`patch-agent-model-picker.js` and the five later scripts are not required. -/
theorem bisection_stops_at_first_syntax_error_witness :
    FindBrokenPatch.run FindBrokenPatch.countingScripts FindBrokenPatch.loadUntilThree
        FindBrokenPatch.rendererPatches 0
      = ⟨3, ["patch-windows-renderer.js", "patch-model-hub.js", "patch-agent-model-picker.js"],
          some "patch-agent-model-picker.js", none⟩ :=
  (bisection_stops_at_first_syntax_error FindBrokenPatch.countingScripts
    FindBrokenPatch.loadUntilThree
    (FindBrokenPatch.rendererPatches.take 2) (FindBrokenPatch.rendererPatches.drop 3)
    "patch-agent-model-picker.js" "Agent model picker" 0 3
    (by
      intro k hk hle
      have h2 : k ≤ 2 := by simpa [FindBrokenPatch.rendererPatches] using hle
      interval_cases k
      · exact ⟨1, by decide, by decide⟩
      · exact ⟨2, by decide, by decide⟩)
    (by decide) (by decide)).2 (by decide)

/-- C12 (counterexample): when the pristine artifact already fails to parse and
the scripts change nothing, the marker names the first script of the list,
although the artifact was not parseable before that script was applied and the
script did not change it. -/
theorem marker_names_first_script_on_broken_pristine :
    FindBrokenPatch.check FindBrokenPatch.loadNever "const a = ;".toList = some false ∧
      FindBrokenPatch.applied FindBrokenPatch.idleScripts
        [("patch-windows-renderer.js", "Windows renderer (Ollama UI, keyboard, paths)")]
        "const a = ;".toList = some "const a = ;".toList ∧
      (FindBrokenPatch.run FindBrokenPatch.idleScripts FindBrokenPatch.loadNever
        FindBrokenPatch.rendererPatches "const a = ;".toList).brokenBy
        = some "patch-windows-renderer.js" := by
  decide

/-- C12 (amended): when the fresh artifact passes its check, a printed marker
names a script of the list before which the cumulative artifact passed the
check and after which it fails; and the loop ends without a marker and without
a script ending the process exactly when the check passes after every script
of the list. -/
theorem marker_names_offending_script {σ : Type}
    (scripts : String → σ → Outcome σ) (load : σ → FindBrokenPatch.Load)
    (patches : List (String × String)) (pristine : σ)
    (hfresh : FindBrokenPatch.check load pristine = some true) :
    (∀ script, (FindBrokenPatch.run scripts load patches pristine).brokenBy = some script →
      ∃ before label after good broken, patches = before ++ (script, label) :: after ∧
        FindBrokenPatch.applied scripts before pristine = some good ∧
        FindBrokenPatch.check load good = some true ∧
        FindBrokenPatch.applied scripts (before ++ [(script, label)]) pristine = some broken ∧
        FindBrokenPatch.check load broken = some false) ∧
    (((FindBrokenPatch.run scripts load patches pristine).brokenBy = none ∧
        (FindBrokenPatch.run scripts load patches pristine).exitCode = none) ↔
      ∀ k, k ≤ patches.length →
        ∃ st, FindBrokenPatch.applied scripts (patches.take k) pristine = some st ∧
          FindBrokenPatch.check load st = some true) := by
  rw [FindBrokenPatch.run_of_fresh scripts load patches pristine (by rw [hfresh]; simp)]
  rcases FindBrokenPatch.loop_cases scripts load patches pristine [] with
    ⟨hall, hnone, hexit⟩ | ⟨before, s, l, rest, st, hsplit, hpre, hbad, hcb, hres⟩ |
    ⟨before, s, l, rest, hsplit, hbad, hres, hexit⟩
  · refine ⟨?_, ?_⟩
    · intro script h
      rw [hnone] at h
      exact absurd h (by simp)
    · refine ⟨fun _ k hle => ?_, fun _ => ⟨hnone, hexit⟩⟩
      by_cases hk : k = 0
      · subst hk
        exact ⟨pristine, rfl, hfresh⟩
      · exact hall k (Nat.pos_of_ne_zero hk) hle
  · refine ⟨?_, ?_⟩
    · intro script h
      rw [hres] at h
      obtain rfl : s = script := by simpa using h
      by_cases hb : before.length = 0
      · have : before = [] := List.length_eq_zero.mp hb
        subst this
        exact ⟨[], l, rest, pristine, st, hsplit, rfl, hfresh, hbad, hcb⟩
      · obtain ⟨good, hg, hgc⟩ := hpre before.length (Nat.pos_of_ne_zero hb) le_rfl
        rw [List.take_length] at hg
        exact ⟨before, l, rest, good, st, hsplit, hg, hgc, hbad, hcb⟩
    · refine ⟨fun h => ?_, fun h => ?_⟩
      · rw [hres] at h
        exact absurd h.1 (by simp)
      · obtain ⟨st2, hk, hc2⟩ := h (before.length + 1) (by simp [hsplit])
        have htake : patches.take (before.length + 1) = before ++ [(s, l)] := by
          rw [hsplit, List.take_append_eq_append_take]
          simp
        rw [htake, hbad] at hk
        obtain rfl : st = st2 := by simpa using hk
        rw [hcb] at hc2
        exact absurd hc2 (by simp)
  · refine ⟨?_, ?_⟩
    · intro script h
      rw [hres] at h
      exact absurd h (by simp)
    · refine ⟨fun h => absurd h.2 hexit, fun h => ?_⟩
      obtain ⟨st2, hk, hc2⟩ := h (before.length + 1) (by simp [hsplit])
      have htake : patches.take (before.length + 1) = before ++ [(s, l)] := by
        rw [hsplit, List.take_append_eq_append_take]
        simp
      rw [htake] at hk
      rcases hbad with hbad | ⟨st3, hbad, hc3⟩
      · rw [hbad] at hk
        exact absurd hk (by simp)
      · rw [hbad] at hk
        obtain rfl : st3 = st2 := by simpa using hk
        rw [hc3] at hc2
        exact absurd hc2 (by simp)

/-- Witness for C12 (amended): with an artifact that parses until three scripts
have been applied, the fresh check passes and the marker names the third
script, before which the check passed and after which it fails. -/
theorem marker_names_offending_script_witness :
    FindBrokenPatch.check FindBrokenPatch.loadUntilThree 0 = some true ∧
    ∃ before label after good broken,
      FindBrokenPatch.rendererPatches
        = before ++ ("patch-agent-model-picker.js", label) :: after ∧
      FindBrokenPatch.applied FindBrokenPatch.countingScripts before 0 = some good ∧
      FindBrokenPatch.check FindBrokenPatch.loadUntilThree good = some true ∧
      FindBrokenPatch.applied FindBrokenPatch.countingScripts
        (before ++ [("patch-agent-model-picker.js", label)]) 0 = some broken ∧
      FindBrokenPatch.check FindBrokenPatch.loadUntilThree broken = some false :=
  ⟨by decide,
    (marker_names_offending_script FindBrokenPatch.countingScripts
      FindBrokenPatch.loadUntilThree FindBrokenPatch.rendererPatches 0 (by decide)).1
      "patch-agent-model-picker.js" (by decide)⟩

/-- C13 (the code diverges from the claim): `check` returns `false` exactly
when the import throws an instance of `SyntaxError`, and `true` when the import
succeeds or throws another value whose `message` is a string, `undefined` or
`null`.  But it returns neither `true` nor `false` when the import throws `null`
or `undefined`, or a value whose `message` is none of these: the `catch` block
of `check` then throws itself.  `_test-esm.mjs` prints `SYNTAX-ERROR` for the
same loads as `check` returns `false` for, `OK-RUNTIME` for a successful import
and `OK-PARSE` for every other thrown value, `null` and `undefined`
included. -/
theorem check_throws_on_thrown_null {σ : Type} (load : σ → FindBrokenPatch.Load) (file : σ) :
    (FindBrokenPatch.check load file = some false ↔
      ∃ message, load file = FindBrokenPatch.Load.threw (Thrown.value true message)) ∧
    (FindBrokenPatch.check load file = some true ↔
      load file = FindBrokenPatch.Load.loaded ∨
        (∃ value, load file
          = FindBrokenPatch.Load.threw (Thrown.value false (Message.text value))) ∨
        load file = FindBrokenPatch.Load.threw (Thrown.value false Message.undefined) ∨
        load file = FindBrokenPatch.Load.threw (Thrown.value false Message.null)) ∧
    (FindBrokenPatch.check load file = none ↔
      load file = FindBrokenPatch.Load.threw Thrown.nullish ∨
        ∃ shown truthy, load file
          = FindBrokenPatch.Load.threw (Thrown.value false (Message.other shown truthy))) ∧
    (∀ message, load file = FindBrokenPatch.Load.threw (Thrown.value true message) →
      FindBrokenPatch.testEsm (load file) = "SYNTAX-ERROR: " ++ message.shown) ∧
    (load file = FindBrokenPatch.Load.loaded →
      FindBrokenPatch.testEsm (load file) = "OK-RUNTIME") ∧
    (∀ thrown, load file = FindBrokenPatch.Load.threw thrown →
      (∀ message, thrown ≠ Thrown.value true message) →
      FindBrokenPatch.testEsm (load file) = "OK-PARSE") := by
  unfold FindBrokenPatch.check
  cases h : load file with
  | loaded => simp [FindBrokenPatch.classify, FindBrokenPatch.testEsm]
  | threw thrown =>
    cases thrown with
    | nullish => simp [FindBrokenPatch.classify, FindBrokenPatch.testEsm]
    | value isSyntaxError message =>
      cases isSyntaxError <;> cases message <;>
        simp [FindBrokenPatch.classify, FindBrokenPatch.testEsm]

/-- Witness for C13: for an artifact whose code executes `throw null`, `check`
does not return, the script ends at the check of the fresh copy with exit code 1
and without a marker, and `_test-esm.mjs` prints `OK-PARSE`; a load that throws
a `SyntaxError` makes `check` return `false` and `_test-esm.mjs` print
`SYNTAX-ERROR` with the message. -/
theorem check_throws_on_thrown_null_witness :
    FindBrokenPatch.check FindBrokenPatch.loadThrowsNull "throw null;".toList = none ∧
    FindBrokenPatch.testEsm (FindBrokenPatch.loadThrowsNull "throw null;".toList)
      = "OK-PARSE" ∧
    FindBrokenPatch.run FindBrokenPatch.idleScripts FindBrokenPatch.loadThrowsNull
        FindBrokenPatch.rendererPatches "throw null;".toList
      = ⟨"throw null;".toList, [], none, some 1⟩ ∧
    FindBrokenPatch.check FindBrokenPatch.loadNever "const a = ;".toList = some false ∧
    FindBrokenPatch.testEsm (FindBrokenPatch.loadNever "const a = ;".toList)
      = "SYNTAX-ERROR: Unexpected token" :=
  ⟨(check_throws_on_thrown_null FindBrokenPatch.loadThrowsNull "throw null;".toList).2.2.1.2
      (Or.inl rfl),
    (check_throws_on_thrown_null FindBrokenPatch.loadThrowsNull "throw null;".toList).2.2.2.2.2
      Thrown.nullish rfl (fun _ h => by cases h),
    by decide,
    (check_throws_on_thrown_null FindBrokenPatch.loadNever "const a = ;".toList).1.2
      ⟨Message.text "Unexpected token", rfl⟩,
    (check_throws_on_thrown_null FindBrokenPatch.loadNever "const a = ;".toList).2.2.2.1
      (Message.text "Unexpected token") rfl⟩

set_option maxRecDepth 1000000 in
/-- C14 (counterexample): in a build that lacks only `resources/app-update.yml`
the file check of that path fails, and the run ends when the file is read:
exit code 1, neither a `FAILURES:` line nor `ALL CHECKS PASSED`. -/
theorem verify_all_ends_without_failures_line :
    false ∈ VerifyAll.fileResults VerifyAll.noUpdateEnv.existsSync ∧
    (VerifyAll.run VerifyAll.noUpdateEnv).failures = none ∧
    (VerifyAll.run VerifyAll.noUpdateEnv).allPassed = false ∧
    (VerifyAll.run VerifyAll.noUpdateEnv).exitCode = 1 := by
  decide!

/-- C14 (amended): when no statement of the script throws (the four texts can be
read, `package.json` can be read and parsed and has the members the script
goes through), the run ends with a `FAILURES:` line and exit code 1 exactly
when one of the 100 checks failed, and with `ALL CHECKS PASSED` and exit code 0
when none did. -/
theorem verify_all_failure_status_iff (env : VerifyAll.Env)
    (mainCode renderCode appUpdate cssCode : Text)
    (pkg : VerifyAll.Json) (checks : List (String × Bool))
    (hmain : env.readFileSync "out/main/index.js" = some mainCode)
    (hrender : env.readFileSync "out/renderer/assets/index-BFJPEAID.js" = some renderCode)
    (hpkg : env.packageJson = some pkg)
    (hcfg : VerifyAll.cfgChecks pkg = Except.ok checks)
    (hupdate : env.readFileSync "resources/app-update.yml" = some appUpdate)
    (hcss : env.readFileSync "out/renderer/assets/index-CDjYEUtK.css" = some cssCode) :
    (((VerifyAll.run env).failures ≠ none ∧ (VerifyAll.run env).exitCode = 1) ↔
      false ∈ VerifyAll.mainResults mainCode ++ VerifyAll.renderResults renderCode
        ++ VerifyAll.fileResults env.existsSync ++ checks.map Prod.snd
        ++ (VerifyAll.auChecks appUpdate).map Prod.snd
        ++ (VerifyAll.colorChecks cssCode).map Prod.snd) ∧
    (false ∉ VerifyAll.mainResults mainCode ++ VerifyAll.renderResults renderCode
        ++ VerifyAll.fileResults env.existsSync ++ checks.map Prod.snd
        ++ (VerifyAll.auChecks appUpdate).map Prod.snd
        ++ (VerifyAll.colorChecks cssCode).map Prod.snd →
      (VerifyAll.run env).failures = none ∧ (VerifyAll.run env).allPassed = true ∧
        (VerifyAll.run env).exitCode = 0) := by
  rw [VerifyAll.run_of_reads env mainCode renderCode appUpdate cssCode pkg checks
    hmain hrender hpkg hcfg hupdate hcss]
  have hmem : ∀ l : List Bool, false ∈ l ↔ 0 < l.count false := fun l =>
    (List.count_pos_iff).symm
  simp only [hmem, List.count_append, VerifyAll.summary, VerifyAll.tally_eq]
  split_ifs with h
  · simp only [ne_eq, reduceCtorEq, not_false_eq_true, and_self, true_iff, not_lt,
      Nat.le_zero_eq]
    constructor
    · omega
    · intro h0
      omega
  · simp only [ne_eq, not_true_eq_false, false_and, false_iff, not_lt, Nat.le_zero_eq,
      and_self, implies_true, and_true]
    omega

set_option maxRecDepth 1000000 in
/-- Witness for C14 (amended): a build on which every check passes. -/
theorem verify_all_failure_status_iff_witness :
    (VerifyAll.run VerifyAll.goodEnv).failures = none ∧
      (VerifyAll.run VerifyAll.goodEnv).allPassed = true ∧
      (VerifyAll.run VerifyAll.goodEnv).exitCode = 0 :=
  (verify_all_failure_status_iff VerifyAll.goodEnv VerifyAll.goodMain VerifyAll.goodRender
    VerifyAll.goodAppUpdate VerifyAll.goodCss VerifyAll.goodPackage _
    (by decide) (by decide) rfl rfl (by decide) (by decide)).2 (by decide!)

set_option maxRecDepth 1000000 in
/-- C15 (the code diverges from the claim): for every main text that holds
neither the defaults `defaults:{autoLaunch:!1,...}` nor `ollamaModel`, with or
without the `shell:openExternal` anchor, the anchor of PATCH 5 of
`patch-ollama-integration.js` is still absent after
`patch-windows-improvements.js` (whose PATCH 4 writes `autoLaunch:!0`) and
after PATCH 1 to PATCH 4 of `patch-ollama-integration.js`; PATCH 5 changes
nothing, and the result contains neither `ollamaModel:"llama3.2"` nor
`ollamaModel`. -/
theorem ollama_defaults_anchor_not_found (code : Text)
    (hdefaults : includes code OllamaIntegration.oldDefaults = false)
    (hmodel : includes code "ollamaModel".toList = false) :
    includes (OllamaIntegration.patch4 (applySteps OllamaIntegration.steps
      (OllamaIntegration.patch1 (WindowsImprovements.run code))))
        OllamaIntegration.oldDefaults = false ∧
    OllamaIntegration.run (WindowsImprovements.run code)
      = OllamaIntegration.patch4 (applySteps OllamaIntegration.steps
          (OllamaIntegration.patch1 (WindowsImprovements.run code))) ∧
    includes (OllamaIntegration.run (WindowsImprovements.run code))
      "ollamaModel".toList = false ∧
    includes (OllamaIntegration.run (WindowsImprovements.run code))
      "ollamaModel:\"llama3.2\"".toList = false := by
  have hne1 : OllamaIntegration.oldDefaults ≠ [] := by decide
  have hne2 : "ollamaModel".toList ≠ [] := by decide
  have hw1 : safePairs OllamaIntegration.oldDefaults WindowsImprovements.pairs = true := by
    decide!
  have ho1 : safePairs OllamaIntegration.oldDefaults OllamaIntegration.pairs = true := by
    decide!
  have hw2 : safePairs "ollamaModel".toList WindowsImprovements.pairs = true := by decide!
  have ho2 : safePairs "ollamaModel".toList OllamaIntegration.pairs = true := by decide!
  have h1 : includes (OllamaIntegration.patch4 (applySteps OllamaIntegration.steps
      (OllamaIntegration.patch1 (WindowsImprovements.run code))))
        OllamaIntegration.oldDefaults = false :=
    (occurrences_eq_zero_iff _ hne1 _).mp
      (OllamaIntegration.occurrences_beforePatch5 _ _ ho1
        (WindowsImprovements.occurrences_run _ _ hw1
          ((occurrences_eq_zero_iff _ hne1 _).mpr hdefaults)))
  have h2 : OllamaIntegration.run (WindowsImprovements.run code)
      = OllamaIntegration.patch4 (applySteps OllamaIntegration.steps
          (OllamaIntegration.patch1 (WindowsImprovements.run code))) :=
    OllamaIntegration.patch5_of_not_includes _ h1
  have h3 : includes (OllamaIntegration.run (WindowsImprovements.run code))
      "ollamaModel".toList = false := by
    rw [h2]
    exact (occurrences_eq_zero_iff _ hne2 _).mp
      (OllamaIntegration.occurrences_beforePatch5 _ _ ho2
        (WindowsImprovements.occurrences_run _ _ hw2
          ((occurrences_eq_zero_iff _ hne2 _).mpr hmodel)))
  refine ⟨h1, h2, h3, ?_⟩
  rw [includes_eq_false_iff] at h3 ⊢
  intro hlong
  exact h3 (List.IsInfix.trans (by decide) hlong)

set_option maxRecDepth 1000000 in
/-- Witness for C15: `mainSample` has the `shell:openExternal` anchor and the
anchors of the other patches; `patch-windows-improvements.js` puts in the
`launch-config` handlers, and the text the two scripts leave has no
`ollamaModel:"llama3.2"`. -/
theorem ollama_defaults_anchor_not_found_witness :
    includes mainSample "c.ipcMain.handle(\"shell:openExternal\"".toList = true ∧
    includes (WindowsImprovements.run mainSample) "launch-config:get-defaults".toList = true ∧
    includes (OllamaIntegration.run (WindowsImprovements.run mainSample))
      "ollamaModel:\"llama3.2\"".toList = false :=
  ⟨by decide!, by decide!,
    (ollama_defaults_anchor_not_found mainSample (by decide!) (by decide!)).2.2.2⟩

set_option maxRecDepth 1000000 in
/-- C16 (the code diverges from the claim): for every renderer text that holds
neither the anchor `E.jsx((function(){const[showMenu,setMenu]=W.useState...`
nor `Color Themes`, the chat-header replacement of
`patch-conversation-export.js` (whose export button begins with
`E.jsx(function(){const[showMenu,setMenu]=$.useState`) and PART 3 and PART 4 of
`patch-palette-system.js` leave the anchor absent; PART 5 does not find it and
changes nothing, and the output has no palette picker (`Color Themes`). -/
theorem palette_picker_anchor_not_found (renderer : Text)
    (hanchor : includes renderer PaletteSystem.exportIifeStart = false)
    (hpicker : includes renderer "Color Themes".toList = false) :
    indexOf (PaletteSystem.part4
        (PaletteSystem.engineCode ++ ConversationExport.patchRenderer renderer))
      PaletteSystem.exportIifeStart = -1 ∧
    PaletteSystem.patchRenderer (ConversationExport.patchRenderer renderer)
      = PaletteSystem.part4
          (PaletteSystem.engineCode ++ ConversationExport.patchRenderer renderer) ∧
    includes (PaletteSystem.patchRenderer (ConversationExport.patchRenderer renderer))
      "Color Themes".toList = false := by
  have hne1 : PaletteSystem.exportIifeStart ≠ [] := by decide
  have hne2 : "Color Themes".toList ≠ [] := by decide
  have hs1 : safePairs PaletteSystem.exportIifeStart PaletteSystem.pairs = true := by decide!
  have hs2 : safePairs "Color Themes".toList PaletteSystem.pairs = true := by decide!
  have hocc : ∀ pat : Text, pat ≠ [] → safePairs pat PaletteSystem.pairs = true →
      includes renderer pat = false →
      includes (PaletteSystem.part4
        (PaletteSystem.engineCode ++ ConversationExport.patchRenderer renderer)) pat = false :=
    fun pat hne hs h0 =>
      (occurrences_eq_zero_iff _ hne _).mp
        (PaletteSystem.occurrences_part4 _ _ hs
          (PaletteSystem.occurrences_engine _ _ hs
            (ConversationExport.occurrences_patchRenderer _ _ hs
              ((occurrences_eq_zero_iff _ hne _).mpr h0))))
  have h1 : indexOf (PaletteSystem.part4
        (PaletteSystem.engineCode ++ ConversationExport.patchRenderer renderer))
      PaletteSystem.exportIifeStart = -1 := by
    simpa [includes] using hocc _ hne1 hs1 hanchor
  have h2 : PaletteSystem.patchRenderer (ConversationExport.patchRenderer renderer)
      = PaletteSystem.part4
          (PaletteSystem.engineCode ++ ConversationExport.patchRenderer renderer) :=
    PaletteSystem.part5_of_not_found _ h1
  refine ⟨h1, h2, ?_⟩
  rw [h2]
  exact hocc _ hne2 hs2 hpicker

set_option maxRecDepth 1000000 in
/-- Witness for C16: `rendererSample` has the chat header;
`patch-conversation-export.js` puts in the export button, and the renderer that
`patch-palette-system.js` then writes has no `Color Themes`. -/
theorem palette_picker_anchor_not_found_witness :
    includes rendererSample ConversationExport.oldHeader = true ∧
    includes (ConversationExport.patchRenderer rendererSample) "children:\"Export\"".toList
      = true ∧
    includes (PaletteSystem.patchRenderer (ConversationExport.patchRenderer rendererSample))
      "Color Themes".toList = false :=
  ⟨by decide!, by decide!,
    (palette_picker_anchor_not_found rendererSample (by decide!) (by decide!)).2.2⟩

set_option maxRecDepth 1000000 in
/-- C17: `cssVarReplacements` has 27 entries, one for each key of the object
that `VAR_MAP_JS` denotes, in the same order; the old text of each entry names
the custom property the key is mapped to, and its new text is that property,
a colon and a blank, and the `midnight-blush` colour of the key; the body
gradient written by step 1b is the gradient from `bodyGradientFrom` to
`bodyGradientTo` of `midnight-blush`. -/
theorem static_theme_is_midnight_blush :
    ColorPalette.cssVarReplacements.length = 27 ∧
    PaletteSystem.objectLiteral PaletteSystem.VAR_MAP = PaletteSystem.VAR_MAP_JS ∧
    PaletteSystem.VAR_MAP.map (fun kp =>
        (List.lookup kp.1 PaletteSystem.midnightBlush).map fun colour =>
          kp.2 ++ ": ".toList ++ colour)
      = ColorPalette.cssVarReplacements.map (fun r => some r.2) ∧
    PaletteSystem.VAR_MAP.map (fun kp => kp.2 ++ ": ".toList)
      = ColorPalette.cssVarReplacements.map
          (fun r => r.1.take ((r.1.takeWhile (fun c => c ≠ ':')).length + 2)) ∧
    (List.lookup "bodyGradientFrom".toList PaletteSystem.midnightBlush).bind (fun a =>
        (List.lookup "bodyGradientTo".toList PaletteSystem.midnightBlush).map fun b =>
          "background:linear-gradient(135deg,".toList ++ a ++ ",".toList ++ b ++ ")".toList)
      = some ColorPalette.bodyGradientNew := by
  decide!

/-- Evaluation for C18 on the main text `roro-droro-dev`: step 1a replaces the
one occurrence of `roro-dev` and logs the count 1, and the result
`roro-devero-dev` contains `roro-dev` again: the last two code units of the
pattern are the first two of the replacement text.  The later steps leave this
text as it is, and the check `No remaining roro-dev` of the script reports
`FAIL`. -/
theorem rebrand_creates_new_occurrence :
    Rebrand.step1a "roro-droro-dev".toList = ("roro-devero-dev".toList, 1) ∧
      includes (Rebrand.step1a "roro-droro-dev".toList).1 "roro-dev".toList = true ∧
      Rebrand.part1 "roro-droro-dev".toList = "roro-devero-dev".toList ∧
      ("No remaining roro-dev", false)
        ∈ Rebrand.mainResults (Rebrand.part1 "roro-droro-dev".toList) := by
  decide

/-- C18 (the code diverges from the claim): for every main text, the result of
step 1a contains `roro-dev` exactly when the input contains `roro-droro-dev` (it
has as many occurrences of the former as the input has of the latter, so none
is left when the input is free of `roro-droro-dev`), and the logged count is the
number of positions of the input at which `roro-dev` starts.  On a main text
that contains `roro-droro-dev` the replacement text so creates an occurrence of
`roro-dev`, steps 1b to 1g do not remove it, and the check
`No remaining roro-dev` of the script reports `FAIL` on the text written. -/
theorem rebrand_result_contains_old_iff (mainCode : Text) :
    includes (Rebrand.step1a mainCode).1 "roro-dev".toList
        = includes mainCode "roro-droro-dev".toList ∧
      occurrences "roro-dev".toList (Rebrand.step1a mainCode).1
        = occurrences "roro-droro-dev".toList mainCode ∧
      (Rebrand.step1a mainCode).2 = occurrences "roro-dev".toList mainCode ∧
      (includes mainCode "roro-droro-dev".toList = true →
        includes (Rebrand.part1 mainCode) "roro-dev".toList = true ∧
        ("No remaining roro-dev", false) ∈ Rebrand.mainResults (Rebrand.part1 mainCode)) := by
  have hocc := Rebrand.occurrences_scan mainCode mainCode 0 0
  have hcount := Rebrand.matchCountAux_eq mainCode 0
  have hold : Rebrand.userDataOld = "roro-dev".toList := rfl
  have hlong : "roro-d".toList ++ Rebrand.userDataOld = "roro-droro-dev".toList := by decide
  rw [hlong, hold, List.drop_zero] at hocc
  rw [hold, List.drop_zero] at hcount
  have h1 := occurrences_eq_zero_iff "roro-dev".toList (by decide) (Rebrand.step1a mainCode).1
  have h2 := occurrences_eq_zero_iff "roro-droro-dev".toList (by decide) mainCode
  have hocc2 : occurrences "roro-dev".toList (Rebrand.step1a mainCode).1
      = occurrences "roro-droro-dev".toList mainCode := hocc
  refine ⟨?_, hocc, hcount, fun hin => ?_⟩
  · rw [hocc2] at h1
    cases ha : includes (Rebrand.step1a mainCode).1 "roro-dev".toList <;>
      cases hb : includes mainCode "roro-droro-dev".toList <;> simp_all
  · have hpos : 0 < occurrences "roro-droro-dev".toList mainCode :=
      (occurrences_pos_iff _ (by decide) _).mpr ((includes_eq_true_iff _ _).mp hin)
    have hle := Rebrand.occurrences_le_part1 mainCode
    have hpart : includes (Rebrand.part1 mainCode) "roro-dev".toList = true := by
      rw [includes_eq_true_iff, ← occurrences_pos_iff _ (by decide)]
      omega
    refine ⟨hpart, ?_⟩
    have hmem := Rebrand.mem_mainResults_remaining (Rebrand.part1 mainCode)
    rw [hpart] at hmem
    exact hmem

/-- Witness for C18: a main text with two occurrences, none of them after
`roro-d`, on which no `roro-dev` is left; and the main text `roro-droro-dev`, on
which the check of the script reports `FAIL`. -/
theorem rebrand_result_contains_old_iff_witness :
    includes (Rebrand.step1a "a roro-dev-1 b roro-dev".toList).1 "roro-dev".toList = false ∧
      (Rebrand.step1a "a roro-dev-1 b roro-dev".toList).2 = 2 ∧
      includes "roro-droro-dev".toList "roro-droro-dev".toList = true ∧
      ("No remaining roro-dev", false)
        ∈ Rebrand.mainResults (Rebrand.part1 "roro-droro-dev".toList) :=
  ⟨((rebrand_result_contains_old_iff "a roro-dev-1 b roro-dev".toList).1).trans (by decide),
    ((rebrand_result_contains_old_iff "a roro-dev-1 b roro-dev".toList).2.2.1).trans
      (by decide),
    by decide,
    ((rebrand_result_contains_old_iff "roro-droro-dev".toList).2.2.2 (by decide)).2⟩

/-- C19: for every PNG buffer read from a file that has at least 24 octets,
`createIcoFromPng` writes the 6-octet header (reserved 0, type 1, count 1), one
16-octet directory entry (the width and the height read big-endian at offsets
16 and 20, or 0 when the dimension is 256 or more; palette 0; reserved 0;
1 plane; 32 bits per pixel; the PNG length, little-endian; data offset 22) and
then the PNG octets unchanged, which makes the PNG length plus 22 octets. -/
theorem createIcoFromPng_layout (file pngData : List Nat)
    (hread : CreateIcon.readFileSync file = some pngData) (h24 : 24 ≤ pngData.length) :
    ∃ width height ico,
      CreateIcon.readUInt32BE pngData 16 = some width ∧
      CreateIcon.readUInt32BE pngData 20 = some height ∧
      CreateIcon.createIcoFromPng file = some ico ∧
      ico = [0, 0, 1, 0, 1, 0]
        ++ [if 256 ≤ width then 0 else width, if 256 ≤ height then 0 else height, 0, 0,
            1, 0, 32, 0,
            pngData.length % 256, pngData.length / 256 % 256,
            pngData.length / 65536 % 256, pngData.length / 16777216 % 256,
            22, 0, 0, 0]
        ++ pngData ∧
      pngData.length % 256 + 256 * (pngData.length / 256 % 256)
        + 65536 * (pngData.length / 65536 % 256)
        + 16777216 * (pngData.length / 16777216 % 256) = pngData.length ∧
      ico.length = pngData.length + 22 := by
  have hlen : pngData.length ≤ 2 ^ 31 - 1 := by
    unfold CreateIcon.readFileSync at hread
    split_ifs at hread with h
    obtain rfl : file = pngData := by simpa using hread
    exact h
  have hlen2 : pngData.length < 4294967296 := by
    have : (2 : Nat) ^ 31 - 1 < 4294967296 := by norm_num
    omega
  have h16 : 16 + 4 ≤ pngData.length := by omega
  have h20 : 20 + 4 ≤ pngData.length := by omega
  obtain ⟨width, hwidth⟩ : ∃ w, CreateIcon.readUInt32BE pngData 16 = some w := ⟨_, if_pos h16⟩
  obtain ⟨height, hheight⟩ : ∃ h, CreateIcon.readUInt32BE pngData 20 = some h := ⟨_, if_pos h20⟩
  refine ⟨width, height, _, hwidth, hheight, ?_, rfl, by omega, by simp⟩
  have hw : ∀ n : Nat, ∃ m, (if n ≥ 256 then 0 else n) = m ∧ (if 256 ≤ n then 0 else n) = m ∧
      m < 256 := by
    intro n
    refine ⟨_, rfl, rfl, ?_⟩
    split_ifs with h <;> omega
  obtain ⟨w8, hw1, hw2, hw3⟩ := hw width
  obtain ⟨h8, hh1, hh2, hh3⟩ := hw height
  simp only [CreateIcon.createIcoFromPng, CreateIcon.header, CreateIcon.entry, hread, hwidth, hheight, hw1, hw2, hh1, hh2,
    Option.bind_eq_bind, Option.some_bind, CreateIcon.alloc, CreateIcon.writeUInt16LE,
    CreateIcon.writeUInt8, CreateIcon.writeUInt32LE, List.replicate, List.length_set,
    List.length_cons, List.length_nil]
  simp [hw3, hh3, hlen2]

/-- Witness for C19: a 24-octet buffer with the dimensions 48 and 300. -/
theorem createIcoFromPng_layout_witness :
    CreateIcon.createIcoFromPng CreateIcon.pngHead
      = some ([0, 0, 1, 0, 1, 0] ++ [48, 0, 0, 0, 1, 0, 32, 0, 24, 0, 0, 0, 22, 0, 0, 0]
          ++ CreateIcon.pngHead) := by
  obtain ⟨width, height, ico, hw, hh, hico, hlayout, -, -⟩ :=
    createIcoFromPng_layout CreateIcon.pngHead CreateIcon.pngHead (by decide) (by decide)
  obtain rfl : 48 = width := by simpa [CreateIcon.readUInt32BE, CreateIcon.pngHead] using hw
  obtain rfl : 300 = height := by simpa [CreateIcon.readUInt32BE, CreateIcon.pngHead] using hh
  rw [hico, hlayout]
  simp [CreateIcon.pngHead]

set_option maxRecDepth 1000000 in
/-- C20 (counterexample): with a `package.json` that has no `build` member the
array of the configuration checks throws while it is built, after the 14 file
checks: none of the ten configuration checks and none of the fifteen colour
checks is counted, and no total is printed. -/
theorem verify_all_skips_checks_after_throw :
    (VerifyAll.run VerifyAll.noBuildEnv).file = ⟨14, 0⟩ ∧
    (VerifyAll.run VerifyAll.noBuildEnv).cfg = ⟨0, 0⟩ ∧
    (VerifyAll.run VerifyAll.noBuildEnv).color = ⟨0, 0⟩ ∧
    (VerifyAll.run VerifyAll.noBuildEnv).total = none ∧
    (VerifyAll.run VerifyAll.noBuildEnv).exitCode = 1 := by
  decide!

/-- C20 (amended): when no statement of the script throws, every check is
counted whatever the results of the earlier ones: passes plus failures is 36
for the main text, 25 for the renderer, 14 for the files, 10 for the
configuration and 15 for the colours, and the total of the summary is 100. -/
theorem verify_all_counts_every_check (env : VerifyAll.Env)
    (mainCode renderCode appUpdate cssCode : Text)
    (pkg : VerifyAll.Json) (checks : List (String × Bool))
    (hmain : env.readFileSync "out/main/index.js" = some mainCode)
    (hrender : env.readFileSync "out/renderer/assets/index-BFJPEAID.js" = some renderCode)
    (hpkg : env.packageJson = some pkg)
    (hcfg : VerifyAll.cfgChecks pkg = Except.ok checks)
    (hupdate : env.readFileSync "resources/app-update.yml" = some appUpdate)
    (hcss : env.readFileSync "out/renderer/assets/index-CDjYEUtK.css" = some cssCode) :
    (VerifyAll.run env).main.pass + (VerifyAll.run env).main.fail = 36 ∧
    (VerifyAll.run env).render.pass + (VerifyAll.run env).render.fail = 25 ∧
    (VerifyAll.run env).file.pass + (VerifyAll.run env).file.fail = 14 ∧
    (VerifyAll.run env).cfg.pass + (VerifyAll.run env).cfg.fail = 10 ∧
    (VerifyAll.run env).color.pass + (VerifyAll.run env).color.fail = 15 ∧
    ∃ totalPass, (VerifyAll.run env).total = some (totalPass, 100) := by
  rw [VerifyAll.run_of_reads env mainCode renderCode appUpdate cssCode pkg checks
    hmain hrender hpkg hcfg hupdate hcss]
  have h1 := VerifyAll.count_true_add_count_false (VerifyAll.mainResults mainCode)
  have h2 := VerifyAll.count_true_add_count_false (VerifyAll.renderResults renderCode)
  have h3 := VerifyAll.count_true_add_count_false (VerifyAll.fileResults env.existsSync)
  have h4 := VerifyAll.count_true_add_count_false (checks.map Prod.snd)
  have h5 := VerifyAll.count_true_add_count_false ((VerifyAll.auChecks appUpdate).map Prod.snd)
  have h6 := VerifyAll.count_true_add_count_false ((VerifyAll.colorChecks cssCode).map Prod.snd)
  rw [VerifyAll.length_mainResults] at h1
  rw [VerifyAll.length_renderResults] at h2
  rw [VerifyAll.length_fileResults] at h3
  rw [List.length_map, VerifyAll.length_cfgChecks pkg checks hcfg] at h4
  rw [List.length_map, VerifyAll.length_auChecks] at h5
  rw [List.length_map, VerifyAll.length_colorChecks] at h6
  simp only [VerifyAll.summary, VerifyAll.tally_eq]
  split_ifs with h
  · dsimp only
    refine ⟨by omega, by omega, by omega, by omega, by omega, _,
      congrArg some (Prod.ext rfl ?_)⟩
    dsimp only
    omega
  · dsimp only
    refine ⟨by omega, by omega, by omega, by omega, by omega, _,
      congrArg some (Prod.ext rfl ?_)⟩
    dsimp only
    omega

set_option maxRecDepth 1000000 in
/-- Witness for C20 (amended): a build whose main text fails 34 checks. -/
theorem verify_all_counts_every_check_witness :
    (VerifyAll.run VerifyAll.staleEnv).main = ⟨2, 34⟩ ∧
    (VerifyAll.run VerifyAll.staleEnv).main.pass + (VerifyAll.run VerifyAll.staleEnv).main.fail
      = 36 ∧
    ∃ totalPass, (VerifyAll.run VerifyAll.staleEnv).total = some (totalPass, 100) :=
  ⟨by decide!,
    (verify_all_counts_every_check VerifyAll.staleEnv "true".toList VerifyAll.goodRender
      VerifyAll.goodAppUpdate VerifyAll.goodCss VerifyAll.goodPackage _
      (by decide) (by decide) rfl rfl (by decide) (by decide)).1,
    (verify_all_counts_every_check VerifyAll.staleEnv "true".toList VerifyAll.goodRender
      VerifyAll.goodAppUpdate VerifyAll.goodCss VerifyAll.goodPackage _
      (by decide) (by decide) rfl rfl (by decide) (by decide)).2.2.2.2.2⟩

/-- C21: for every renderer text, none of the eight old inline colours of
`jsColorReplacements` occurs in the text PART 2 of `patch-color-palette.js`
writes back, and the logged `jsCount` is the number of occurrences of the eight
colours in the input, each of which has been replaced. -/
theorem old_inline_colours_all_replaced (render : Text) :
    (∀ r ∈ ColorPalette.jsColorReplacements,
      includes (ColorPalette.part2 render).1 r.1 = false) ∧
    (ColorPalette.part2 render).2
      = (ColorPalette.jsColorReplacements.map fun r => occurrences r.1 render).sum := by
  obtain ⟨hcount, hzero, -⟩ := ColorPalette.foldl_jsStep_spec ColorPalette.jsColorReplacements
    (render, 0) ColorPalette.chainOK_jsColorReplacements
  rw [ColorPalette.part2_eq]
  dsimp only at hcount ⊢
  constructor
  · intro r hr
    have hlast := List.all_eq_true.mp ColorPalette.safePair_accent_button r hr
    simp only [Bool.and_eq_true, Bool.not_eq_true', List.isEmpty_eq_false] at hlast
    obtain ⟨⟨hne, hs1⟩, hs2⟩ := hlast
    have hp1 : plainReplacement ColorPalette.accentNew = true := by decide
    have hp2 : plainReplacement ColorPalette.buttonNew = true := by decide
    have hn1 : ColorPalette.accentOld ≠ [] := by decide
    have hn2 : ColorPalette.buttonOld ≠ [] := by decide
    rw [← occurrences_eq_zero_iff r.1 hne]
    exact occurrences_replaceAll_eq_zero _ _ _ _ hs2 hp2 hn2
      (occurrences_replaceAll_eq_zero _ _ _ _ hs1 hp1 hn1 (hzero r hr))
  · rw [hcount, Nat.zero_add]

/-- Witness for C21: in `color:"#374151",border:"#1f2937"` the two old colours
are replaced and counted. -/
theorem old_inline_colours_all_replaced_witness :
    ("#374151".toList, "#2a3157".toList) ∈ ColorPalette.jsColorReplacements ∧
    includes (ColorPalette.part2 "color:\"#374151\",border:\"#1f2937\"".toList).1
      "#374151".toList = false ∧
    (ColorPalette.part2 "color:\"#374151\",border:\"#1f2937\"".toList).2 = 2 :=
  ⟨by decide,
    (old_inline_colours_all_replaced "color:\"#374151\",border:\"#1f2937\"".toList).1
      ("#374151".toList, "#2a3157".toList) (by decide),
    (old_inline_colours_all_replaced "color:\"#374151\",border:\"#1f2937\"".toList).2.trans
      (by decide)⟩

set_option maxRecDepth 1000000 in
/-- C22: `PALETTES` has 13 entries and the replacement texts name the eleven
roles of `roleNames`.  For each of the 13 palettes, applied to the empty cache,
`__resolveColor` finds a colour for every one of these roles except `accent`,
which is a key of no built-in palette: after any sequence of built-in palettes
`__resolveColor("accent")` is `null`, so the replacement of `:"#eebbc3"` always
yields its fallback, while the other ten roles resolve once a palette has been
applied. -/
theorem accent_role_is_key_of_no_palette :
    PaletteSystem.PALETTES.length = 13 ∧
    ((∀ role ∈ PaletteSystem.roles, role ∈ PaletteSystem.roleNames) ∧
      ∀ role ∈ PaletteSystem.roleNames, role ∈ PaletteSystem.roles) ∧
    (∀ pal ∈ PaletteSystem.PALETTES, ∀ role ∈ PaletteSystem.roles,
      (PaletteSystem.resolveColor (PaletteSystem.applyPalette [] pal) role).isSome
        = (role != "accent".toList)) ∧
    (∀ pals : List PaletteSystem.Palette, (∀ pal ∈ pals, pal ∈ PaletteSystem.PALETTES) →
      PaletteSystem.resolveColor (pals.foldl PaletteSystem.applyPalette []) "accent".toList = none ∧
      (pals ≠ [] → ∀ role ∈ PaletteSystem.roles, role ≠ "accent".toList →
        (PaletteSystem.resolveColor (pals.foldl PaletteSystem.applyPalette []) role).isSome
          = true)) := by
  have hfact := PaletteSystem.roles_defined_but_accent
  have haccent : "accent".toList ∈ PaletteSystem.roles := by decide!
  refine ⟨rfl, ⟨by decide!, by decide!⟩, ?_, ?_⟩
  · intro pal hpal role hrole
    have h := hfact pal hpal role hrole
    have hget : PaletteSystem.get (PaletteSystem.applyPalette [] pal) role
        = PaletteSystem.get pal.colors role := by
      rw [PaletteSystem.applyPalette, List.nil_append]
    rw [← h]
    unfold PaletteSystem.resolveColor
    rw [hget]
    cases PaletteSystem.get pal.colors role with
    | none => rfl
    | some value => cases hv : value.truthy <;> simp [hv]
  · intro pals hpals
    constructor
    · have hnone : PaletteSystem.get (pals.foldl PaletteSystem.applyPalette []) "accent".toList
          = none := by
        apply PaletteSystem.get_foldl_none "accent".toList pals [] rfl
        intro pal hpal
        have h := PaletteSystem.accent_not_key pal (hpals pal hpal)
        cases hg : PaletteSystem.get pal.colors "accent".toList with
        | none => rfl
        | some value => rw [hg] at h; exact absurd h (by simp)
      unfold PaletteSystem.resolveColor
      rw [hnone]
    · intro hne role hrole hnot
      obtain ⟨init, last, rfl⟩ : ∃ init last, pals = init ++ [last] := by
        rcases List.eq_nil_or_concat pals with h | ⟨L, b, h⟩
        · exact absurd h hne
        · exact ⟨L, b, by simpa using h⟩
      have hlast : last ∈ PaletteSystem.PALETTES := hpals last (by simp)
      have h := hfact last hlast role hrole
      have hb : (role != "accent".toList) = true := by simpa using hnot
      rw [hb] at h
      cases hg : PaletteSystem.get last.colors role with
      | none => rw [hg] at h; exact absurd h (by decide)
      | some value =>
        rw [hg] at h
        unfold PaletteSystem.resolveColor
        rw [PaletteSystem.get_foldl_concat role init last value hg]
        simp [show value.truthy = true from h]

/-- Witness for C22: after all 13 built-in palettes have been applied in turn,
`__resolveColor("accent")` is `null` and `__resolveColor("muted")` is not. -/
theorem accent_role_is_key_of_no_palette_witness :
    (∀ pal ∈ PaletteSystem.PALETTES, pal ∈ PaletteSystem.PALETTES) ∧
    PaletteSystem.PALETTES ≠ [] ∧
    PaletteSystem.resolveColor
      (PaletteSystem.PALETTES.foldl PaletteSystem.applyPalette []) "accent".toList = none ∧
    (PaletteSystem.resolveColor
      (PaletteSystem.PALETTES.foldl PaletteSystem.applyPalette []) "muted".toList).isSome = true :=
  have hw := accent_role_is_key_of_no_palette.2.2.2 PaletteSystem.PALETTES (fun _ h => h)
  ⟨fun _ h => h, List.cons_ne_nil _ _, hw.1,
    hw.2 (List.cons_ne_nil _ _) "muted".toList (by decide) (by decide)⟩

/-- C23: for every main text whose first `c.ipcMain.handle("shell:openExternal"`
(the one `indexOf` finds, at index `k + 1`) stands right after a comma, PATCH 4
of `patch-windows-improvements.js` writes that comma, then `configHandlers`,
which begins with a comma, a line break and the `launch-config:set` handler,
then a comma and the anchor: the result holds `,,` before the inserted handler.
The blocks of `patch-ollama-integration.js`, `patch-model-hub.js` and
`patch-conversation-export.js` do not begin with a comma and end with one, and
inserted at the same place they bring no `,,` into a text that has none.  The
anchor of `patch-palette-system.js` is the comma followed by this anchor. -/
theorem launch_config_insert_doubles_comma (code : Text) (k : Nat)
    (hidx : indexOf code WindowsImprovements.shellHandlerPattern = ((k + 1 : Nat) : Int))
    (hcomma : code[k]? = some ',') :
    (WindowsImprovements.patch4 code
        = code.take k ++ (",".toList ++ WindowsImprovements.configHandlers ++ ",".toList
            ++ code.drop (k + 1))
      ∧ ",\nc.ipcMain.handle(\"launch-config:set\"".toList <+: WindowsImprovements.configHandlers
      ∧ includes (WindowsImprovements.patch4 code)
          ",,\nc.ipcMain.handle(\"launch-config:set\"".toList = true
      ∧ includes (WindowsImprovements.patch4 code) ",,".toList = true) ∧
    (OllamaIntegration.ollamaHandlers.head? ≠ some ',' ∧
      OllamaIntegration.ollamaHandlers.getLast? = some ',' ∧
      OllamaIntegration.patch4 code
        = code.take k ++ (",".toList ++ OllamaIntegration.ollamaHandlers ++ code.drop (k + 1)) ∧
      (includes code ",,".toList = false →
        includes (OllamaIntegration.patch4 code) ",,".toList = false)) ∧
    (ModelHub.newHandlers.head? ≠ some ',' ∧ ModelHub.newHandlers.getLast? = some ',' ∧
      ModelHub.patchMain code
        = code.take k ++ (",".toList ++ ModelHub.newHandlers ++ code.drop (k + 1)) ∧
      (includes code ",,".toList = false →
        includes (ModelHub.patchMain code) ",,".toList = false)) ∧
    (ConversationExport.exportHandler.head? ≠ some ',' ∧
      ConversationExport.exportHandler.getLast? = some ',' ∧
      ConversationExport.patchMain code
        = code.take k ++ (",".toList ++ ConversationExport.exportHandler ++ code.drop (k + 1)) ∧
      (includes code ",,".toList = false →
        includes (ConversationExport.patchMain code) ",,".toList = false)) ∧
    PaletteSystem.mainAnchorFull = ",".toList ++ WindowsImprovements.shellHandlerPattern := by
  obtain ⟨hpre, ho, hm, hc⟩ := blocks_first_and_last
  have hsafe := blocks_without_leading_comma
  simp only [Bool.and_eq_true] at hsafe
  obtain ⟨⟨hso, hsm⟩, hsc⟩ := hsafe
  have hwi : WindowsImprovements.patch4 code
      = code.take k ++ (",".toList ++ WindowsImprovements.configHandlers ++ ",".toList
          ++ code.drop (k + 1)) := by
    have := insertBefore_of_indexOf code WindowsImprovements.shellHandlerPattern
      (WindowsImprovements.configHandlers ++ ",".toList) k hidx hcomma
    simpa [WindowsImprovements.patch4, List.append_assoc] using this
  have hol : OllamaIntegration.patch4 code
      = code.take k ++ (",".toList ++ OllamaIntegration.ollamaHandlers ++ code.drop (k + 1)) :=
    insertBefore_of_indexOf code OllamaIntegration.shellHandler _ k hidx hcomma
  have hmh : ModelHub.patchMain code
      = code.take k ++ (",".toList ++ ModelHub.newHandlers ++ code.drop (k + 1)) :=
    insertBefore_of_indexOf code ModelHub.shellHandler _ k hidx hcomma
  have hce : ConversationExport.patchMain code
      = code.take k ++ (",".toList ++ ConversationExport.exportHandler ++ code.drop (k + 1)) :=
    insertBefore_of_indexOf code ConversationExport.shellHandler _ k hidx hcomma
  obtain ⟨rest, hrest⟩ := hpre
  have hlong : ",,\nc.ipcMain.handle(\"launch-config:set\"".toList
      <:+: WindowsImprovements.patch4 code := by
    rw [hwi, ← hrest]
    exact ⟨code.take k, rest ++ ",".toList ++ code.drop (k + 1), by simp⟩
  have hshort : ",,".toList <:+: ",,\nc.ipcMain.handle(\"launch-config:set\"".toList :=
    (List.prefix_iff_eq_append.mpr (by decide) : ",,".toList <+: _).isInfix
  refine ⟨⟨hwi, ⟨rest, hrest⟩, (includes_eq_true_iff _ _).mpr hlong,
    (includes_eq_true_iff _ _).mpr (hshort.trans hlong)⟩,
    ⟨ho.1, ho.2, hol, fun h0 => ?_⟩, ⟨hm.1, hm.2, hmh, fun h0 => ?_⟩,
    ⟨hc.1, hc.2, hce, fun h0 => ?_⟩, by decide⟩
  · rw [hol]
    exact no_double_comma_of_insert code OllamaIntegration.shellHandler _ k hidx hcomma hso h0
  · rw [hmh]
    exact no_double_comma_of_insert code ModelHub.shellHandler _ k hidx hcomma hsm h0
  · rw [hce]
    exact no_double_comma_of_insert code ConversationExport.shellHandler _ k hidx hcomma hsc h0

/-- Witness for C23: in `chainedMain` the anchor is at index 52, after the comma
at index 51, and the text has no `,,`. -/
theorem launch_config_insert_doubles_comma_witness :
    indexOf chainedMain WindowsImprovements.shellHandlerPattern = ((51 + 1 : Nat) : Int) ∧
    chainedMain[51]? = some ',' ∧
    includes chainedMain ",,".toList = false ∧
    includes (WindowsImprovements.patch4 chainedMain) ",,".toList = true ∧
    includes (OllamaIntegration.patch4 chainedMain) ",,".toList = false ∧
    includes (ModelHub.patchMain chainedMain) ",,".toList = false ∧
    includes (ConversationExport.patchMain chainedMain) ",,".toList = false :=
  have hw := launch_config_insert_doubles_comma chainedMain 51 (by decide) (by decide)
  ⟨by decide, by decide, by decide, hw.1.2.2.2, hw.2.1.2.2.2 (by decide),
    hw.2.2.1.2.2.2 (by decide), hw.2.2.2.1.2.2.2 (by decide)⟩

/-- C24: in the verification of `patch-path-normalization.js` the check
`file-map:load normalization` reports `PASS` for every text for which the check
`__normFileMap helper` does, and so do the two checks of these names in
`verify-all.js` (entries 25 and 27 of `mainChecks`).  For a main text with the
target of PATCH 1 the check reports `PASS` on the text the script wrote, also
when the handler PATCH 3 looks for is absent and PATCH 3 changed nothing. -/
theorem load_check_passes_with_helper_check (code verifyCode : Text) :
    (("__normFileMap helper", true) ∈ PathNormalization.results verifyCode →
      ("file-map:load normalization", true) ∈ PathNormalization.results verifyCode) ∧
    ((VerifyAll.mainChecks.map Prod.fst)[25]? = some "__normFileMap helper" ∧
      (VerifyAll.mainChecks.map Prod.fst)[27]? = some "file-map:load normalization" ∧
      ((VerifyAll.mainResults verifyCode)[25]? = some true →
        (VerifyAll.mainResults verifyCode)[27]? = some true)) ∧
    (includes code PathNormalization.helperTarget = true →
      ("file-map:load normalization", true)
          ∈ PathNormalization.results (PathNormalization.run code) ∧
        (includes code PathNormalization.oldLoadMap = false →
          PathNormalization.patch3 (PathNormalization.patch2 (PathNormalization.patch1 code))
            = PathNormalization.patch2 (PathNormalization.patch1 code))) := by
  refine ⟨?_, ⟨by decide, by decide, ?_⟩, ?_⟩
  · rw [PathNormalization.mem_results_helper, PathNormalization.mem_results_load]
    exact includes_of_infix_of_includes _ _ _ (by
      rw [← includes_eq_true_iff]
      decide)
  · have e25 : (VerifyAll.mainResults verifyCode)[25]?
        = some (includes verifyCode "__normFileMap(fm)".toList) := rfl
    have e27 : (VerifyAll.mainResults verifyCode)[27]?
        = some (includes verifyCode "__normFileMap(".toList) := rfl
    rw [e25, e27]
    intro h
    exact congrArg some (includes_of_infix_of_includes _ _ _ (by
      rw [← includes_eq_true_iff]
      decide) (Option.some.inj h))
  · intro h
    refine ⟨?_, PathNormalization.patch3_not_applied code⟩
    rw [PathNormalization.mem_results_load]
    exact PathNormalization.includes_patch4 _ (PathNormalization.includes_patch3 _
      (PathNormalization.includes_patch2_patch1 code h))

/-- Witness for C24: the text `noLoadHandler` has the target of PATCH 1 and not
the handler of PATCH 3, and the text `function __normFileMap(fm)` passes the
helper check. -/
theorem load_check_passes_with_helper_check_witness :
    includes PathNormalization.noLoadHandler PathNormalization.helperTarget = true ∧
    includes PathNormalization.noLoadHandler PathNormalization.oldLoadMap = false ∧
    ("__normFileMap helper", true)
      ∈ PathNormalization.results "function __normFileMap(fm)".toList ∧
    ("file-map:load normalization", true)
      ∈ PathNormalization.results "function __normFileMap(fm)".toList ∧
    ("file-map:load normalization", true)
      ∈ PathNormalization.results (PathNormalization.run PathNormalization.noLoadHandler) ∧
    PathNormalization.patch3
        (PathNormalization.patch2 (PathNormalization.patch1 PathNormalization.noLoadHandler))
      = PathNormalization.patch2 (PathNormalization.patch1 PathNormalization.noLoadHandler) :=
  have hw := load_check_passes_with_helper_check PathNormalization.noLoadHandler
    "function __normFileMap(fm)".toList
  have hhelper : ("__normFileMap helper", true)
      ∈ PathNormalization.results "function __normFileMap(fm)".toList := by
    rw [PathNormalization.mem_results_helper]
    decide
  ⟨by decide, by decide, hhelper, hw.1 hhelper, (hw.2.2 (by decide)).1,
    (hw.2.2 (by decide)).2 (by decide)⟩

end Evero
